import Mathlib

/-!
# gst-plugins-bad: HLS demuxer and MPEG-TS demuxer

Shallow embedding of the parts of `gst/hls/gsthlsdemux.c` and
`gst/mpegtsdemux/tsdemux.c` that the verified properties talk about.

Conventions
* C unsigned 64-bit values (`guint64`, `GstClockTime`) are `Nat`, and every
  operation that can leave the range is reduced `% 2 ^ 64` explicitly.
* C signed values whose range is never left (`gint64` time differences) are `Int`.
* Pointers to heap objects are modelled by the object together with an
  address field used only for pointer comparison.
* Everything the element obtains from outside this source file (the network,
  the packetizer, downstream pads) is an explicit argument.
-/

namespace HlsDemux

/-! ## Cache queue and emitter (`gst_hls_demux_loop`) -/

/-- A downloaded fragment: the bytes taken from the download adapter together
with the two tags `gst_hls_demux_get_next_fragment` sets on it. -/
structure GstBuffer where
  data : List Nat
  duration : Nat
  discont : Bool
deriving DecidableEq, Repr

/-- The result of `gst_pad_push`; only `GST_FLOW_OK` is distinguished by the
emitter, every other value goes to its `error:` label. -/
inductive GstFlowReturn where
  | ok
  | notOk
deriving DecidableEq, Repr

/-- The fields of `GstHLSDemux` used by the emitter, plus the trace of what
was handed to the source pad (`pushed`, `eos_sent`). `waiting` records that the
task is blocked in `GST_TASK_WAIT` in the middle of `gst_hls_demux_loop`. -/
structure EmitterState where
  queue : List GstBuffer
  end_of_playlist : Bool
  task_stopped : Bool
  waiting : Bool
  pushed : List GstBuffer
  eos_sent : Bool
deriving DecidableEq, Repr

/-- The state left by `gst_hls_demux_reset`: empty queue, nothing pushed. -/
def EmitterState.init : EmitterState :=
  { queue := [], end_of_playlist := false, task_stopped := false,
    waiting := false, pushed := [], eos_sent := false }

/-- The `end_of_playlist:` label of `gst_hls_demux_loop`: push EOS, stop. -/
def loop_end_of_playlist (s : EmitterState) : EmitterState :=
  { s with eos_sent := true, task_stopped := true, waiting := false }

/-- The tail of `gst_hls_demux_loop`: `g_queue_pop_head` followed by
`gst_pad_push`; a push that is not `GST_FLOW_OK` stops the task. Popping an
empty queue yields `NULL`, which `gst_pad_push` rejects without pushing. -/
def loop_pop_push (ret : GstFlowReturn) (s : EmitterState) : EmitterState :=
  match s.queue with
  | [] => { s with task_stopped := true, waiting := false }
  | buf :: rest =>
    { s with queue := rest, pushed := s.pushed ++ [buf], waiting := false,
             task_stopped := (ret != GstFlowReturn.ok) }

/-- One scheduling of the emitter task once the first fragments are cached
(`need_cache` false). A task blocked in `GST_TASK_WAIT` resumes after the wait;
`ret` is what downstream answers to the push. -/
def gst_hls_demux_loop (ret : GstFlowReturn) (s : EmitterState) : EmitterState :=
  if s.task_stopped then s
  else if s.waiting then
    -- resumed after GST_TASK_WAIT
    if s.queue.isEmpty && s.end_of_playlist then loop_end_of_playlist s
    else loop_pop_push ret s
  else if s.queue.isEmpty then
    if s.end_of_playlist then loop_end_of_playlist s
    else { s with waiting := true }
  else loop_pop_push ret s

/-- The successful tail of `gst_hls_demux_get_next_fragment`:
`g_queue_push_tail (demux->queue, buf)`. -/
def queue_push_tail (buf : GstBuffer) (s : EmitterState) : EmitterState :=
  { s with queue := s.queue ++ [buf] }

/-- The failing head of `gst_hls_demux_get_next_fragment` when the playlist has
no more fragments: `end_of_playlist = TRUE`. -/
def mark_end_of_playlist (s : EmitterState) : EmitterState :=
  { s with end_of_playlist := true }

/-- The atomic steps whose interleavings make up a run of the pipeline. -/
inductive PipelineStep where
  | enqueue (buf : GstBuffer)
  | playlistEnd
  | emit (ret : GstFlowReturn)
deriving DecidableEq, Repr

def PipelineStep.apply : PipelineStep → EmitterState → EmitterState
  | .enqueue buf, s => queue_push_tail buf s
  | .playlistEnd, s => mark_end_of_playlist s
  | .emit ret, s => gst_hls_demux_loop ret s

/-- Run an interleaving from a state. -/
def runPipeline (steps : List PipelineStep) (s : EmitterState) : EmitterState :=
  steps.foldl (fun st step => step.apply st) s

/-- The segments enqueued by an interleaving, in order. -/
def enqueuedOf : List PipelineStep → List GstBuffer
  | [] => []
  | .enqueue buf :: rest => buf :: enqueuedOf rest
  | _ :: rest => enqueuedOf rest

/-! ## Playlist client, refresh schedule and bitrate adaptation -/

/-- Modelled from the spec: the variant / media playlist object `GstM3U8` of
`m3u8.h` (not part of this source file). `addr` stands for the address of the
object and is only used where the C code compares pointers. `files` holds the
media-sequence numbers of the segments. -/
structure GstM3U8 where
  addr : Nat
  uri : String
  bandwidth : Int
  targetduration : Int
  endlist : Bool
  files : List Nat
deriving DecidableEq, Repr

/-- Modelled from the spec: the client state `GstM3U8Client` of `m3u8.h`.
`lists` are the nodes of the doubly linked variant list of the master playlist
and `main_lists` is the node `client->main->lists` points at (`none` is `NULL`).
`sequence` is the bit pattern of the C integer. -/
structure GstM3U8Client where
  lists : List GstM3U8
  main_lists : Option Nat
  current : GstM3U8
  sequence : Nat
  update_failed_count : Nat
deriving DecidableEq, Repr

/-- Modelled from the spec: what a successful playlist refresh
(`gst_m3u8_client_update`, in `m3u8.c`) installs in the current variant: target
duration, endlist flag and segments are replaced, the failure counter is
adjusted; uri, bandwidth and identity of the variant are kept. -/
structure RefreshOutcome where
  targetduration : Int
  endlist : Bool
  files : List Nat
  update_failed_count : Nat
deriving DecidableEq, Repr

/-- Modelled from the spec: `gst_m3u8_client_update` applied to the parsed text. -/
def gst_m3u8_client_update (c : GstM3U8Client) (o : RefreshOutcome) : GstM3U8Client :=
  { c with
    current := { c.current with targetduration := o.targetduration,
                                endlist := o.endlist, files := o.files },
    update_failed_count := o.update_failed_count }

/-- Modelled from the spec: `gst_m3u8_client_is_live`, a live variant is one
with no endlist. -/
def gst_m3u8_client_is_live (c : GstM3U8Client) : Bool := !c.current.endlist

/-- Modelled from the spec: `gst_m3u8_client_set_current`. -/
def gst_m3u8_client_set_current (c : GstM3U8Client) (m : GstM3U8) : GstM3U8Client :=
  { c with current := m }

/-- The glib accessor `g_list_next` on a node of a list with `len` nodes. -/
def g_list_next (len : Nat) (node : Option Nat) : Option Nat :=
  node.bind fun i => if i + 1 < len then some (i + 1) else none

/-- The glib accessor `g_list_previous`. -/
def g_list_previous (node : Option Nat) : Option Nat :=
  node.bind fun i => if 0 < i then some (i - 1) else none

/-- The element message `playlist` carrying `(uri, bitrate)`. -/
structure PlaylistMessage where
  uri : String
  bitrate : Int
deriving DecidableEq, Repr

/-! ### Single-precision arithmetic (`gfloat`) -/

/-- The number of low bits a natural number loses when it is cut to 24
significant bits: the least `s` with `n / 2 ^ s < 2 ^ 24`. The first argument
is fuel, `n` itself always being enough. -/
def round_shift : Nat → Nat → Nat
  | 0, _ => 0
  | fuel + 1, n => if n < 2 ^ 24 then 0 else round_shift fuel (n / 2) + 1

/-- Rounding of a natural number to 24 significant bits, to nearest with ties
to even: the rounding of an IEEE 754 single-precision result. -/
def round24 (n : Nat) : Nat :=
  let shift := round_shift n n
  let q := n / 2 ^ shift
  let r := n % 2 ^ shift
  if 2 * r < 2 ^ shift then q * 2 ^ shift
  else if 2 * r > 2 ^ shift then (q + 1) * 2 ^ shift
  else if q % 2 = 0 then q * 2 ^ shift
  else (q + 1) * 2 ^ shift

/-- A finite `gfloat` (IEEE 754 single precision): the value
`num / 2 ^ scale`. Every finite single-precision value has this form. The
operations below are those of C evaluated in single precision, for results in
the normal range (no overflow to infinity, no subnormal result). -/
structure GFloat where
  num : Int
  scale : Nat
deriving DecidableEq, Repr

/-- The `gfloat` nearest to `num / 2 ^ scale`. -/
def GFloat.round (num : Int) (scale : Nat) : GFloat :=
  { num := if 0 ≤ num then (round24 num.toNat : Int) else -(round24 (-num).toNat : Int),
    scale := scale }

/-- Conversion of a C integer to `gfloat`. -/
def GFloat.ofInt (i : Int) : GFloat := GFloat.round i 0

/-- The product of two `gfloat`: the exact product, rounded. -/
def GFloat.mul (a b : GFloat) : GFloat := GFloat.round (a.num * b.num) (a.scale + b.scale)

/-- Conversion of a `gfloat` to a C integer: truncation toward zero. -/
def GFloat.toInt (a : GFloat) : Int :=
  if 0 ≤ a.num then a.num / 2 ^ a.scale else -((-a.num) / 2 ^ a.scale)

/-- The constant `DEFAULT_BITRATE_SWITCH_TOLERANCE`, 0.4, stored in a `gfloat`:
the nearest single-precision value is `13421773 / 2 ^ 25`. -/
def DEFAULT_BITRATE_SWITCH_TOLERANCE : GFloat := { num := 13421773, scale := 25 }

/-- The fields of `GstHLSDemux` used by scheduling and adaptation.
`next_update` is the instant denoted by the `GTimeVal`, in microseconds;
`accumulated_delay` is in nanoseconds; `bitrate_switch_tol` is a `gfloat`;
`posted` is the trace of messages posted on the bus. -/
structure GstHLSDemux where
  client : GstM3U8Client
  fragments_cache : Nat
  bitrate_switch_tol : GFloat
  next_update : Int
  accumulated_delay : Int
  posted : List PlaylistMessage
deriving DecidableEq

def GST_SECOND : Int := 1000000000

/-- The array `static const float update_interval_factor[] = { 1, 0.5, 1.5, 3 }`;
each entry is an exact single-precision value. -/
def update_interval_factor : List GFloat :=
  [{ num := 1, scale := 0 }, { num := 1, scale := 1 }, { num := 3, scale := 1 },
   { num := 3, scale := 0 }]

/-- Conversion of a floating value to a C integer: truncation toward zero. -/
def truncToInt (q : ℚ) : Int := if 0 ≤ q then ⌊q⌋ else ⌈q⌉

/-- The factor chosen by `gst_hls_demux_schedule` for a failure count. -/
def schedule_update_factor (count : Nat) : GFloat :=
  if count < 3 then update_interval_factor.getD count { num := 0, scale := 0 }
  else update_interval_factor.getD 3 { num := 0, scale := 0 }

/-- The function `gst_hls_demux_schedule`: `g_time_val_add (&next_update,
targetduration * update_factor * 1000000)`. The `gint` target duration and the
constant 1000000 are converted to `gfloat`, both products are single-precision
products, and the result is converted to the `glong` argument. -/
def gst_hls_demux_schedule (d : GstHLSDemux) : GstHLSDemux :=
  let count := d.client.update_failed_count
  let update_factor := schedule_update_factor count
  { d with next_update := d.next_update
      + GFloat.toInt (GFloat.mul
          (GFloat.mul (GFloat.ofInt d.client.current.targetduration) update_factor)
          (GFloat.ofInt 1000000)) }

/-- The function `gst_hls_demux_update_playlist`; `fetched` is `none` when the
fetch fails or the bytes are not valid UTF-8, in which case the client is left
alone and the result is `FALSE`. -/
def gst_hls_demux_update_playlist (fetched : Option RefreshOutcome) (d : GstHLSDemux) :
    GstHLSDemux × Bool :=
  match fetched with
  | none => (d, false)
  | some o => ({ d with client := gst_m3u8_client_update d.client o }, true)

/-- The function `gst_hls_demux_change_playlist`. -/
def gst_hls_demux_change_playlist (fetched : Option RefreshOutcome) (is_fast : Bool)
    (d : GstHLSDemux) : GstHLSDemux :=
  let list :=
    if is_fast then g_list_next d.client.lists.length d.client.main_lists
    else g_list_previous d.client.main_lists
  match list with
  | none => d
  | some i =>
    match d.client.lists[i]? with
    | none => d
    | some data =>
      /- Don't do anything else if the playlist is the same -/
      if data.addr = d.client.current.addr then d
      else
        let c1 : GstM3U8Client := { d.client with main_lists := some i }
        let c2 := gst_m3u8_client_set_current c1 data
        let d3 := (gst_hls_demux_update_playlist fetched { d with client := c2 }).1
        { d3 with posted := d3.posted ++
            [{ uri := d3.client.current.uri, bitrate := d3.client.current.bandwidth }] }

/-- The `diff` of `gst_hls_demux_switch_playlist`:
`GST_TIMEVAL_TO_TIME (next_update) - GST_TIMEVAL_TO_TIME (now)`, nanoseconds. -/
def switch_diff (d : GstHLSDemux) (now : Int) : Int :=
  d.next_update * 1000 - now * 1000

/-- The `limit` of `gst_hls_demux_switch_playlist`:
`targetduration * GST_SECOND * bitrate_switch_tol`, stored in a `gint64`. The
integer product `targetduration * GST_SECOND` is converted to `gfloat`,
multiplied by the `gfloat` tolerance in single precision, and the result is
converted to `gint64`. -/
def switch_limit (d : GstHLSDemux) : Int :=
  GFloat.toInt (GFloat.mul (GFloat.ofInt (d.client.current.targetduration * GST_SECOND))
    d.bitrate_switch_tol)

/-- The function `gst_hls_demux_switch_playlist`; `now` is the current time in
microseconds, `fetched` the refresh performed if the variant changes. -/
def gst_hls_demux_switch_playlist (fetched : Option RefreshOutcome) (now : Int)
    (d : GstHLSDemux) : GstHLSDemux :=
  if d.client.main_lists.isNone then d
  else
    let diff := switch_diff d now
    let limit := switch_limit d
    if diff > limit then
      gst_hls_demux_change_playlist fetched true d
    else if diff < 0 then
      let d1 := { d with accumulated_delay := d.accumulated_delay - diff }
      if d1.accumulated_delay ≥ limit then
        gst_hls_demux_change_playlist fetched false d1
      else if d1.accumulated_delay < 0 then
        { d1 with accumulated_delay := 0 }
      else d1
    else d

/-- The live-start block of `gst_hls_demux_cache_fragments`: move the cursor to
the end of the list and subtract `fragments_cache`. `fragments_cache` and the
list length are `guint`, so the cursor is added and compared as a 32-bit
unsigned value. -/
def cache_fragments_live_start (d : GstHLSDemux) : GstHLSDemux :=
  if gst_m3u8_client_is_live d.client then
    let sequence := (d.client.sequence + d.client.current.files.length) % 2 ^ 32
    let sequence := if sequence ≥ d.fragments_cache then sequence - d.fragments_cache else 0
    { d with client := { d.client with sequence := sequence } }
  else d

/-! ### Concrete states used as test inputs -/

/-- Variant A at 500 kbit/s: target duration 10 s, live. -/
def variantA : GstM3U8 :=
  { addr := 1, uri := "URI_A", bandwidth := 500000, targetduration := 10,
    endlist := false, files := [] }

/-- Variant B at 1500 kbit/s. -/
def variantB : GstM3U8 :=
  { addr := 2, uri := "URI_B", bandwidth := 1500000, targetduration := 10,
    endlist := false, files := [] }

/-- A demuxer playing variant A of the master [A, B] with the default tolerance
0.4, no refresh failure so far, `next_update` at 100 s. -/
def demuxOnA : GstHLSDemux :=
  { client := { lists := [variantA, variantB], main_lists := some 0, current := variantA,
                sequence := 0, update_failed_count := 0 },
    fragments_cache := 3, bitrate_switch_tol := DEFAULT_BITRATE_SWITCH_TOLERANCE,
    next_update := 100000000, accumulated_delay := 0, posted := [] }

/-- The same demuxer playing variant B. -/
def demuxOnB : GstHLSDemux :=
  { demuxOnA with client := { demuxOnA.client with main_lists := some 1, current := variantB } }

/-- The demuxer `demuxOnA` after `k` refreshes that brought nothing new. -/
def demuxWithFailures (k : Nat) : GstHLSDemux :=
  { demuxOnA with client := { demuxOnA.client with update_failed_count := k } }

/-- The demuxer `demuxOnA` with a target duration of 359 s after `k` refreshes
that brought nothing new. -/
def demuxLongTarget (k : Nat) : GstHLSDemux :=
  { demuxOnA with
      client := { demuxOnA.client with current := { variantA with targetduration := 359 },
                                       update_failed_count := k } }

/-- The demuxer `demuxOnA` with a target duration of 30 s. -/
def demuxTarget30 : GstHLSDemux :=
  { demuxOnA with
      client := { demuxOnA.client with
                    lists := [{ variantA with targetduration := 30 }, variantB],
                    current := { variantA with targetduration := 30 } } }

/-- The advance of `next_update` made by one call of `gst_hls_demux_schedule`,
in microseconds. -/
def schedule_delta (d : GstHLSDemux) : Int :=
  (gst_hls_demux_schedule d).next_update - d.next_update

/-- A live variant whose first load lists `n` segments numbered from
`first_seq`, with the cursor at `prior` and the given `fragments_cache`. -/
def liveFirstLoad (first_seq n prior fragments_cache : Nat) : GstHLSDemux :=
  { client := { lists := [], main_lists := none,
                current := { addr := 1, uri := "URI_A", bandwidth := 500000,
                             targetduration := 10, endlist := false,
                             files := (List.range n).map (fun k => first_seq + k) },
                sequence := prior, update_failed_count := 0 },
    fragments_cache := fragments_cache, bitrate_switch_tol := DEFAULT_BITRATE_SWITCH_TOLERANCE,
    next_update := 0, accumulated_delay := 0, posted := [] }

/-! ## Fetching a URI (`gst_hls_demux_fetch_location`) -/

/-- The fields of `GstHLSDemux` used while fetching a URI: the bytes in the
`download` adapter, whether `fetcher` is non-`NULL`, the flags, whether
`fetcher_cond` was signalled, and the element errors posted. -/
structure FetchState where
  download : List Nat
  fetcher : Bool
  fetcher_error : Bool
  stopping_fetcher : Bool
  cancelled : Bool
  signalled : Bool
  element_errors : List String
deriving DecidableEq, Repr

/-- What reaches the demuxer from the fetcher element and from the application
while `gst_hls_demux_fetch_location` waits: a buffer on the fetcher pad, a
message on the fetcher bus (`is_error` for `GST_MESSAGE_ERROR`), EOS on the
fetcher pad, or the state change PAUSED to READY. -/
inductive FetcherEvent where
  | chain (buf : List Nat)
  | bus (is_error : Bool)
  | eos
  | paused_to_ready
deriving DecidableEq, Repr

/-- The function `gst_hls_demux_fetcher_chain`. -/
def gst_hls_demux_fetcher_chain (buf : List Nat) (s : FetchState) : FetchState :=
  if s.fetcher_error then s
  else { s with download := s.download ++ buf }

/-- The function `gst_hls_demux_fetcher_bus_handler`. -/
def gst_hls_demux_fetcher_bus_handler (is_error : Bool) (s : FetchState) : FetchState :=
  if is_error then { s with fetcher_error := true, signalled := true } else s

/-- The function `gst_hls_demux_fetcher_sink_event` on an EOS event. -/
def gst_hls_demux_fetcher_sink_event (s : FetchState) : FetchState :=
  /- signal we have fetched the URI -/
  if !s.cancelled then { s with signalled := true } else s

/-- The `GST_STATE_CHANGE_PAUSED_TO_READY` case of `gst_hls_demux_change_state`. -/
def change_state_paused_to_ready (s : FetchState) : FetchState :=
  { s with cancelled := true, signalled := true }

def FetcherEvent.apply : FetcherEvent → FetchState → FetchState
  | .chain buf, s => gst_hls_demux_fetcher_chain buf s
  | .bus is_error, s => gst_hls_demux_fetcher_bus_handler is_error s
  | .eos, s => gst_hls_demux_fetcher_sink_event s
  | .paused_to_ready, s => change_state_paused_to_ready s

/-- The function `gst_hls_demux_stop_fetcher`. -/
def gst_hls_demux_stop_fetcher (cancelled : Bool) (s : FetchState) : FetchState :=
  if !s.fetcher || s.stopping_fetcher then s
  else
    let s1 : FetchState := { s with stopping_fetcher := true, fetcher := false }
    /- if we stopped it to cancell a download, free the cached buffer -/
    if cancelled && s1.download.isEmpty then { s1 with download := [], signalled := true }
    else s1

/-- The function `gst_hls_demux_make_fetcher`; `uri_valid` is the result of
`gst_uri_is_valid` and `made` tells whether `gst_element_make_from_uri` gave an
element. -/
def gst_hls_demux_make_fetcher (uri_valid made : Bool) (s : FetchState) : FetchState × Bool :=
  if !uri_valid then (s, false)
  else if !made then ({ s with fetcher := false }, false)
  else ({ s with fetcher := true, fetcher_error := false, stopping_fetcher := false }, true)

/-- The function `gst_hls_demux_fetch_location`. `state_ok` tells that setting
the fetcher to PLAYING did not fail; `events` is what happens, in order, between
the start of the fetcher and the return of `g_cond_wait`. `none` when
`fetcher_cond` is never signalled, so that the wait does not return. -/
def gst_hls_demux_fetch_location (uri_valid made state_ok : Bool)
    (events : List FetcherEvent) (s : FetchState) : Option (FetchState × Bool) :=
  let m := gst_hls_demux_make_fetcher uri_valid made s
  if !m.2 then
    some ({ m.1 with element_errors := m.1.element_errors ++
              ["Could not create an element to fetch the given URI."] }, false)
  else if !state_ok then
    some ({ m.1 with element_errors := m.1.element_errors ++
              ["Error changing state of the fetcher element."] }, false)
  else
    /- wait until we have fetched the uri -/
    let s1 := events.foldl (fun st ev => ev.apply st) { m.1 with signalled := false }
    if !s1.signalled then none
    else
      let s2 := gst_hls_demux_stop_fetcher false s1
      if !s2.download.isEmpty then (some (s2, true)) else some (s2, false)

/-- The state before a fetch: empty adapter, no fetcher. -/
def FetchState.idle : FetchState :=
  { download := [], fetcher := false, fetcher_error := false, stopping_fetcher := false,
    cancelled := false, signalled := false, element_errors := [] }

/-- What the caller of a fetch sees: the result and the bytes left in the
adapter. -/
def fetchSummary (r : Option (FetchState × Bool)) : Option (Bool × List Nat × Bool) :=
  r.map fun p => (p.2, p.1.download, p.1.fetcher_error)

/-! ## The segment pipeline: caching, updater thread, emitter -/

/-- What one call of `gst_hls_demux_fetch_location` for a fragment leaves: the
bytes in the adapter when it returned `TRUE` (`none` when it returned `FALSE`),
and whether `demux->cancelled` was set meanwhile. -/
structure FetchOutcome where
  data : Option (List Nat)
  cancelled : Bool
deriving DecidableEq, Repr

/-- The network and the playlist entries as seen by the pipeline: the outcome of
fetching the fragment with a given media-sequence number and the duration the
playlist gives it. -/
structure FragmentEnv where
  fetch : Nat → FetchOutcome
  duration : Nat → Nat

/-- The demuxer as seen by the segment pipeline. `main` is `client->main`;
`updater_started` and `updater_quit` follow the updates thread; `element_errors`
are the `GST_ELEMENT_ERROR` messages and `log` the `GST_ERROR_OBJECT` lines. -/
structure Pipeline where
  demux : GstHLSDemux
  main : GstM3U8
  emitter : EmitterState
  need_cache : Bool
  cancelled : Bool
  updater_started : Bool
  updater_quit : Bool
  element_errors : List String
  log : List String

/-- Modelled from the spec: `gst_m3u8_client_get_next_fragment` (in `m3u8.c`).
The next segment is the first one whose media-sequence number is not below the
cursor; the cursor moves past it; the discontinuity flag tells that the cursor
did not point at it. `none` at the end of the playlist. -/
def gst_m3u8_client_get_next_fragment (c : GstM3U8Client) :
    Option (GstM3U8Client × Bool × Nat) :=
  match c.current.files.find? (fun f => decide (c.sequence ≤ f)) with
  | none => none
  | some f => some ({ c with sequence := f + 1 }, decide (c.sequence ≠ f), f)

/-- Modelled from the spec: the macro `gst_m3u8_client_has_variant_playlist`
of `m3u8.h`, `client->main->lists != NULL`. -/
def gst_m3u8_client_has_variant_playlist (c : GstM3U8Client) : Bool := c.main_lists.isSome

/-- The function `gst_hls_demux_get_next_fragment` (the caps found on the first
buffer are left out). -/
def gst_hls_demux_get_next_fragment (env : FragmentEnv) (s : Pipeline) : Pipeline × Bool :=
  match gst_m3u8_client_get_next_fragment s.demux.client with
  | none =>
    /- This playlist doesn't contain more fragments -/
    ({ s with emitter := mark_end_of_playlist s.emitter }, false)
  | some (client, discont, file) =>
    let s1 : Pipeline :=
      { s with demux := { s.demux with client := client },
               cancelled := s.cancelled || (env.fetch file).cancelled }
    match (env.fetch file).data with
    | none => (s1, false)
    | some bytes =>
      let buf : GstBuffer := { data := bytes, duration := env.duration file, discont := discont }
      ({ s1 with emitter := queue_push_tail buf s1.emitter }, true)

/-- The loop "Cache the first fragments" of `gst_hls_demux_cache_fragments`,
with the number of iterations left. -/
def cache_fragments_loop (env : FragmentEnv) : Nat → Pipeline → Pipeline × Bool
  | 0, s => (s, true)
  | n + 1, s =>
    let g := gst_hls_demux_get_next_fragment env s
    if !g.2 then
      (if !g.1.cancelled then
         { g.1 with log := g.1.log ++ ["Error caching the first fragments"] }
       else g.1, false)
    /- make sure we stop caching fragments if something cancelled it -/
    else if g.1.cancelled then (g.1, false)
    else cache_fragments_loop env n g.1

/-- The part of `gst_hls_demux_cache_fragments` before the caching loop: the
main playlist is made current and refreshed if live, the first variant is
selected and refreshed, the live cursor is placed. `main_refresh` and
`child_refresh` are the results of the two playlist downloads. -/
def cache_fragments_prepare (main_refresh child_refresh : Option RefreshOutcome)
    (s : Pipeline) : Pipeline × Bool :=
  /- Start parsing the main playlist -/
  let d0 : GstHLSDemux := { s.demux with client := gst_m3u8_client_set_current s.demux.client s.main }
  let r1 : GstHLSDemux × Bool :=
    if gst_m3u8_client_is_live d0.client then gst_hls_demux_update_playlist main_refresh d0
    else (d0, true)
  if !r1.2 then
    ({ s with demux := r1.1, log := s.log ++ ["Could not fetch the main playlist"] }, false)
  else
    /- If this playlist is a variant playlist, select the first one and update it -/
    let r2 : GstHLSDemux × Bool :=
      if gst_m3u8_client_has_variant_playlist r1.1.client then
        let child := r1.1.client.lists.getD (r1.1.client.main_lists.getD 0) r1.1.client.current
        gst_hls_demux_update_playlist child_refresh
          { r1.1 with client := gst_m3u8_client_set_current r1.1.client child }
      else (r1.1, true)
    if !r2.2 then
      ({ s with demux := r2.1, log := s.log ++ ["Could not fetch the child playlist"] }, false)
    else ({ s with demux := cache_fragments_live_start r2.1 }, true)

/-- The number of iterations of `for (i = 0; i < demux->fragments_cache - 1;
i++)`: the bound is computed in 32-bit unsigned arithmetic, so it wraps to
`2 ^ 32 - 1` when `fragments_cache` is 0. -/
def cache_fragments_count (fragments_cache : Nat) : Nat :=
  if fragments_cache = 0 then 2 ^ 32 - 1 else fragments_cache - 1

/-- The function `gst_hls_demux_cache_fragments`; `now` is the result of
`g_get_current_time`, in microseconds. -/
def gst_hls_demux_cache_fragments (main_refresh child_refresh : Option RefreshOutcome)
    (now : Int) (env : FragmentEnv) (s : Pipeline) : Pipeline × Bool :=
  let p := cache_fragments_prepare main_refresh child_refresh s
  if !p.2 then p
  else
    let c := cache_fragments_loop env (cache_fragments_count p.1.demux.fragments_cache) p.1
    if !c.2 then c
    else ({ c.1 with demux := { c.1.demux with next_update := now }, need_cache := false }, true)

/-- What one iteration of the loop of `gst_hls_demux_update_thread` meets:
whether `g_cond_timed_wait` returned because `thread_cond` was signalled, the
result of the playlist download, the download made if the variant is switched,
and the time read by `gst_hls_demux_switch_playlist`. -/
structure UpdaterInput where
  signalled : Bool
  refresh : Option RefreshOutcome
  switch_refresh : Option RefreshOutcome
  now : Int

/-- One iteration of the `while (TRUE)` loop of `gst_hls_demux_update_thread`;
`updater_quit` is set when the iteration ends at the label `quit`. A thread
that is not running does nothing. -/
def gst_hls_demux_update_thread (i : UpdaterInput) (env : FragmentEnv) (s : Pipeline) :
    Pipeline :=
  if !s.updater_started || s.updater_quit then s
  /- block until the next scheduled update or the signal to quit this thread -/
  else if i.signalled then { s with updater_quit := true }
  else
    /- update the playlist for live sources -/
    let r : GstHLSDemux × Bool :=
      if gst_m3u8_client_is_live s.demux.client then
        gst_hls_demux_update_playlist i.refresh s.demux
      else (s.demux, true)
    if !r.2 then
      { s with demux := r.1, log := s.log ++ ["Could not update the playlist"],
               updater_quit := true }
    else
      /- schedule the next update -/
      let d1 := gst_hls_demux_schedule r.1
      let s1 : Pipeline := { s with demux := d1 }
      if gst_m3u8_client_is_live d1.client && decide (d1.client.update_failed_count > 0) then
        s1
      else
        /- fetch the next fragment -/
        let g := gst_hls_demux_get_next_fragment env s1
        if !g.2 then
          let s2 : Pipeline :=
            if !g.1.emitter.end_of_playlist && !g.1.cancelled then
              { g.1 with log := g.1.log ++ ["Could not fetch the next fragment"] }
            else g.1
          { s2 with updater_quit := true }
        else
          /- try to switch to another bitrate if needed -/
          { g.1 with demux := gst_hls_demux_switch_playlist i.switch_refresh i.now g.1.demux }

/-- What the first run of the emitter task meets while caching. -/
structure CacheInput where
  main_refresh : Option RefreshOutcome
  child_refresh : Option RefreshOutcome
  now : Int

/-- One scheduling of the emitter task, `gst_hls_demux_loop` with its
`need_cache` block: the first fragments are cached and the updates thread is
started, then the function goes on as `gst_hls_demux_loop` on the emitter
fields. A failed caching posts the element error and stops the task. -/
def gst_hls_demux_loop_task (c : CacheInput) (env : FragmentEnv) (ret : GstFlowReturn)
    (s : Pipeline) : Pipeline :=
  if s.emitter.task_stopped then s
  else if s.need_cache && !s.emitter.waiting then
    let r := gst_hls_demux_cache_fragments c.main_refresh c.child_refresh c.now env s
    if !r.2 then
      { r.1 with element_errors := r.1.element_errors ++ ["Could not cache the first fragments"],
                 emitter := { r.1.emitter with task_stopped := true } }
    else
      /- we can start now the updates thread -/
      let s1 : Pipeline := { r.1 with updater_started := true }
      { s1 with emitter := gst_hls_demux_loop ret s1.emitter }
  else { s with emitter := gst_hls_demux_loop ret s.emitter }

/-- The steps whose interleavings make up a run of the segment pipeline: a
scheduling of the emitter task and an iteration of the updates thread. -/
inductive SegmentStep where
  | task (c : CacheInput) (ret : GstFlowReturn)
  | update (i : UpdaterInput)

def SegmentStep.apply (env : FragmentEnv) : SegmentStep → Pipeline → Pipeline
  | .task c ret, s => gst_hls_demux_loop_task c env ret s
  | .update i, s => gst_hls_demux_update_thread i env s

/-- Run an interleaving of the segment pipeline. -/
def runSegments (env : FragmentEnv) (steps : List SegmentStep) (s : Pipeline) : Pipeline :=
  steps.foldl (fun st step => step.apply env st) s

/-- The number of updater iterations in an interleaving. -/
def updatesOf : List SegmentStep → Nat
  | [] => 0
  | .update _ :: rest => updatesOf rest + 1
  | _ :: rest => updatesOf rest

/-- A finished (VOD) media playlist with the `n` segments 0 .. n - 1. -/
def vodPlaylist (n : Nat) : GstM3U8 :=
  { addr := 1, uri := "URI_A", bandwidth := 500000, targetduration := 10,
    endlist := true, files := List.range n }

/-- The pipeline right after the sink received a VOD media playlist of `n`
segments, with the given `fragments_cache`. -/
def vodPipeline (n fragments_cache : Nat) : Pipeline :=
  { demux := { client := { lists := [], main_lists := none, current := vodPlaylist n,
                           sequence := 0, update_failed_count := 0 },
               fragments_cache := fragments_cache, bitrate_switch_tol := DEFAULT_BITRATE_SWITCH_TOLERANCE,
               next_update := 0, accumulated_delay := 0, posted := [] },
    main := vodPlaylist n, emitter := EmitterState.init, need_cache := true,
    cancelled := false, updater_started := false, updater_quit := false,
    element_errors := [], log := [] }

/-- A network on which every fragment is fetched: segment `k` has the one byte
`k` and lasts 10 s. -/
def goodEnv : FragmentEnv :=
  { fetch := fun k => { data := some [k], cancelled := false },
    duration := fun _ => 10000000000 }

/-- A network on which the fragments from number `k0` on cannot be fetched. -/
def failingEnv (k0 : Nat) : FragmentEnv :=
  { fetch := fun k => { data := if k < k0 then some [k] else none, cancelled := false },
    duration := fun _ => 10000000000 }

/-- The fragment buffer of segment `k` on `goodEnv`. -/
def segmentBuffer (k : Nat) : GstBuffer :=
  { data := [k], duration := 10000000000, discont := false }

/-- An input for the caching run that needs no playlist download. -/
def cacheInput : CacheInput := { main_refresh := none, child_refresh := none, now := 1000 }

/-- An updater iteration that timed out on its wait at time `now`. -/
def updaterInput (now : Int) : UpdaterInput :=
  { signalled := false, refresh := none, switch_refresh := none, now := now }

/-- The buffers fetched so far that are in the queue or were handed to the
source pad. -/
def fetchedCount (s : Pipeline) : Nat := s.emitter.queue.length + s.emitter.pushed.length

/-- The buffers the initial caching may still add: the iterations of its loop
while the caching is still to be done. -/
def cacheBudget (s : Pipeline) : Nat :=
  if s.need_cache && !s.emitter.task_stopped then
    cache_fragments_count s.demux.fragments_cache
  else 0

/-- The segments of the current playlist at or after the cursor. -/
def remainingFiles (c : GstM3U8Client) : List Nat :=
  c.current.files.filter (fun f => decide (c.sequence ≤ f))

/-- The data and duration of the buffers of a queue. -/
def queueContents (q : List GstBuffer) : List (List Nat × Nat) :=
  q.map fun b => (b.data, b.duration)

/-- A run in which the fetch of segment 3 fails mid-stream: the emitter task
caches segments 0 and 1 and pushes 0, the updater fetches 2 and then fails on
3, and the emitter task is scheduled four more times. -/
def fetchFailureRun : Pipeline :=
  runSegments (failingEnv 3)
    [SegmentStep.task cacheInput GstFlowReturn.ok,
     SegmentStep.update (updaterInput 2000),
     SegmentStep.update (updaterInput 3000),
     SegmentStep.task cacheInput GstFlowReturn.ok,
     SegmentStep.task cacheInput GstFlowReturn.ok,
     SegmentStep.task cacheInput GstFlowReturn.ok,
     SegmentStep.task cacheInput GstFlowReturn.ok] (vodPipeline 6 3)

/-- The pipeline before the failing updater iteration of `fetchFailureRun`. -/
def beforeFetchFailure : Pipeline :=
  runSegments (failingEnv 3)
    [SegmentStep.task cacheInput GstFlowReturn.ok,
     SegmentStep.update (updaterInput 2000)] (vodPipeline 6 3)

/-- A pipeline playing the live variant A (`demuxOnA`) after the initial
caching, with the updates thread running. -/
def livePipeline : Pipeline :=
  { demux := demuxOnA, main := variantA, emitter := EmitterState.init, need_cache := false,
    cancelled := false, updater_started := true, updater_quit := false,
    element_errors := [], log := [] }

/-- A refresh of the live variant that brought nothing new: the client reports
one failed update. -/
def staleRefresh : RefreshOutcome :=
  { targetduration := 10, endlist := false, files := [], update_failed_count := 1 }

/-! ## The first playlist (`gst_hls_demux_sink_event`) -/

/-- The function `gst_hls_src_buf_to_utf8_playlist` on the `size` bytes `data`;
`following` is the byte that lies after them in memory, which the `memcpy` of
`size + 1` bytes copies too. `none` is `NULL`. -/
def gst_hls_src_buf_to_utf8_playlist (g_utf8_validate : List Nat → Bool) (data : List Nat)
    (following : Nat) : Option (List Nat) :=
  if !g_utf8_validate data then none
  else some (data ++ [following])

/-- What `gst_hls_demux_sink_event` obtains from outside: the URI answered by
the peer (`none` when the query fails), glib's `g_utf8_validate`, the byte
after the playlist buffer, and the playlist client of `m3u8.c`
(`gst_m3u8_client_new`, and `gst_m3u8_client_update` with its boolean result). -/
structure SinkEnv where
  peer_uri : Option String
  g_utf8_validate : List Nat → Bool
  following : Nat
  client_new : String → GstM3U8Client
  client_update : GstM3U8Client → List Nat → GstM3U8Client × Bool

/-- The fields of `GstHLSDemux` used by `gst_hls_demux_sink_event`: the bytes
collected in `demux->playlist` (`none` for `NULL`), the client, whether the
emitter task was started, the element errors posted and the warnings logged. -/
structure SinkDemux where
  playlist : Option (List Nat)
  client : GstM3U8Client
  task_started : Bool
  element_errors : List String
  warnings : List String

/-- The result of `gst_hls_demux_sink_event`: a value returned by the EOS case,
or the call of `gst_pad_event_default`. -/
inductive SinkResult where
  | returned (ret : Bool)
  | event_default
deriving DecidableEq, Repr

/-- The end of the EOS case of `gst_hls_demux_sink_event`, after the playlist
was handed to the client. -/
def sink_event_start (ret : Bool) (d : SinkDemux) : SinkDemux × SinkResult :=
  if !ret && gst_m3u8_client_is_live d.client then
    ({ d with element_errors := d.element_errors ++
         ["Failed querying the playlist uri, required for live sources."] },
     SinkResult.returned false)
  else ({ d with task_started := true }, SinkResult.returned true)

/-- The function `gst_hls_demux_sink_event`; `is_eos` tells whether the event is
`GST_EVENT_EOS`. The buffer `demux->playlist` is released but the pointer is not
reset, so the field is left as it is. -/
def gst_hls_demux_sink_event (env : SinkEnv) (is_eos : Bool) (d : SinkDemux) :
    SinkDemux × SinkResult :=
  if !is_eos then (d, SinkResult.event_default)
  else
    match d.playlist with
    | none =>
      ({ d with warnings := d.warnings ++ ["Received EOS without a playlist."] },
       SinkResult.event_default)
    | some data =>
      let ret := env.peer_uri.isSome
      let d1 : SinkDemux :=
        match env.peer_uri with
        | some uri => { d with client := env.client_new uri }
        | none => d
      match gst_hls_src_buf_to_utf8_playlist env.g_utf8_validate data env.following with
      | none =>
        sink_event_start ret
          { d1 with warnings := d1.warnings ++ ["Error validating first playlist."] }
      | some playlist =>
        let u := env.client_update d1.client playlist
        if !u.2 then
          /- In most cases, this will happen if we set a wrong url in the
             source element and we have received the 404 HTML response instead of
             the playlist -/
          ({ d1 with client := u.1,
                     element_errors := d1.element_errors ++ ["Invalid playlist."] },
           SinkResult.returned false)
        else sink_event_start ret { d1 with client := u.1 }

/-- A sink environment whose peer answers the URI query, whose playlist bytes
are valid UTF-8 exactly when `utf8` holds, and whose client accepts a playlist
exactly when `accepted` holds. -/
def sinkEnv (utf8 accepted : Bool) : SinkEnv :=
  { peer_uri := some "URI_A", g_utf8_validate := fun _ => utf8, following := 0,
    client_new := fun uri =>
      { lists := [], main_lists := none,
        current := { variantA with uri := uri }, sequence := 0, update_failed_count := 0 },
    client_update := fun c _ => (c, accepted) }

/-- The demuxer at EOS on the sink pad with the bytes [255, 254] collected. -/
def sinkDemux : SinkDemux :=
  { playlist := some [255, 254], client := demuxOnA.client, task_started := false,
    element_errors := [], warnings := [] }

/-- The result, the started flag and the messages of a handled sink event. -/
def sinkSummary (r : SinkDemux × SinkResult) : SinkResult × Bool × List String × List String :=
  (r.2, r.1.task_started, r.1.element_errors, r.1.warnings)

end HlsDemux

namespace TsDemux

/-! ## PCR / PTS time conversion -/

/-- One entry of the PCR index, `TSPcrOffset`: stream time in nanoseconds, PCR
in 27 MHz ticks, byte offset. All three are `guint64`. -/
structure TSPcrOffset where
  gsttime : Nat
  pcr : Nat
  offset : Nat
deriving DecidableEq, Repr

/-- The constant `PCR_MAX_VALUE`, `(((guint64)1)<<33) * 300) + 298`. -/
def PCR_MAX_VALUE : Nat := 2 ^ 33 * 300 + 298

/-- The constant `PCR_WRAP_SIZE_128KBPS`, `1490 * (1024 * 1024)`. -/
def PCR_WRAP_SIZE_128KBPS : Nat := 1490 * (1024 * 1024)

/-- Modelled from the spec: the macro `PCRTIME_TO_GSTTIME` of `gstmpegdefs.h`
(not part of the sources): `pcr_to_ns(v) = v × 1_000_000_000 / 27_000_000` in
integer arithmetic. -/
def PCRTIME_TO_GSTTIME (v : Nat) : Nat := v * 1000000000 / 27000000

/-- Modelled from the spec: the macro `MPEGTIME_TO_GSTTIME` of `gstmpegdefs.h`:
`pts_to_ns(v) = v × 1_000_000_000 / 90_000` in integer arithmetic. -/
def MPEGTIME_TO_GSTTIME (v : Nat) : Nat := v * 1000000000 / 90000

/-- Addition of two `guint64`. -/
def add64 (a b : Nat) : Nat := (a + b) % 2 ^ 64

/-- Subtraction of two `guint64`. -/
def sub64 (a b : Nat) : Nat := (a + (2 ^ 64 - b % 2 ^ 64)) % 2 ^ 64

/-- The function `calculate_gsttime`. -/
def calculate_gsttime (start : TSPcrOffset) (pcr : Nat) : Nat :=
  let time := start.gsttime
  if start.pcr > pcr then
    add64 time (add64 (PCRTIME_TO_GSTTIME (sub64 PCR_MAX_VALUE start.pcr))
                      (PCRTIME_TO_GSTTIME pcr))
  else
    add64 time (PCRTIME_TO_GSTTIME (sub64 pcr start.pcr))

/-- The function `calc_gsttime_from_pts`. -/
def calc_gsttime_from_pts (start : TSPcrOffset) (pts : Nat) : Nat :=
  let time := sub64 start.gsttime (PCRTIME_TO_GSTTIME start.pcr)
  if start.pcr > (pts * 300) % 2 ^ 64 then
    add64 time (add64 (PCRTIME_TO_GSTTIME PCR_MAX_VALUE) (MPEGTIME_TO_GSTTIME pts))
  else
    add64 time (MPEGTIME_TO_GSTTIME pts)

/-- The anchor of the wrap scenario: pcr = 0x1FFFFFFFFF0, anchored at its own
time `pcr_to_ns(pcr)`. -/
def wrapAnchor : TSPcrOffset :=
  { gsttime := 81445305760592, pcr := 0x1FFFFFFFFF0, offset := 0 }

/-! ## Index build (`verify_timestamps`) -/

/-- The PCR scan `find_pcr_packet (base, offset, length, &out)` as seen by its
caller: `none` when it does not return `GST_FLOW_OK`, otherwise the `pcr` and
`offset` of the packet found. -/
abbrev PcrScan := Nat → Nat → Option (Nat × Nat)

/-- The `retry:` block of `verify_timestamps` with `n` retries left
(`tries++ < 3`): scan, and on failure move on by `length` and double it. Returns
the sample together with the value of `offset` at the successful scan. -/
def verify_retry (find : PcrScan) : Nat → Nat → Nat → Option ((Nat × Nat) × Nat)
  | 0, offset, length => (find offset length).map fun r => (r, offset)
  | n + 1, offset, length =>
    match find offset length with
    | some r => some (r, offset)
    | none => verify_retry find n (offset + length) (length * 2)

/-- The `while (offset + length < last->offset)` loop of `verify_timestamps`.
`first` is the running anchor (`*first = half`), `index` the array built so far.
The Boolean is `false` when the retries are exhausted (`return FALSE`). The loop
is run with fuel, `none` meaning that the fuel ran out. Offsets are stream
positions far below 2^64, so they are not reduced. -/
def verify_loop (maxpkt : Nat) (find : PcrScan) (last_offset : Nat) :
    Nat → Nat → TSPcrOffset → List TSPcrOffset →
      Option (Bool × TSPcrOffset × List TSPcrOffset)
  | 0, _, _, _ => none
  | fuel + 1, offset, first, index =>
    if offset + 4000 * maxpkt < last_offset then
      match verify_retry find 3 offset (4000 * maxpkt) with
      | none => some (false, first, index)
      | some (r, offset1) =>
        let half : TSPcrOffset :=
          { gsttime := calculate_gsttime first r.1, pcr := r.1, offset := r.2 }
        verify_loop maxpkt find last_offset fuel (offset1 + PCR_WRAP_SIZE_128KBPS) half
          (index ++ [half])
    else some (true, first, index)

/-- The fields of `GstTSDemux` written by the index build. -/
structure IndexState where
  index : List TSPcrOffset
  index_size : Nat
  first_pcr : TSPcrOffset
  index_pcr : TSPcrOffset
  last_pcr : TSPcrOffset
deriving DecidableEq, Repr

/-- The function `verify_timestamps`; `maxpkt` is `MPEGTS_MAX_PACKETSIZE`. The
loop gets `last->offset / PCR_WRAP_SIZE_128KBPS + 1` units of fuel, one more than
the number of strides that fit below `last->offset`. -/
def verify_timestamps (maxpkt : Nat) (find : PcrScan) (demux : IndexState)
    (first last : TSPcrOffset) : Option (Bool × IndexState) :=
  let first1 : TSPcrOffset := { first with gsttime := PCRTIME_TO_GSTTIME first.pcr }
  match verify_loop maxpkt find last.offset (last.offset / PCR_WRAP_SIZE_128KBPS + 1)
      PCR_WRAP_SIZE_128KBPS first1 [first1] with
  | none => none
  | some (true, anchor, index) =>
    let last1 : TSPcrOffset := { last with gsttime := calculate_gsttime anchor last.pcr }
    some (true, { index := index ++ [last1],
                  index_size := demux.index_size + index.length + 1,
                  first_pcr := first1, index_pcr := first1, last_pcr := last1 })
  | some (false, _, index) =>
    some (false, { demux with index := index,
                              index_size := demux.index_size + index.length,
                              first_pcr := first1, index_pcr := first1 })

/-- An index state before the build. -/
def IndexState.empty : IndexState :=
  { index := [], index_size := 0,
    first_pcr := { gsttime := 0, pcr := 0, offset := 0 },
    index_pcr := { gsttime := 0, pcr := 0, offset := 0 },
    last_pcr := { gsttime := 0, pcr := 0, offset := 0 } }

/-- A scan that misses in the first window at `PCR_WRAP_SIZE_128KBPS` and, on
the retry at offset 1563210240, returns a packet with PCR 1000 at byte
1563300000. -/
def retryScan : PcrScan := fun offset _ =>
  if offset = 1563210240 then some (1000, 1563300000) else none

/-- The index build from first = (pcr 1000, offset 188) and
last = (pcr 500, offset 1563210241) with `retryScan` and 208-byte packets. -/
def retryBuild : Option (Bool × IndexState) :=
  verify_timestamps 208 retryScan IndexState.empty
    { gsttime := 0, pcr := 1000, offset := 188 }
    { gsttime := 0, pcr := 500, offset := 1563210241 }

/-- The index is strictly ascending in stream time. -/
def ascendingGsttime (index : List TSPcrOffset) : Prop :=
  index.Pairwise fun a b => a.gsttime < b.gsttime

/-- The index is strictly ascending in PCR. -/
def ascendingPcr (index : List TSPcrOffset) : Prop :=
  index.Pairwise fun a b => a.pcr < b.pcr

/-- The index is strictly ascending in byte offset. -/
def ascendingOffset (index : List TSPcrOffset) : Prop :=
  index.Pairwise fun a b => a.offset < b.offset

/-- The state the build `retryBuild` ends in. -/
def retryBuildState : IndexState :=
  { index := [{ gsttime := 37037, pcr := 1000, offset := 188 },
              { gsttime := 37037, pcr := 1000, offset := 1563300000 },
              { gsttime := 95443717718443, pcr := 500, offset := 1563210241 }],
    index_size := 3,
    first_pcr := { gsttime := 37037, pcr := 1000, offset := 188 },
    index_pcr := { gsttime := 37037, pcr := 1000, offset := 188 },
    last_pcr := { gsttime := 95443717718443, pcr := 500, offset := 1563210241 } }

/-- The index is sorted in stream time: no entry is earlier than one before it. -/
def nondecreasingGsttime (index : List TSPcrOffset) : Prop :=
  index.Pairwise fun a b => a.gsttime ≤ b.gsttime

/-- Between consecutive entries with different PCR values the stream time
strictly increases. -/
def strictGsttimeSteps (index : List TSPcrOffset) : Prop :=
  index.Chain' fun a b => a.pcr ≠ b.pcr → a.gsttime < b.gsttime

/-- The relation between an index entry and its successor established by
`calculate_gsttime` in the absence of overflow. -/
def gsttimeStep (a b : TSPcrOffset) : Prop :=
  a.gsttime ≤ b.gsttime ∧ (a.pcr ≠ b.pcr → a.gsttime < b.gsttime)

/-! ## Seeking: key-frame refinement (`gst_ts_demux_perform_auxiliary_seek`) -/

/-- The GStreamer flow results. -/
inductive GstFlowReturn where
  | custom_success
  | resend
  | ok
  | not_linked
  | wrong_state
  | unexpected
  | not_negotiated
  | error
  | not_supported
  | custom_error
  | custom_error_1
deriving DecidableEq, Repr

/-- A `gint64` read from its 64-bit pattern. -/
def toInt64 (n : Nat) : Int :=
  if n % 2 ^ 64 < 2 ^ 63 then ((n % 2 ^ 64 : Nat) : Int) else ((n % 2 ^ 64 : Nat) : Int) - 2 ^ 64

/-- The 64-bit pattern of an integer (conversion to `guint64`). -/
def ofInt64 (i : Int) : Nat := (i % 2 ^ 64).toNat

/-- The fields of `MpegTSPacketizerPacket` read by the seek code. `payload` is
`none` for a `NULL` payload pointer. -/
structure MpegTSPacketizerPacket where
  pid : Nat
  payload_unit_start_indicator : Bool
  payload : Option (List Nat)
  pcr : Nat
  offset : Nat
deriving DecidableEq, Repr

/-- A key-frame detector `payload_parse_keyframe`: from `*state`, the packet and
`*need_more` to the result and the new `*state` and `*need_more`. -/
abbrev KeyframeFn := Nat → MpegTSPacketizerPacket → Bool → Bool × Nat × Bool

/-- What the seek code obtains from outside `tsdemux.c`.
* `maxpkt` is `MPEGTS_MAX_PACKETSIZE`, `m2ts` tells whether the packetizer's
  packet size is `MPEGTS_M2TS_PACKETSIZE`;
* `find_pcr_packet offset length out` is the PCR scan with its out-parameter;
* `pull_packets offset` is `gst_pad_pull_range` at `offset` followed by
  `mpegts_packetizer_push`: the flow result and the results of
  `mpegts_packetizer_next_packet` up to `PACKET_NEED_MORE` (`none` is `PACKET_BAD`);
* `parse_pes_header_pts` is `gst_ts_demux_parse_pes_header_pts`: `some pts` when
  it returns `GST_FLOW_OK`;
* the two key-frame detectors of `payload_parsers.c`. -/
structure SeekEnv where
  maxpkt : Nat
  m2ts : Bool
  find_pcr_packet : Nat → Nat → TSPcrOffset → GstFlowReturn × TSPcrOffset
  pull_packets : Nat → GstFlowReturn × List (Option MpegTSPacketizerPacket)
  parse_pes_header_pts : MpegTSPacketizerPacket → Option Nat
  has_mpeg2_keyframe : KeyframeFn
  has_h264_keyframe : KeyframeFn

/-- The local variables of `gst_ts_demux_perform_auxiliary_seek`. -/
structure AuxScan where
  pcroffset : TSPcrOffset
  key_pos : TSPcrOffset
  state : Nat
  found_keyframe : Bool
  found_accurate : Bool
  need_more : Bool
  done : Bool
deriving DecidableEq, Repr

/-- The `if (packet.payload != NULL && packet.pid == pid)` block of the inner
loop; `none` stands for `goto next`. -/
def aux_pid_block (env : SeekEnv) (seektime : Nat) (fn : Option KeyframeFn)
    (packet : MpegTSPacketizerPacket) (s : AuxScan) : Option AuxScan :=
  let afterHeader : Option AuxScan :=
    if packet.payload_unit_start_indicator then
      match env.parse_pes_header_pts packet with
      | some pts =>
        let time := calculate_gsttime s.pcroffset ((pts * 300) % 2 ^ 64)
        let s1 : AuxScan :=
          if time ≤ seektime then
            { s with pcroffset := { gsttime := time, pcr := packet.pcr,
                                    offset := packet.offset } }
          else { s with found_accurate := true }
        /- reset state for new packet -/
        some { s1 with state := 0xffffffff, need_more := true }
      | none => none
    else some s
  afterHeader.map fun s1 =>
    match fn with
    | some f =>
      if s1.need_more then
        let r := f s1.state packet s1.need_more
        let s2 : AuxScan := { s1 with state := r.2.1, need_more := r.2.2 }
        if r.1 then { s2 with found_keyframe := true, key_pos := s2.pcroffset } else s2
      else s1
    | none =>
      /- if we don't have a payload parsing function every frame is a keyframe -/
      { s1 with found_keyframe := true }

/-- One iteration of the inner loop of the auxiliary seek, on one result of
`mpegts_packetizer_next_packet`. -/
def aux_packet (env : SeekEnv) (seektime pid : Nat) (accurate : Bool)
    (fn : Option KeyframeFn) (pk : Option MpegTSPacketizerPacket) (s : AuxScan) : AuxScan :=
  match pk with
  | none => s
  | some packet =>
    let blk : Option AuxScan :=
      if packet.payload.isSome && packet.pid == pid then
        aux_pid_block env seektime fn packet s
      else some s
    match blk with
    | none => s
    | some s3 =>
      let done := if accurate then s3.found_accurate && s3.found_keyframe
                  else s3.found_keyframe
      if done then { s3 with done := true, pcroffset := s3.key_pos }
      else { s3 with done := false }

/-- The inner `while ((!done) && next_packet != PACKET_NEED_MORE)` loop. -/
def aux_packets (env : SeekEnv) (seektime pid : Nat) (accurate : Bool)
    (fn : Option KeyframeFn) : List (Option MpegTSPacketizerPacket) → AuxScan → AuxScan
  | [], s => s
  | pk :: rest, s =>
    if s.done then s
    else aux_packets env seektime pid accurate fn rest
      (aux_packet env seektime pid accurate fn pk s)

/-- The outer `while (!done && scan_offset <= length)` loop, run with fuel;
`none` means the fuel ran out with the loop condition still true. `offset` is
the (64-bit) start offset, `res` the last flow result. -/
def aux_chunks (env : SeekEnv) (seektime pid : Nat) (accurate : Bool)
    (fn : Option KeyframeFn) (offset : Nat) (length : Int) :
    Nat → Int → AuxScan → GstFlowReturn → Option (AuxScan × GstFlowReturn)
  | 0, scan_offset, s, res =>
    if !s.done && decide (scan_offset ≤ length) then none else some (s, res)
  | fuel + 1, scan_offset, s, res =>
    if !s.done && decide (scan_offset ≤ length) then
      let pulled := env.pull_packets (ofInt64 ((offset : Int) + scan_offset))
      if pulled.1 ≠ GstFlowReturn.ok then some (s, pulled.1)
      else
        aux_chunks env seektime pid accurate fn offset length fuel
          (scan_offset + 50 * (env.maxpkt : Int))
          (aux_packets env seektime pid accurate fn pulled.2 s) pulled.1
    else some (s, res)

/-- The function `gst_ts_demux_perform_auxiliary_seek`: returns the flow result
and the final `*pcroffset`. The fuel is the number of values of `scan_offset`
that are at most `length`. -/
def gst_ts_demux_perform_auxiliary_seek (env : SeekEnv) (seektime : Nat)
    (pcroffset : TSPcrOffset) (length : Int) (pid : Nat) (accurate : Bool)
    (auxiliary_seek_fn : Option KeyframeFn) : Option (GstFlowReturn × TSPcrOffset) :=
  let offset := if env.m2ts then sub64 pcroffset.offset 4 else pcroffset.offset
  let scan_offset : Int := min length (50 * (env.maxpkt : Int))
  let init : AuxScan :=
    { pcroffset := pcroffset, key_pos := { gsttime := 0, pcr := 0, offset := 0 },
      state := 0xffffffff, found_keyframe := false, found_accurate := false,
      need_more := true, done := false }
  let fuel := ((length - scan_offset) / (50 * (env.maxpkt : Int))).toNat + 1
  match aux_chunks env seektime pid accurate auxiliary_seek_fn offset length fuel
      scan_offset init GstFlowReturn.error with
  | none => none
  | some (s, res) =>
    let res :=
      if s.done then GstFlowReturn.ok
      else if res = GstFlowReturn.ok then GstFlowReturn.custom_error_1
      else res
    some (res, s.pcroffset)

/-! ## Seeking: `gst_ts_demux_perform_seek` -/

/-- The stream types distinguished by the `switch` of
`gst_ts_demux_perform_seek` (the `ST_*` constants of `gstmpegdefs.h`). -/
inductive StreamType where
  | video_mpeg1
  | video_mpeg2
  | video_h264
  | video_mpeg4
  | video_dirac
  | other
deriving DecidableEq, Repr

/-- The seek flags tested by the demuxer. -/
structure SeekFlags where
  flush : Bool
  accurate : Bool
  key_unit : Bool
  segment : Bool
  skip : Bool
deriving DecidableEq, Repr

/-- The fields of `GstSegment` used by the seek; all are `gint64`. -/
structure GstSegment where
  flags : SeekFlags
  last_stop : Int
  time : Int
  stop : Int
  duration : Int
deriving DecidableEq, Repr

/-- The fields of `GstTSDemux` (and of its base class) used by the seek.
`index` is `none` while `demux->index` is `NULL`; `streams pid` is the stream
type of `program->streams[pid]`, `none` when that entry is `NULL`. -/
structure SeekDemux where
  index : Option (List TSPcrOffset)
  first_pcr : TSPcrOffset
  last_pcr : TSPcrOffset
  cur_pcr : TSPcrOffset
  streams : Nat → Option StreamType
  need_newsegment : Bool
  seek_offset : Nat

/-- The constant `SEEK_TIMESTAMP_OFFSET`, `1000 * GST_MSECOND`. -/
def SEEK_TIMESTAMP_OFFSET : Nat := 1000000000

/-- The GStreamer core function `gst_util_array_binary_search` with
`TSPcrOffset_find` in mode `GST_SEARCH_MODE_BEFORE` on the index: the position
of an exact match in gsttime or of the element just before, `none` (`NULL`) when
every element is later. -/
def search_before : List TSPcrOffset → Nat → Option Nat
  | [], _ => none
  | e :: rest, t =>
    match search_before rest t with
    | some i => some (i + 1)
    | none => if e.gsttime ≤ t then some 0 else none

/-- The byte position probed by one iteration of the seek loop, as the 64-bit
pattern of `seekpos`. The `double` interpolation of even iterations is taken
in exact rational arithmetic. -/
def seek_loop_seekpos (maxpkt : Nat) (seektime : Nat) (loop_cnt : Nat)
    (pcr_start pcr_stop : TSPcrOffset) : Nat :=
  let duration : Int := toInt64 (sub64 pcr_stop.gsttime pcr_start.gsttime)
  let size : Int := toInt64 (sub64 pcr_stop.offset pcr_start.offset)
  let seekpos : Nat :=
    if loop_cnt % 2 = 1 then add64 pcr_start.offset (ofInt64 (size / 2))
    else ofInt64 (HlsDemux.truncToInt ((pcr_start.offset : ℚ)
      + (size : ℚ) * (((sub64 seektime pcr_start.gsttime : Nat) : ℚ) / (duration : ℚ))))
  /- look a litle bit behind -/
  max (add64 pcr_start.offset 188) (ofInt64 (toInt64 seekpos - 55 * (maxpkt : Int)))

/-- The position of the wider second scan, `MAX ((gint64) pcr_start.offset,
seekpos - 2000 * MPEGTS_MAX_PACKETSIZE) + 188`. -/
def seek_loop_retry_seekpos (maxpkt : Nat) (pcr_start : TSPcrOffset) (seekpos : Nat) : Nat :=
  ofInt64 (max (toInt64 pcr_start.offset) (toInt64 seekpos - 2000 * (maxpkt : Int)) + 188)

/-- The two PCR scans of one iteration of the seek loop: 4000 packets from
`seekpos` and, when that returns `GST_FLOW_UNEXPECTED`, 8000 packets from
further back. -/
def seek_loop_find (env : SeekEnv) (pcr_start : TSPcrOffset) (seekpos : Nat)
    (seekpcroffset : TSPcrOffset) : GstFlowReturn × TSPcrOffset :=
  let r1 := env.find_pcr_packet seekpos (4000 * env.maxpkt) seekpcroffset
  if r1.1 = GstFlowReturn.unexpected then
    env.find_pcr_packet (seek_loop_retry_seekpos env.maxpkt pcr_start seekpos)
      (8000 * env.maxpkt) r1.2
  else r1

/-- The body of the seek loop, given the outcome `found` of its PCR scans: the
new `pcr_start`, `pcr_stop` and `seekpcroffset`, or the flow result with which
the function leaves through `done:`. -/
def seek_loop_body (seektime : Nat) (pcr_start pcr_stop : TSPcrOffset)
    (found : GstFlowReturn × TSPcrOffset) :
    Except GstFlowReturn (TSPcrOffset × TSPcrOffset × TSPcrOffset) :=
  if found.1 ≠ GstFlowReturn.ok then .error found.1
  else
    let seekpcroffset : TSPcrOffset :=
      { found.2 with gsttime := calculate_gsttime pcr_start found.2.pcr }
    /- validate -/
    if seekpcroffset.gsttime < pcr_start.gsttime
        ∨ seekpcroffset.gsttime > pcr_stop.gsttime then
      .error GstFlowReturn.error
    else if seekpcroffset.gsttime > seektime then
      .ok (pcr_start, seekpcroffset, seekpcroffset)
    else
      .ok (seekpcroffset, pcr_stop, seekpcroffset)

/-- The seek loop of `gst_ts_demux_perform_seek`; the first argument counts the
iterations still allowed by `loop_cnt++ < max_loop_cnt`. An error is the flow
result with which the function leaves through `done:`. -/
def seek_loop (env : SeekEnv) (seektime : Nat) :
    Nat → Nat → TSPcrOffset → TSPcrOffset → TSPcrOffset → Int →
      Except GstFlowReturn (TSPcrOffset × TSPcrOffset)
  | 0, _, pcr_start, pcr_stop, _, _ => .ok (pcr_start, pcr_stop)
  | remaining + 1, loop_cnt, pcr_start, pcr_stop, seekpcroffset, time_diff =>
    if time_diff > (SEEK_TIMESTAMP_OFFSET : Int) / 2
        ∧ sub64 pcr_stop.gsttime pcr_start.gsttime > SEEK_TIMESTAMP_OFFSET then
      let loop_cnt := loop_cnt + 1
      let seekpos := seek_loop_seekpos env.maxpkt seektime loop_cnt pcr_start pcr_stop
      match seek_loop_body seektime pcr_start pcr_stop
          (seek_loop_find env pcr_start seekpos seekpcroffset) with
      | .error r => .error r
      | .ok (pcr_start1, pcr_stop1, seekpcroffset1) =>
        seek_loop env seektime remaining loop_cnt pcr_start1 pcr_stop1 seekpcroffset1
          (toInt64 (sub64 seektime pcr_start1.gsttime))
    else .ok (pcr_start, pcr_stop)

/-- The key-frame detector selected from the stream type of the seek PID. -/
def select_keyframe_seek (env : SeekEnv) (stream : Option StreamType) : Option KeyframeFn :=
  match stream with
  | some StreamType.video_mpeg1 => some env.has_mpeg2_keyframe
  | some StreamType.video_mpeg2 => some env.has_mpeg2_keyframe
  | some StreamType.video_h264 => some env.has_h264_keyframe
  | _ => none

/-- What `gst_ts_demux_perform_seek` leaves behind: its flow result, the
demuxer, the segment, and the final value of its local `seekpcroffset` (the
position chosen by the refinement). -/
structure SeekOutcome where
  res : GstFlowReturn
  demux : SeekDemux
  segment : GstSegment
  seekpcroffset : TSPcrOffset

/-- The part of `gst_ts_demux_perform_seek` after the seek loop: key-frame
refinement and commit. `none` when the average bitrate divides by zero or the
refinement runs out of fuel. -/
def perform_seek_refine (env : SeekEnv) (demux : SeekDemux) (segment : GstSegment)
    (pid : Nat) (seektime0 : Nat) (pcr_start pcr_stop : TSPcrOffset) : Option SeekOutcome :=
  /- use correct seek position for the auxiliary search -/
  let seektime := add64 seektime0 SEEK_TIMESTAMP_OFFSET
  let keyframe_seek := select_keyframe_seek env (demux.streams pid)
  let dt := sub64 pcr_stop.gsttime pcr_start.gsttime
  if dt = 0 then none
  else
    let avg_bitrate :=
      ((sub64 pcr_stop.offset pcr_start.offset * 1000 * 1000000) % 2 ^ 64) / dt
    /- search in 2500ms for a keyframe -/
    let length := min (sub64 demux.last_pcr.offset pcr_start.offset)
                      (((avg_bitrate * 25) % 2 ^ 64) / 10)
    match gst_ts_demux_perform_auxiliary_seek env seektime pcr_start (toInt64 length) pid
        segment.flags.accurate keyframe_seek with
    | none => none
    | some (res, seekpcroffset) =>
      let res := if res = GstFlowReturn.custom_error_1 then GstFlowReturn.error else res
      if res ≠ GstFlowReturn.ok then
        some { res := res, demux := demux, segment := segment,
               seekpcroffset := seekpcroffset }
      else
        /- update seektime to the actual timestamp of the found keyframe -/
        let seektime := if segment.flags.key_unit then seekpcroffset.gsttime else seektime
        let seektime := sub64 seektime demux.first_pcr.gsttime
        let segment1 : GstSegment :=
          { segment with last_stop := toInt64 seektime, time := toInt64 seektime }
        /- we stop at the end -/
        let segment2 : GstSegment :=
          if segment1.stop = -1 then
            { segment1 with
              stop := toInt64 (add64 demux.first_pcr.gsttime (ofInt64 segment1.duration)) }
          else segment1
        some { res := GstFlowReturn.ok,
               demux := { demux with need_newsegment := true,
                                     seek_offset := seekpcroffset.offset },
               segment := segment2, seekpcroffset := seekpcroffset }

/-- The block "check if the last recorded pcr can be used" of
`gst_ts_demux_perform_seek`: when `cur_pcr` lies strictly between the two index
entries its time is recomputed (in the demuxer) and it replaces one of them.
Returns the demuxer and the new `pcr_start` and `pcr_stop`. -/
def seek_use_cur_pcr (demux : SeekDemux) (seektime : Nat) (pcr_start pcr_stop : TSPcrOffset) :
    SeekDemux × TSPcrOffset × TSPcrOffset :=
  if pcr_start.offset < demux.cur_pcr.offset ∧ demux.cur_pcr.offset < pcr_stop.offset then
    let cur_pcr : TSPcrOffset :=
      { demux.cur_pcr with gsttime := calculate_gsttime pcr_start demux.cur_pcr.pcr }
    let demux1 : SeekDemux := { demux with cur_pcr := cur_pcr }
    if cur_pcr.gsttime < seektime then (demux1, cur_pcr, pcr_stop)
    else (demux1, pcr_start, cur_pcr)
  else (demux, pcr_start, pcr_stop)

/-- The `seektime` with which `gst_ts_demux_perform_seek` starts:
`MAX (0, segment->last_stop - SEEK_TIMESTAMP_OFFSET) + first_pcr.gsttime`. -/
def seek_start_time (demux : SeekDemux) (segment : GstSegment) : Nat :=
  add64 (ofInt64 (max 0 (segment.last_stop - (SEEK_TIMESTAMP_OFFSET : Int))))
    demux.first_pcr.gsttime

/-- The function `gst_ts_demux_perform_seek`. `segment.last_stop` is the
requested time. `none` when the C function has no defined result (see
`perform_seek_refine`). -/
def gst_ts_demux_perform_seek (env : SeekEnv) (demux : SeekDemux) (segment : GstSegment)
    (pid : Nat) : Option SeekOutcome :=
  let max_loop_cnt := if segment.flags.accurate then 25 else 10
  let seektime := seek_start_time demux segment
  let seekpcroffset : TSPcrOffset := { gsttime := seektime, pcr := 0, offset := 0 }
  match demux.index with
  | none =>
    some { res := GstFlowReturn.error, demux := demux, segment := segment,
           seekpcroffset := seekpcroffset }
  | some index =>
    /- get the first index entry before the seek position -/
    match search_before index seektime with
    | none =>
      some { res := GstFlowReturn.error, demux := demux, segment := segment,
             seekpcroffset := seekpcroffset }
    | some i =>
      let zero : TSPcrOffset := { gsttime := 0, pcr := 0, offset := 0 }
      let pcr_start := index.getD i zero
      let pcr_stop := index.getD (i + 1) zero
      if pcr_stop.offset = 0 then
        some { res := GstFlowReturn.error, demux := demux, segment := segment,
               seekpcroffset := seekpcroffset }
      else
        let u := seek_use_cur_pcr demux seektime pcr_start pcr_stop
        let time_diff := toInt64 (sub64 seektime u.2.1.gsttime)
        match seek_loop env seektime max_loop_cnt 0 u.2.1 u.2.2 u.2.1 time_diff with
        | .error r =>
          some { res := r, demux := u.1, segment := segment, seekpcroffset := u.2.1 }
        | .ok (pcr_start2, pcr_stop2) =>
          perform_seek_refine env u.1 segment pid seektime pcr_start2 pcr_stop2

/-- The bound kept by the key-frame scan: neither the running position nor the
recorded key position is later than `B`. -/
def AuxBound (B : Nat) (s : AuxScan) : Prop :=
  s.pcroffset.gsttime ≤ B ∧ s.key_pos.gsttime ≤ B

/-! ### A concrete stream used as test input for the seek -/

/-- A PES start packet of PID 65 whose PCR field is `pcr`; payload byte 1 marks
a key frame. -/
def pesPacket (pcr offset key : Nat) : MpegTSPacketizerPacket :=
  { pid := 65, payload_unit_start_indicator := true, payload := some [key],
    pcr := pcr, offset := offset }

/-- A 60 s stream of one byte per microsecond with first_pcr.gsttime = 0: the
PCR scans find a PCR at 12 s; PES starts with key frames at 0.5 s, 12.5 s and
14.5 s; the PTS of a PES start is its PCR field in 90 kHz units. -/
def seekEnv : SeekEnv :=
  { maxpkt := 208, m2ts := false,
    find_pcr_packet := fun _ _ out =>
      (GstFlowReturn.ok, { out with pcr := 324000000, offset := 12000000 }),
    pull_packets := fun offset =>
      if offset = 10400 then (GstFlowReturn.ok, [some (pesPacket 13500000 500000 1)])
      else if offset = 12010400 then
        (GstFlowReturn.ok, [some (pesPacket 337500000 12500000 1),
                            some (pesPacket 391500000 14500000 1)])
      else (GstFlowReturn.ok, []),
    parse_pes_header_pts := fun pk =>
      if pk.payload_unit_start_indicator then some (pk.pcr / 300) else none,
    has_mpeg2_keyframe := fun st pk nm => (pk.payload == some [1], st, nm),
    has_h264_keyframe := fun st pk nm => (pk.payload == some [1], st, nm) }

/-- The demuxer of that stream after the index build: index [0 s, 60 s]. -/
def seekDemux : SeekDemux :=
  { index := some [{ gsttime := 0, pcr := 0, offset := 0 },
                   { gsttime := 60000000000, pcr := 1620000000, offset := 60000000 }],
    first_pcr := { gsttime := 0, pcr := 0, offset := 0 },
    last_pcr := { gsttime := 60000000000, pcr := 1620000000, offset := 60000000 },
    cur_pcr := { gsttime := 0, pcr := 0, offset := 0 },
    streams := fun _ => some StreamType.video_mpeg2,
    need_newsegment := false, seek_offset := 0 }

/-- The seek segment for a requested time `t` with the given flags. -/
def seekSegment (t : Int) (accurate key_unit : Bool) : GstSegment :=
  { flags := { flush := true, accurate := accurate, key_unit := key_unit,
               segment := false, skip := false },
    last_stop := t, time := 0, stop := -1, duration := 60000000000 }

/-- The flow result and the time of the position chosen by a seek. -/
def seekSummary (o : Option SeekOutcome) : Option (GstFlowReturn × Nat) :=
  o.map fun r => (r.res, r.seekpcroffset.gsttime)

/-- The outcome of the KEY_UNIT seek to 13.2 s in that stream: the position
at 12.5 s is chosen and committed. -/
def keyUnitSeekOutcome : SeekOutcome :=
  { res := GstFlowReturn.ok,
    demux := { seekDemux with need_newsegment := true, seek_offset := 12500000 },
    segment := { seekSegment 13200000000 false true with
                 last_stop := 12500000000, time := 12500000000, stop := 60000000000 },
    seekpcroffset := { gsttime := 12500000000, pcr := 337500000, offset := 12500000 } }

/-- The seek event as parsed by `gst_event_parse_seek`. `format_is_time` tells
whether the format is `GST_FORMAT_TIME`. -/
structure SeekEvent where
  rate : ℚ
  format_is_time : Bool
  flags : SeekFlags
  start_type : Nat
  start : Int
  stop_type : Nat
  stop : Int

/-- The demuxer as seen by `gst_ts_demux_do_seek`: the fields used by
`gst_ts_demux_perform_seek`, the configured segment `demux->segment`, and the
segment-start messages posted so far. -/
structure SeekState where
  base : SeekDemux
  segment : GstSegment
  segment_start_msgs : List Int

/-- The function `gst_ts_demux_do_seek`. `set_seek` is the GStreamer core
function `gst_segment_set_seek` applied to the copy of the segment. `none` when
`gst_ts_demux_perform_seek` has no defined result. -/
def gst_ts_demux_do_seek (env : SeekEnv) (set_seek : GstSegment → SeekEvent → GstSegment)
    (demux : SeekState) (event : SeekEvent) (pid : Nat) :
    Option (GstFlowReturn × SeekState) :=
  if !event.format_is_time then some (GstFlowReturn.error, demux)
  else if event.flags.segment || event.flags.skip then some (GstFlowReturn.error, demux)
  else
    /- copy segment, we need this because we still need the old
       segment when we close the current segment. -/
    let seeksegment := set_seek demux.segment event
    match gst_ts_demux_perform_seek env demux.base seeksegment pid with
    | none => none
    | some o =>
      if o.res ≠ GstFlowReturn.ok then some (o.res, { demux with base := o.demux })
      else
        /- commit the new segment -/
        let demux1 : SeekState := { demux with base := o.demux, segment := o.segment }
        let demux2 : SeekState :=
          if demux1.segment.flags.segment then
            { demux1 with
              segment_start_msgs := demux1.segment_start_msgs ++ [demux1.segment.last_stop] }
          else demux1
        some (o.res, demux2)

/-- The key-frame scan exactly as `perform_seek_refine` calls it. -/
def refine_keyframe_scan (env : SeekEnv) (demux : SeekDemux) (segment : GstSegment)
    (pid : Nat) (seektime0 : Nat) (pcr_start pcr_stop : TSPcrOffset) :
    Option (GstFlowReturn × TSPcrOffset) :=
  let dt := sub64 pcr_stop.gsttime pcr_start.gsttime
  let avg_bitrate := ((sub64 pcr_stop.offset pcr_start.offset * 1000 * 1000000) % 2 ^ 64) / dt
  let length := min (sub64 demux.last_pcr.offset pcr_start.offset)
                    (((avg_bitrate * 25) % 2 ^ 64) / 10)
  gst_ts_demux_perform_auxiliary_seek env (add64 seektime0 SEEK_TIMESTAMP_OFFSET) pcr_start
    (toInt64 length) pid segment.flags.accurate (select_keyframe_seek env (demux.streams pid))

/-- The 60 s stream with no key frame at all: every pull succeeds and yields no
packet of the seek PID. -/
def noKeyframeEnv : SeekEnv :=
  { seekEnv with pull_packets := fun _ => (GstFlowReturn.ok, []) }

/-- The demuxer of the 60 s stream before any index was built. -/
def noIndexDemux : SeekDemux := { seekDemux with index := none }

/-- The `gst_segment_set_seek` used in the examples: flags and requested
start are copied into the segment. -/
def setSeekExample (seg : GstSegment) (ev : SeekEvent) : GstSegment :=
  { seg with flags := ev.flags, last_stop := ev.start, time := ev.start }

/-- A flushing KEY_UNIT seek event in TIME format to `t`. -/
def keyUnitEvent (t : Int) : SeekEvent :=
  { rate := 1, format_is_time := true,
    flags := { flush := true, accurate := false, key_unit := true,
               segment := false, skip := false },
    start_type := 1, start := t, stop_type := 0, stop := -1 }

/-- The demuxer state of the 60 s stream, playing from 0 with no pending
new-segment. -/
def seekState (d : SeekDemux) : SeekState :=
  { base := d, segment := seekSegment 0 false false, segment_start_msgs := [] }

/-- The flow result of a `gst_ts_demux_perform_seek`. -/
def seekResult (o : Option SeekOutcome) : Option GstFlowReturn := o.map fun r => r.res

/-! ## PES assembly: `gst_ts_demux_queue_data`, `gst_ts_demux_parse_pes_header` -/

/-- The enumeration `PendingPacketState`. -/
inductive PendingPacketState where
  | PENDING_PACKET_EMPTY
  | PENDING_PACKET_HEADER
  | PENDING_PACKET_BUFFER
  | PENDING_PACKET_DISCONT
deriving DecidableEq, Repr

/-- The constant `GST_CLOCK_TIME_NONE`, `(guint64) -1`. -/
def GST_CLOCK_TIME_NONE : Nat := 2 ^ 64 - 1

/-- The fields of a `GstBuffer` used by the PES assembler: `data` holds the
`GST_BUFFER_SIZE` bytes at `GST_BUFFER_DATA`; `caps` tells whether caps were
set on the buffer. -/
structure GstBuffer where
  data : List Nat
  offset : Nat
  timestamp : Nat
  caps : Bool
deriving DecidableEq, Repr

/-- The output fields of `TSDemuxStream`. `pendingbuffers` holds the entries of
the array from index 0 on (entries at or after `nbpending` are never read
before being overwritten); `current` tells whether `stream->current` is
non-`NULL`; `currentlist` has its head first. -/
structure TSDemuxStream where
  pad : Bool
  state : PendingPacketState
  pendingbuffers : List GstBuffer
  nbpending : Nat
  current : Bool
  currentlist : List GstBuffer
  pts : Nat
deriving DecidableEq, Repr

/-- The fields of `GstTSDemux` used by the PES header parser. -/
structure PesDemux where
  index : Option (List TSPcrOffset)
  index_size : Nat
  index_pcr : TSPcrOffset

/-- The macro `GST_READ_UINT32_BE` on four bytes. -/
def GST_READ_UINT32_BE (b0 b1 b2 b3 : Nat) : Nat :=
  ((b0 * 256 + b1) * 256 + b2) * 256 + b3

/-- The GStreamer core function `gst_util_array_binary_search` with
`TSPcrOffset_find_offset` in mode `GST_SEARCH_MODE_BEFORE`: the last element
whose offset is at most the searched one, `none` (`NULL`) when there is none. -/
def search_before_offset : List TSPcrOffset → Nat → Option TSPcrOffset
  | [], _ => none
  | e :: rest, o =>
    match search_before_offset rest o with
    | some n => some n
    | none => if e.offset ≤ o then some e else none

/-- The store `pendingbuffers[nbpending] = buf`. -/
def pending_store (arr : List GstBuffer) (i : Nat) (buf : GstBuffer) : List GstBuffer :=
  if i < arr.length then arr.set i buf else arr ++ [buf]

/-- The block of `gst_ts_demux_parse_pes_header` that re-anchors
`demux->index_pcr` for a PTS seen at `offset`; `none` when the index is `NULL`
while it is searched. -/
def pes_update_index_pcr (demux : PesDemux) (offset : Nat) : Option PesDemux :=
  if add64 (add64 demux.index_pcr.offset PCR_WRAP_SIZE_128KBPS) (1000 * 128) < offset
      ∨ demux.index_pcr.offset > offset then
    /- find next entry -/
    let index_pcr : TSPcrOffset := { demux.index_pcr with offset := offset }
    match demux.index with
    | none => none
    | some index =>
      match search_before_offset (index.take demux.index_size) offset with
      | some next => some { demux with index_pcr := next }
      | none => some { demux with index_pcr := index_pcr }
  else some demux

/-- The end of `gst_ts_demux_parse_pes_header`, from "Remove PES headers" on:
`buf0` is `pendingbuffers[0]` with the fields set so far, `rest` the entries
after it. -/
def pes_header_finish (stream : TSDemuxStream) (buf0 : GstBuffer) (rest : List GstBuffer)
    (PES_header_data_length : Nat) : TSDemuxStream :=
  /- Remove PES headers -/
  let buf0 : GstBuffer := { buf0 with data := buf0.data.drop (6 + PES_header_data_length) }
  let stream1 : TSDemuxStream := { stream with pendingbuffers := buf0 :: rest }
  /- Append to the buffer list -/
  let stream2 : TSDemuxStream :=
    if !stream1.current then
      /- Create a new bufferlist, push pending buffers into the list -/
      { stream1 with current := true,
                     currentlist := stream1.pendingbuffers.take stream1.nbpending,
                     pendingbuffers := [], nbpending := 0 }
    else stream1
  { stream2 with state := PendingPacketState.PENDING_PACKET_BUFFER }

/-- The PTS and DTS blocks of `gst_ts_demux_parse_pes_header`. `read_ts` is the
macro `READ_TS` (not part of `tsdemux.c`): from the bytes at `data` to the
timestamp and the advanced `data`, `none` for its jump to `discont`. The result
holds whether `discont` was taken, the demuxer, `stream->pts` and
`pendingbuffers[0]`; `none` when the index is `NULL` while it is searched. -/
def pes_header_timestamps (read_ts : List Nat → Option (Nat × List Nat)) (demux : PesDemux)
    (pts0 : Nat) (buf0 : GstBuffer) (p2 : Nat) (data : List Nat) :
    Option (Bool × PesDemux × Nat × GstBuffer) :=
  /- PTS -/
  let afterPts : Option (Bool × PesDemux × Nat × GstBuffer × List Nat) :=
    if p2 &&& 0x80 ≠ 0 then
      let offset := buf0.offset
      match read_ts data with
      | none => some (true, demux, pts0, buf0, data)
      | some (pts, data1) =>
        match pes_update_index_pcr demux offset with
        | none => none
        | some demux1 =>
          let time := calc_gsttime_from_pts demux1.index_pcr pts
          let buf1 : GstBuffer := { buf0 with timestamp := time }
          let pts1 := if pts0 = GST_CLOCK_TIME_NONE then buf1.timestamp else pts0
          some (false, demux1, pts1, buf1, data1)
    else some (false, demux, pts0, buf0, data)
  match afterPts with
  | none => none
  | some (true, demux1, pts1, buf1, _) => some (true, demux1, pts1, buf1)
  | some (false, demux1, pts1, buf1, data1) =>
    /- DTS -/
    if p2 &&& 0x40 ≠ 0 then
      match read_ts data1 with
      | none => some (true, demux1, pts1, buf1)
      | some _ => some (false, demux1, pts1, buf1)
    else some (false, demux1, pts1, buf1)

/-- The function `gst_ts_demux_parse_pes_header`. It works on
`pendingbuffers[0]`. `none` when the C function reads outside that buffer (it
reads 4, then 2, then 3 bytes without looking at the size), when there is no
such buffer, or when a `NULL` index is searched. -/
def gst_ts_demux_parse_pes_header (read_ts : List Nat → Option (Nat × List Nat))
    (demux : PesDemux) (stream : TSDemuxStream) : Option (PesDemux × TSDemuxStream) :=
  match stream.pendingbuffers with
  | [] => none
  | buf0 :: rest =>
    match buf0.data with
    | b0 :: b1 :: b2 :: b3 :: data =>
      /- packet_start_code_prefix 24, stream_id 8 -/
      let psc_stid := GST_READ_UINT32_BE b0 b1 b2 b3
      if psc_stid &&& 0xffffff00 ≠ 0x00000100 then
        some (demux, { stream with state := PendingPacketState.PENDING_PACKET_DISCONT })
      else
        let stid := psc_stid &&& 0x000000ff
        /- PES_packet_length 16 -/
        match data with
        | _ :: _ :: data =>
          if stid ≠ 0xbf then
            match data with
            | p1 :: p2 :: h :: data =>
              let PES_header_data_length := (h + 3) % 256
              let length := buf0.data.length - 4 - 2 - 3
              if p1 &&& 0xc0 ≠ 0x80 then
                some (demux, { stream with state := PendingPacketState.PENDING_PACKET_DISCONT })
              /- PES_header_data_length 8 -/
              else if length < PES_header_data_length then
                some (demux, { stream with state := PendingPacketState.PENDING_PACKET_DISCONT })
              else
                match pes_header_timestamps read_ts demux stream.pts buf0 p2 data with
                | none => none
                | some (true, demux1, pts1, buf1) =>
                  let stream1 : TSDemuxStream :=
                    { stream with pts := pts1, pendingbuffers := buf1 :: rest }
                  some (demux1,
                    { stream1 with state := PendingPacketState.PENDING_PACKET_DISCONT })
                | some (false, demux1, pts1, buf1) =>
                  some (demux1, pes_header_finish { stream with pts := pts1 } buf1 rest
                    PES_header_data_length)
            | _ => none
          else some (demux, pes_header_finish stream buf0 rest 0)
        | _ => none
    | _ => none

/-- The function `gst_ts_demux_queue_data`. `buffer` is `packet->buffer`; its
data and size are set to the payload. `none` for a `NULL` payload (the function
must not be called then) and when the header parser has no defined result. -/
def gst_ts_demux_queue_data (read_ts : List Nat → Option (Nat × List Nat))
    (demux : PesDemux) (stream : TSDemuxStream) (packet : MpegTSPacketizerPacket)
    (buffer : GstBuffer) : Option (PesDemux × TSDemuxStream) :=
  match packet.payload with
  | none => none
  | some payload =>
    /- HACK : Instead of creating a new buffer, we just modify the data/size
       of the buffer to point to the payload -/
    let buf : GstBuffer := { buffer with data := payload }
    let r : TSDemuxStream × GstBuffer :=
      if stream.state = PendingPacketState.PENDING_PACKET_EMPTY then
        if !packet.payload_unit_start_indicator then
          ({ stream with state := PendingPacketState.PENDING_PACKET_DISCONT }, buf)
        else
          ({ stream with state := PendingPacketState.PENDING_PACKET_HEADER },
           if stream.pad then { buf with caps := true } else buf)
      else (stream, buf)
    let stream1 := r.1
    let buf := r.2
    if stream1.state = PendingPacketState.PENDING_PACKET_HEADER then
      /- Append to the array, parse the header -/
      gst_ts_demux_parse_pes_header read_ts demux
        { stream1 with pendingbuffers := pending_store stream1.pendingbuffers stream1.nbpending buf,
                       nbpending := (stream1.nbpending + 1) % 256 }
    else if stream1.state = PendingPacketState.PENDING_PACKET_BUFFER then
      some (demux, { stream1 with currentlist := buf :: stream1.currentlist })
    else some (demux, stream1)

/-- A stream with nothing pending, as after `gst_ts_demux_push_pending_data`. -/
def emptyStream : TSDemuxStream :=
  { pad := true, state := PendingPacketState.PENDING_PACKET_EMPTY, pendingbuffers := [],
    nbpending := 0, current := false, currentlist := [], pts := GST_CLOCK_TIME_NONE }

/-- A demuxer without index and with `index_pcr` at the stream start. -/
def pesDemux : PesDemux :=
  { index := none, index_size := 0, index_pcr := { gsttime := 0, pcr := 0, offset := 0 } }

/-- A packet of PID 65 at offset 0 with the given payload. -/
def payloadPacket (pusi : Bool) (payload : List Nat) : MpegTSPacketizerPacket :=
  { pid := 65, payload_unit_start_indicator := pusi, payload := some payload,
    pcr := 0, offset := 0 }

/-- The buffer of a packet before its data is set to the payload. -/
def packetBuffer : GstBuffer :=
  { data := [], offset := 0, timestamp := GST_CLOCK_TIME_NONE, caps := false }

/-- A `READ_TS` that always loses sync; it is not reached by PES headers
without PTS and DTS. -/
def noReadTs : List Nat → Option (Nat × List Nat) := fun _ => none

/-- A demuxer with a one-entry index. -/
def pesDemuxIndexed : PesDemux :=
  { pesDemux with index := some [{ gsttime := 0, pcr := 0, offset := 0 }], index_size := 1 }

/-- The flow result and the committed `segment.last_stop` and `segment.time` of
a seek. -/
def seekCommitted (o : Option SeekOutcome) : Option (GstFlowReturn × Int × Int) :=
  o.map fun r => (r.res, r.segment.last_stop, r.segment.time)

/-- The outcome of the seek without KEY_UNIT to 13.2 s in the 60 s stream: the
position at 12.5 s is chosen, 13.2 s is committed. -/
def plainSeekOutcome : SeekOutcome :=
  { res := GstFlowReturn.ok,
    demux := { seekDemux with need_newsegment := true, seek_offset := 12500000 },
    segment := { seekSegment 13200000000 false false with
                 last_stop := 13200000000, time := 13200000000, stop := 60000000000 },
    seekpcroffset := { gsttime := 12500000000, pcr := 337500000, offset := 12500000 } }

/-- The state of the key-frame scan when no detector ever recorded a key
position: `key_pos` still holds its initial zeros, and a finished scan has
copied them to the running position. -/
def AuxZeroKey (s : AuxScan) : Prop :=
  s.key_pos = { gsttime := 0, pcr := 0, offset := 0 }
    ∧ (s.done = true → s.pcroffset = { gsttime := 0, pcr := 0, offset := 0 })

/-- The demuxer of the 60 s stream whose last recorded PCR is the one at 12 s
(offset 12000000). -/
def curPcrDemux : SeekDemux :=
  { seekDemux with cur_pcr := { gsttime := 0, pcr := 324000000, offset := 12000000 } }

/-- The PCR position at 12 s of the 60 s stream. -/
def pcrAt12s : TSPcrOffset := { gsttime := 12000000000, pcr := 324000000, offset := 12000000 }

/-! ## PCR scan: `find_pcr_packet` -/

/-- What `find_pcr_packet` obtains from outside `tsdemux.c`: whether a program
is set, the constant `MPEGTS_MAX_PACKETSIZE`, whether the packets are M2TS
packets, the result of `gst_pad_pull_range` at an offset, and the PCR packet
(pcr, offset) that `process_pes` finds in the chunk pulled at an offset
(`none` when it returns `FALSE`). -/
structure PcrScanEnv where
  program : Bool
  maxpkt : Nat
  m2ts : Bool
  pull_range : Nat → GstFlowReturn
  process_pes : Nat → Option (Nat × Nat)

/-- The loop `while (!done && scan_offset < length)` of `find_pcr_packet`, run
with fuel: the flow result, `done`, `scan_offset` and `*pcroffset` at the loop
exit or at the jump to `beach`, the boolean telling that `beach` was reached by
the jump. `none` when the fuel runs out with the loop condition still true. -/
def find_pcr_loop (e : PcrScanEnv) (offset length : Nat) :
    Nat → Nat → TSPcrOffset → Option (GstFlowReturn × Bool × Nat × TSPcrOffset × Bool)
  | 0, scan_offset, pcroffset =>
    if scan_offset < length then none
    else some (GstFlowReturn.ok, false, scan_offset, pcroffset, false)
  | fuel + 1, scan_offset, pcroffset =>
    if scan_offset < length then
      let ret := e.pull_range (add64 offset scan_offset)
      if ret ≠ GstFlowReturn.ok then some (ret, false, scan_offset, pcroffset, true)
      else
        let scan_offset1 := add64 scan_offset (50 * e.maxpkt)
        match e.process_pes (add64 offset scan_offset) with
        | some (pcr, off) =>
          some (ret, true, scan_offset1, { pcroffset with pcr := pcr, offset := off }, false)
        | none => find_pcr_loop e offset length fuel scan_offset1 pcroffset
    else some (GstFlowReturn.ok, false, scan_offset, pcroffset, false)

/-- The function `find_pcr_packet` for a positive `length`; the fuel is the
number of chunks of `50 * MPEGTS_MAX_PACKETSIZE` bytes that start below
`length`. -/
def find_pcr_packet (e : PcrScanEnv) (offset length : Nat) (pcroffset : TSPcrOffset) :
    Option (GstFlowReturn × TSPcrOffset) :=
  /- Get the program -/
  if !e.program then some (GstFlowReturn.error, pcroffset)
  else
    let offset := if offset ≥ 4 ∧ e.m2ts then offset - 4 else offset
    match find_pcr_loop e offset length (length / (50 * e.maxpkt) + 1) 0 pcroffset with
    | none => none
    | some (ret, done, scan_offset, pcroffset1, jumped) =>
      if jumped then some (ret, pcroffset1)
      else if !done || decide (scan_offset ≥ length) then
        /- No PCR found! -/
        some (GstFlowReturn.error, pcroffset1)
      else some (ret, pcroffset1)

/-- A file of 60000000 bytes whose only PCR packet of the PCR PID lies at
offset 29600000 (PCR 799200000, 29.6 s): a pull in the file succeeds, a pull at
or after its end returns `GST_FLOW_UNEXPECTED`. -/
def sparsePcrEnv : PcrScanEnv :=
  { program := true, maxpkt := 208, m2ts := false,
    pull_range := fun off =>
      if off < 60000000 then GstFlowReturn.ok else GstFlowReturn.unexpected,
    process_pes := fun off =>
      if off ≤ 29600000 ∧ 29600000 < off + 10400 then some (799200000, 29600000) else none }

/-- The seek environment of the 60 s stream with its PCR scans done by
`find_pcr_packet` on `sparsePcrEnv`; a scan without defined result counts as an
error. -/
def sparseSeekEnv : SeekEnv :=
  { seekEnv with
    find_pcr_packet := fun offset length out =>
      (find_pcr_packet sparsePcrEnv offset length out).getD (GstFlowReturn.error, out) }

/-! ## Flow combination: `tsdemux_combine_flows` -/

/-- The fields of `TSDemuxStream` read by `tsdemux_combine_flows`: whether the
stream has a pad, and the return of its latest push. -/
structure FlowStream where
  pad : Bool
  flow_return : GstFlowReturn
deriving DecidableEq, Repr

/-- The loop `for (i = 0; i < 0x2000; i++)` of `tsdemux_combine_flows` over the
entries of `demux->program->streams` from the current index on; a `NULL` entry
is `none`. -/
def combine_flows_scan : List (Option FlowStream) → GstFlowReturn → GstFlowReturn
  | [], ret => ret
  | none :: rest, ret => combine_flows_scan rest ret
  | some stream :: rest, ret =>
    if stream.pad then
      /- some other return value (must be SUCCESS but we can return
         other values as well) -/
      if stream.flow_return ≠ GstFlowReturn.not_linked then stream.flow_return
      else combine_flows_scan rest stream.flow_return
    else combine_flows_scan rest ret

/-- The store `stream->flow_return = ret` for the stream of PID `pid`. -/
def store_flow_return (streams : List (Option FlowStream)) (pid : Nat) (ret : GstFlowReturn) :
    List (Option FlowStream) :=
  streams.set pid ((streams.getD pid none).map fun st => { st with flow_return := ret })

/-- The function `tsdemux_combine_flows`. `streams` is the array
`demux->program->streams`, indexed by PID (it has 0x2000 entries; entries
beyond the list are `NULL`), and `stream` is its entry for `pid`, as in the
call from `gst_ts_demux_push_pending_data`. Returns the array and the combined
flow return. -/
def tsdemux_combine_flows (streams : List (Option FlowStream)) (pid : Nat)
    (ret : GstFlowReturn) : List (Option FlowStream) × GstFlowReturn :=
  /- Store the value -/
  let streams1 := store_flow_return streams pid ret
  /- any other error that is not-linked can be returned right away -/
  if ret ≠ GstFlowReturn.not_linked then (streams1, ret)
  /- Only return NOT_LINKED if all other pads returned NOT_LINKED -/
  else (streams1, combine_flows_scan (streams1.take 0x2000) ret)

/-- A program with an audio stream on PID 2 that is not linked, a stream
without pad on PID 3 and a video stream on PID 4 whose last push returned
`GST_FLOW_OK`. -/
def flowStreams : List (Option FlowStream) :=
  [none, none, some { pad := true, flow_return := GstFlowReturn.ok },
   some { pad := false, flow_return := GstFlowReturn.error },
   some { pad := true, flow_return := GstFlowReturn.ok }]

/-! ## The push path: `gst_ts_demux_record_pcr`, `gst_ts_demux_push_pending_data`,
`gst_ts_demux_handle_packet` -/

/-- The C operator `!` on a `guint64`: the value 1 for the operand 0, else 0. -/
def logical_not (x : Nat) : Nat := if x = 0 then 1 else 0

/-- What the demuxer sends downstream: a new-segment event with its start, stop
and position (`gint64`), or a buffer list with the buffers of its one group. -/
inductive PadOutput where
  | newsegment (start stop time : Int)
  | buffer_list (group : List GstBuffer)
deriving DecidableEq, Repr

/-- The fields of `GstTSDemux` used on the push path. `pcr_pid` is
`demux->program->pcr_pid`, `streams` the flow fields of
`demux->program->streams`, and `output` what was sent downstream so far,
oldest first. The element messages posted under `emit_statistics` are not part
of the state. -/
structure PushDemux where
  pes : PesDemux
  pcr_pid : Nat
  cur_pcr : TSPcrOffset
  first_pcr : TSPcrOffset
  need_newsegment : Bool
  segment_start : Int
  segment_duration : Int
  segment_time : Int
  streams : List (Option FlowStream)
  output : List PadOutput

/-- The function `gst_ts_demux_record_pcr` for a stream of PID `pid`. The test
`!demux->first_pcr.gsttime == GST_CLOCK_TIME_NONE` compares the negation of
the field with the constant. -/
def gst_ts_demux_record_pcr (demux : PushDemux) (pid pcr offset : Nat) : PushDemux :=
  if pid = demux.pcr_pid then
    let demux1 : PushDemux :=
      { demux with cur_pcr := { gsttime := GST_CLOCK_TIME_NONE, pcr := pcr, offset := offset } }
    /- set first_pcr in push mode -/
    if logical_not demux1.first_pcr.gsttime = GST_CLOCK_TIME_NONE then
      { demux1 with first_pcr :=
          { gsttime := PCRTIME_TO_GSTTIME pcr, pcr := pcr, offset := offset } }
    else demux1
  else demux

/-- The function `gst_ts_demux_record_opcr`: it only logs (and posts a message
under `emit_statistics`). -/
def gst_ts_demux_record_opcr (demux : PushDemux) (_pid _opcr _offset : Nat) : PushDemux := demux

/-- The function `gst_ts_demux_push_pending_data` for the stream at
`demux->program->streams[pid]`. `push_list` is the answer of
`gst_pad_push_list` to a buffer list. The loop computing `tinypts` only feeds a
debug line. After `gst_buffer_list_iterator_add_list` the field `currentlist`
keeps the reversed list. -/
def gst_ts_demux_push_pending_data (push_list : List GstBuffer → GstFlowReturn)
    (demux : PushDemux) (pid : Nat) (stream : TSDemuxStream) :
    PushDemux × TSDemuxStream × GstFlowReturn :=
  let r : PushDemux × TSDemuxStream × GstFlowReturn :=
    if !stream.current then (demux, stream, GstFlowReturn.ok)
    else if stream.state = PendingPacketState.PENDING_PACKET_EMPTY then
      (demux, stream, GstFlowReturn.ok)
    /- We have a confirmed buffer, let's push it out -/
    else if stream.state = PendingPacketState.PENDING_PACKET_BUFFER then
      let stream1 : TSDemuxStream := { stream with currentlist := stream.currentlist.reverse }
      if stream1.pad then
        let demux1 : PushDemux :=
          if demux.need_newsegment then
            { demux with
                output := demux.output ++ [PadOutput.newsegment
                  (toInt64 (add64 demux.first_pcr.gsttime (ofInt64 demux.segment_start)))
                  (toInt64 (add64 demux.first_pcr.gsttime (ofInt64 demux.segment_duration)))
                  demux.segment_time],
                need_newsegment := false }
          else demux
        let res := push_list stream1.currentlist
        let demux2 : PushDemux :=
          { demux1 with output := demux1.output ++ [PadOutput.buffer_list stream1.currentlist] }
        let c := tsdemux_combine_flows demux2.streams pid res
        ({ demux2 with streams := c.1 }, stream1, c.2)
      else (demux, stream1, GstFlowReturn.ok)
    else (demux, stream, GstFlowReturn.ok)
  /- Reset everything -/
  (r.1, { r.2.1 with state := PendingPacketState.PENDING_PACKET_EMPTY, pendingbuffers := [],
                     nbpending := 0, current := false }, r.2.2)

/-- One call of `gst_ts_demux_handle_packet`: the packet, whether
`adaptation_field_control & 0x2`, `afc_flags & MPEGTS_AFC_PCR_FLAG` and
`afc_flags & MPEGTS_AFC_OPCR_FLAG` are non-zero, `packet->opcr`,
`packet->buffer`, and whether `section` is non-`NULL`. -/
structure PacketInput where
  packet : MpegTSPacketizerPacket
  has_adaptation_field : Bool
  has_pcr : Bool
  has_opcr : Bool
  opcr : Nat
  buffer : GstBuffer
  is_section : Bool

/-- The function `gst_ts_demux_handle_packet` for the stream at
`demux->program->streams[pid]`; `none` when `gst_ts_demux_queue_data` has no
defined result. -/
def gst_ts_demux_handle_packet (read_ts : List Nat → Option (Nat × List Nat))
    (push_list : List GstBuffer → GstFlowReturn) (demux : PushDemux) (pid : Nat)
    (stream : TSDemuxStream) (i : PacketInput) :
    Option (PushDemux × TSDemuxStream × GstFlowReturn) :=
  if i.is_section then some (demux, stream, GstFlowReturn.ok)
  else
    let r : PushDemux × TSDemuxStream × GstFlowReturn :=
      if i.packet.payload_unit_start_indicator then
        /- Flush previous data -/
        gst_ts_demux_push_pending_data push_list demux pid stream
      else (demux, stream, GstFlowReturn.ok)
    let demux1 := r.1
    let stream1 := r.2.1
    let res := r.2.2
    let demux2 : PushDemux :=
      if i.has_adaptation_field then
        let d := if i.has_pcr then gst_ts_demux_record_pcr demux1 pid i.packet.pcr i.buffer.offset
                 else demux1
        if i.has_opcr then gst_ts_demux_record_opcr d pid i.opcr i.buffer.offset else d
      else demux1
    match i.packet.payload with
    | some _ =>
      match gst_ts_demux_queue_data read_ts demux2.pes stream1 i.packet i.buffer with
      | none => none
      | some (pes, stream2) => some ({ demux2 with pes := pes }, stream2, res)
    | none => some (demux2, stream1, res)

/-- The calls of `gst_ts_demux_handle_packet` for the packets of one PID, in
arrival order. -/
def handle_packets (read_ts : List Nat → Option (Nat × List Nat))
    (push_list : List GstBuffer → GstFlowReturn) (pid : Nat) :
    PushDemux → TSDemuxStream → List PacketInput → Option (PushDemux × TSDemuxStream)
  | demux, stream, [] => some (demux, stream)
  | demux, stream, i :: rest =>
    match gst_ts_demux_handle_packet read_ts push_list demux pid stream i with
    | none => none
    | some (demux1, stream1, _) => handle_packets read_ts push_list pid demux1 stream1 rest

/-- The buffer a packet contributes to the output group: `packet->buffer` with
its data set to the payload; nothing for a section or a `NULL` payload. -/
def payload_buffer (i : PacketInput) : Option GstBuffer :=
  if i.is_section then none else i.packet.payload.map fun payload => { i.buffer with data := payload }

/-- A demuxer as after `gst_ts_demux_init` and the activation of a program with
PCR PID 65 whose stream 65 has a pad: `first_pcr` is
`(GST_CLOCK_TIME_NONE, 0, 0)`. -/
def pushDemux : PushDemux :=
  { pes := pesDemuxIndexed, pcr_pid := 65,
    cur_pcr := { gsttime := 0, pcr := 0, offset := 0 },
    first_pcr := { gsttime := GST_CLOCK_TIME_NONE, pcr := 0, offset := 0 },
    need_newsegment := true, segment_start := 0, segment_duration := -1, segment_time := 0,
    streams := (List.replicate 65 none) ++ [some { pad := true, flow_return := GstFlowReturn.ok }],
    output := [] }

/-- A packet of PID 65 with the given payload and no adaptation field. -/
def packetInput (pusi : Bool) (payload : List Nat) : PacketInput :=
  { packet := payloadPacket pusi payload, has_adaptation_field := false, has_pcr := false,
    has_opcr := false, opcr := 0, buffer := packetBuffer, is_section := false }

/-- The number of bytes `6 + PES_header_data_length` that the code of
`gst_ts_demux_parse_pes_header` removes from the front of a first payload
`data` when it reaches "Remove PES headers". The local
`guint8 PES_header_data_length` receives the ninth byte plus 3, reduced to 8
bits, and stays 0 for the stream_id 0xbf. For a ninth byte `h` of at most 252
this is the `9 + h` bytes of the PES header; above that the sum wraps. -/
def pes_removed_size (data : List Nat) : Nat :=
  if GST_READ_UINT32_BE (data.getD 0 0) (data.getD 1 0) (data.getD 2 0) (data.getD 3 0)
      &&& 0x000000ff ≠ 0xbf then 6 + (data.getD 8 0 + 3) % 256
  else 6

/-- A downstream that accepts every buffer list. -/
def pushOk : List GstBuffer → GstFlowReturn := fun _ => GstFlowReturn.ok

/-- A PUSI packet whose PES header (PES_header_data_length 2, no PTS or DTS)
is followed by the bytes 7, 8, 9. -/
def pesFirst : PacketInput :=
  packetInput true [0, 0, 1, 0xe0, 0, 0, 0x80, 0, 2, 0xff, 0xff, 7, 8, 9]

/-- Two packets without PUSI: payloads 10, 11 and 12. -/
def pesLater : List PacketInput := [packetInput false [10, 11], packetInput false [12]]

/-- The PUSI packet of the next PES packet: a header with
PES_header_data_length 0 followed by the bytes 20, 21, 22. -/
def pesLast : PacketInput := packetInput true [0, 0, 1, 0xe0, 0, 0, 0x80, 0, 0, 20, 21, 22]

/-- The stream after `pesFirst` was handled from `emptyStream`. -/
def pesParsedStream : TSDemuxStream :=
  { emptyStream with
      state := PendingPacketState.PENDING_PACKET_BUFFER, current := true,
      currentlist := [{ packetBuffer with data := [7, 8, 9], caps := true }] }

/-- What was sent downstream and the stream after a run of
`handle_packets`. -/
def pushSummary (o : Option (PushDemux × TSDemuxStream)) :
    Option (List PadOutput × TSDemuxStream) :=
  o.map fun r => (r.1.output, r.2)

/-! ## PCR sampling: `process_pcr` -/

/-- The block of `process_pcr` run for a packet of the PCR PID that carries a
PCR `lpcr` at byte `offset`. `samples` holds the accepted entries
`(pcrs[k], pcroffs[k])` for `k < nbpcr`, oldest first; the entry written at
index `nbpcr` counts only once `nbpcr` is incremented. In the third test
`lpcr` is above the previous value, so the `guint64` difference does not
wrap. -/
def process_pcr_sample (samples : List (Nat × Nat)) (lpcr offset : Nat) : List (Nat × Nat) :=
  let nbpcr := samples.length
  /- Safeguard against bogus PCR (by detecting if it's the same as the
     previous one or whether the difference with the previous one is
     greater than 10mins -/
  if nbpcr > 1 then
    let prev := (samples.getLast?.getD (0, 0)).1
    if lpcr = prev then samples
    else if lpcr < prev then samples ++ [(lpcr, offset)]
    else if lpcr - prev > 10 * 60 * 27000000 then samples
    else samples ++ [(lpcr, offset)]
  else samples ++ [(lpcr, offset)]

/-- The loop `while ((nbpcr < numpcr) && (size >= base->packetsize))` of
`process_pcr` over one pulled chunk; `found` lists the PCR and byte offset of
the chunk's packets that match the PCR PID pattern and carry a PCR, in stream
order (the other packets only move the offset on). -/
def process_pcr_packets (numpcr : Nat) : List (Nat × Nat) → List (Nat × Nat) → List (Nat × Nat)
  | samples, [] => samples
  | samples, (lpcr, offset) :: rest =>
    if samples.length < numpcr then
      process_pcr_packets numpcr (process_pcr_sample samples lpcr offset) rest
    else samples

/-- The loop `for (i = 0; (i < 20) && (nbpcr < numpcr); i++)` of `process_pcr`,
with `20 - i` as fuel. `pull_range` is `gst_pad_pull_range` at a byte offset
for `500 * packetsize` bytes, giving the flow return and the PCR packets of the
chunk. Returns `ret` and the accepted samples. -/
def process_pcr_chunks (pull_range : Nat → GstFlowReturn × List (Nat × Nat))
    (packetsize initoff numpcr : Nat) :
    Nat → Nat → List (Nat × Nat) → GstFlowReturn × List (Nat × Nat)
  | 0, _, samples => (GstFlowReturn.ok, samples)
  | fuel + 1, i, samples =>
    if samples.length < numpcr then
      let r := pull_range (initoff + i * 500 * packetsize)
      if r.1 ≠ GstFlowReturn.ok then (r.1, samples)
      else process_pcr_chunks pull_range packetsize initoff numpcr fuel (i + 1)
        (process_pcr_packets numpcr samples r.2)
    else (GstFlowReturn.ok, samples)

/-- The function `process_pcr`. `program` tells whether `demux->program` is
non-`NULL`; `pcroffset` is `*pcroffset` on entry (its `gsttime` is not
written). Returns the flow return, `*pcroffset` and the accepted samples
`pcrs[0..nbpcr-1]`. The arrays hold 50 entries; the callers pass
`numpcr = 10`. -/
def process_pcr (program : Bool) (pull_range : Nat → GstFlowReturn × List (Nat × Nat))
    (packetsize initoff : Nat) (pcroffset : TSPcrOffset) (numpcr : Nat) (isinitial : Bool) :
    GstFlowReturn × TSPcrOffset × List (Nat × Nat) :=
  if !program then (GstFlowReturn.error, pcroffset, [])
  else
    /- First find the first X PCR -/
    let r := process_pcr_chunks pull_range packetsize initoff numpcr 20 0 []
    let samples := r.2
    let pcroffset1 : TSPcrOffset :=
      match (if isinitial then samples.head? else samples.getLast?) with
      | some s => { pcroffset with pcr := s.1, offset := s.2 }
      | none => pcroffset
    /- Swallow any errors if it happened during the end scanning -/
    (if !isinitial then GstFlowReturn.ok else r.1, pcroffset1, samples)

/-- The safeguard between an accepted sample `a` and the next accepted sample
`b`: `b` is not the same PCR, and it is a smaller one or at most 10 minutes
later. -/
def pcr_guard (a b : Nat × Nat) : Prop :=
  b.1 ≠ a.1 ∧ (b.1 < a.1 ∨ b.1 - a.1 ≤ 10 * 60 * 27000000)

/-- A stream whose first chunk holds the PCR 100 twice, at bytes 0 and 188,
and then 200 at 376; later pulls run past the end. -/
def samePcrPull : Nat → GstFlowReturn × List (Nat × Nat) := fun offset =>
  if offset = 0 then (GstFlowReturn.ok, [(100, 0), (100, 188), (200, 376)])
  else (GstFlowReturn.unexpected, [])

/-- A stream whose first chunk holds the PCR 0 at byte 0 and a PCR more than
10 minutes later at byte 188; later pulls run past the end. -/
def farPcrPull : Nat → GstFlowReturn × List (Nat × Nat) := fun offset =>
  if offset = 0 then (GstFlowReturn.ok, [(0, 0), (16200000001, 188)])
  else (GstFlowReturn.unexpected, [])

/-- An output location with nothing in it yet. -/
def zeroPcrOffset : TSPcrOffset := { gsttime := 0, pcr := 0, offset := 0 }

/-! ## Index build in pull mode: `find_timestamps` -/

/-- What `find_timestamps` obtains from outside `tsdemux.c`.
* `maxpkt` is `MPEGTS_MAX_PACKETSIZE`, `packetsize` is `base->packetsize`;
* `section_pull` is a `gst_pad_pull_range` of `50 * maxpkt` bytes at a byte
  offset followed by `process_section` on the pulled data: the flow return and
  whether `process_section` reports a program;
* `pcr_pull` is the pull of `process_pcr` at a byte offset with the PCR packets
  of the chunk;
* `peer_duration` is the upstream size in bytes, `none` when the query fails;
* `find` is `find_pcr_packet` as called by `verify_timestamps`. -/
structure TimestampsEnv where
  maxpkt : Nat
  packetsize : Nat
  first_pat_offset : Nat
  section_pull : Nat → GstFlowReturn × Bool
  pcr_pull : Nat → GstFlowReturn × List (Nat × Nat)
  peer_duration : Option Int
  find : PcrScan

/-- The first loop `while (!done)` of `find_timestamps`, scanning from the
start of the stream; it is run with fuel, `none` meaning that the fuel ran
out. Returns the failed pull's flow return, or `GST_FLOW_OK` once
`process_section` reports a program. -/
def find_timestamps_start (e : TimestampsEnv) : Nat → Nat → Option GstFlowReturn
  | 0, _ => none
  | fuel + 1, i =>
    let r := e.section_pull (i * 50 * e.maxpkt)
    if r.1 ≠ GstFlowReturn.ok then some r.1
    else if r.2 then some GstFlowReturn.ok
    else find_timestamps_start e fuel (i + 1)

/-- The loop `while ((!done) && (scan_offset < total_bytes))` of
`find_timestamps`, run with fuel. Returns the failed pull's flow return or
`GST_FLOW_OK`, then `done` and `scan_offset`. -/
def find_timestamps_end (e : TimestampsEnv) (total_bytes : Nat) :
    Nat → Nat → Option (GstFlowReturn × Bool × Nat)
  | 0, _ => none
  | fuel + 1, scan_offset =>
    if scan_offset < total_bytes then
      let r := e.section_pull scan_offset
      if r.1 ≠ GstFlowReturn.ok then some (r.1, false, scan_offset)
      else if r.2 then some (GstFlowReturn.ok, true, add64 scan_offset (50 * e.maxpkt))
      else find_timestamps_end e total_bytes fuel (add64 scan_offset (50 * e.maxpkt))
    else some (GstFlowReturn.ok, false, scan_offset)

/-- The function `find_timestamps`. `demux` holds the index fields and
`duration` is `demux->duration` on entry; `initial` and `final` are the
contents of the two uninitialised locals. `demux->program` is non-`NULL` where
`process_section` has reported a program since the program was last removed.
The first loop gets `fuel` iterations; the second starts at most
`4000 * maxpkt` bytes before `total_bytes` and gets 81. The store to `*offset`
is left out. Returns the flow return, the index fields and
`demux->duration`; `none` when the fuel of a loop runs out. -/
def find_timestamps (e : TimestampsEnv) (fuel : Nat) (demux : IndexState) (duration : Nat)
    (initial final : TSPcrOffset) : Option (GstFlowReturn × IndexState × Nat) :=
  /- Start scanning from know PAT offset -/
  match find_timestamps_start e fuel 0 with
  | none => none
  | some ret0 =>
    if ret0 ≠ GstFlowReturn.ok then some (ret0, demux, duration)
    else
      /- Search for the first PCRs -/
      let p1 := process_pcr true e.pcr_pull e.packetsize e.first_pat_offset initial 10 true
      if p1.1 ≠ GstFlowReturn.ok ∧ p1.1 ≠ GstFlowReturn.unexpected then
        some (p1.1, demux, duration)
      else
        /- Find end position -/
        match e.peer_duration with
        | none => some (GstFlowReturn.error, demux, duration)
        | some total_bytes =>
          /- Let's start scanning 4000 packets from the end -/
          let scan_offset := ofInt64 (max 188 (total_bytes - 4000 * (e.maxpkt : Int)))
          match find_timestamps_end e (ofInt64 total_bytes) 81 scan_offset with
          | none => none
          | some (ret2, done, scan_offset1) =>
            if ret2 ≠ GstFlowReturn.ok then some (ret2, demux, duration)
            else
              let p2 := process_pcr done e.pcr_pull e.packetsize
                (sub64 scan_offset1 (50 * e.maxpkt)) final 10 false
              if p2.1 ≠ GstFlowReturn.ok then some (p2.1, demux, duration)
              else
                /- the result of verify_timestamps is not looked at -/
                match verify_timestamps e.maxpkt e.find demux p1.2.1 p2.2.1 with
                | none => none
                | some (_, demux1) =>
                  some (GstFlowReturn.ok, demux1,
                    sub64 demux1.last_pcr.gsttime demux1.first_pcr.gsttime)

/-- The index fields after `gst_ts_demux_init`. -/
def initIndexState : IndexState :=
  { index := [], index_size := 0,
    first_pcr := { gsttime := GST_CLOCK_TIME_NONE, pcr := 0, offset := 0 },
    index_pcr := { gsttime := 0, pcr := 0, offset := 0 },
    last_pcr := { gsttime := 0, pcr := 0, offset := 0 } }

/-- A stream of 1600000000 bytes (1600 s at 1000000 bytes per second) with
208-byte maximum packets: every section pull finds the program, the first PCR
27000000 (1 s) is at byte 0 and the last PCR 43227000000 (1601 s) at byte
1599168188. -/
def longStreamEnv (find : PcrScan) : TimestampsEnv :=
  { maxpkt := 208, packetsize := 188, first_pat_offset := 0,
    section_pull := fun _ => (GstFlowReturn.ok, true),
    pcr_pull := fun offset =>
      if offset = 0 then (GstFlowReturn.ok, [(27000000, 0)])
      else if offset = 1599168000 then (GstFlowReturn.ok, [(43227000000, 1599168188)])
      else (GstFlowReturn.unexpected, []),
    peer_duration := some 1600000000,
    find := find }

/-- A PCR scan that never finds a PCR packet. -/
def noPcrScan : PcrScan := fun _ _ => none

/-- A PCR scan that finds the PCR 42211212480 at the byte it is asked to start
from. -/
def stridePcrScan : PcrScan := fun offset _ => some (42211212480, offset)

/-- A PUSI packet whose PES header announces PES_header_data_length 253: a
header of 9 + 253 bytes, of which the packet holds the first 12. -/
def pesLongHeader : PacketInput :=
  packetInput true [0, 0, 1, 0xe0, 0, 0, 0x80, 0, 253, 1, 2, 3]

end TsDemux

namespace HlsDemux

/-! ## Theorems -/

theorem loop_pop_push_inv (ret : GstFlowReturn) (s : EmitterState) :
    (loop_pop_push ret s).pushed ++ (loop_pop_push ret s).queue = s.pushed ++ s.queue := by
  unfold loop_pop_push
  cases h : s.queue with
  | nil => simp [h]
  | cons b r => simp

theorem gst_hls_demux_loop_inv (ret : GstFlowReturn) (s : EmitterState) :
    (gst_hls_demux_loop ret s).pushed ++ (gst_hls_demux_loop ret s).queue
      = s.pushed ++ s.queue := by
  unfold gst_hls_demux_loop
  split_ifs <;> simp [loop_end_of_playlist, loop_pop_push_inv]

theorem runPipeline_inv (steps : List PipelineStep) (s : EmitterState) :
    (runPipeline steps s).pushed ++ (runPipeline steps s).queue
      = s.pushed ++ s.queue ++ enqueuedOf steps := by
  induction steps generalizing s with
  | nil => simp [runPipeline, enqueuedOf]
  | cons step rest ih =>
    have h := ih (step.apply s)
    simp only [runPipeline, List.foldl_cons] at h ⊢
    rw [h]
    cases step with
    | enqueue buf => simp [PipelineStep.apply, queue_push_tail, enqueuedOf]
    | playlistEnd => simp [PipelineStep.apply, mark_end_of_playlist, enqueuedOf]
    | emit ret => simp [PipelineStep.apply, enqueuedOf, gst_hls_demux_loop_inv]

/-- C1: for every interleaving of enqueues and emitter steps, the buffers pushed
downstream followed by the buffers still queued are exactly the segments
enqueued so far, in order; so what was pushed is a prefix of what was enqueued. -/
theorem emitter_pushes_prefix_of_enqueued (steps : List PipelineStep) :
    (runPipeline steps EmitterState.init).pushed ++ (runPipeline steps EmitterState.init).queue
        = enqueuedOf steps
      ∧ (runPipeline steps EmitterState.init).pushed <+: enqueuedOf steps := by
  have h := runPipeline_inv steps EmitterState.init
  simp only [EmitterState.init, List.nil_append] at h
  refine ⟨h, ?_⟩
  exact ⟨_, h⟩

theorem truncToInt_intCast (n : Int) : truncToInt (n : ℚ) = n := by
  unfold truncToInt
  split_ifs <;> simp

theorem round_shift_le (fuel : Nat) : ∀ (n m k : Nat), n = m * 2 ^ k → m < 2 ^ 24 →
    round_shift fuel n ≤ k := by
  induction fuel with
  | zero => intro n m k _ _; exact Nat.zero_le _
  | succ fuel ih =>
    intro n m k hn hm
    unfold round_shift
    by_cases hlt : n < 2 ^ 24
    · rw [if_pos hlt]; exact Nat.zero_le _
    · rw [if_neg hlt]
      cases k with
      | zero => simp at hn; omega
      | succ k =>
        have h2 : n / 2 = m * 2 ^ k := by
          rw [hn, pow_succ, ← Nat.mul_assoc, Nat.mul_div_cancel _ (by norm_num : 0 < 2)]
        have := ih (n / 2) m k h2 hm
        omega

theorem round24_exact (m k : Nat) (hm : m < 2 ^ 24) : round24 (m * 2 ^ k) = m * 2 ^ k := by
  have hs := round_shift_le (m * 2 ^ k) (m * 2 ^ k) m k rfl hm
  unfold round24
  generalize round_shift (m * 2 ^ k) (m * 2 ^ k) = s at hs
  have hdvd : 2 ^ s ∣ m * 2 ^ k := Dvd.dvd.mul_left (pow_dvd_pow 2 hs) m
  have hr : m * 2 ^ k % 2 ^ s = 0 := Nat.mod_eq_zero_of_dvd hdvd
  simp only [hr, Nat.mul_zero]
  rw [if_pos (Nat.two_pow_pos s)]
  exact Nat.div_mul_cancel hdvd

theorem round_shift_spec (fuel : Nat) : ∀ n : Nat, n ≤ fuel →
    n / 2 ^ round_shift fuel n < 2 ^ 24 := by
  induction fuel with
  | zero => intro n hn; simp [round_shift]; omega
  | succ fuel ih =>
    intro n hn
    unfold round_shift
    by_cases hlt : n < 2 ^ 24
    · rw [if_pos hlt]; simpa using hlt
    · rw [if_neg hlt]
      have := ih (n / 2) (by omega)
      rw [pow_succ, Nat.mul_comm, ← Nat.div_div_eq_div_mul]
      exact this

theorem gfloat_round_natCast (x scale : Nat) :
    GFloat.round (x : Int) scale = { num := (round24 x : Nat), scale := scale } := by
  unfold GFloat.round
  rw [if_pos (Int.ofNat_nonneg x), Int.toNat_ofNat]

theorem schedule_product_exact (n a b m k : Nat) (hn : n < 2 ^ 24) (ha : n * a < 2 ^ 24)
    (hm : m < 2 ^ 24) (hmk : n * a * 1000000 = m * 2 ^ k) :
    GFloat.toInt (GFloat.mul (GFloat.mul (GFloat.ofInt (n : Int)) { num := (a : Int), scale := b })
        (GFloat.ofInt 1000000))
      = ((n * a * 1000000 / 2 ^ b : Nat) : Int) := by
  have h1 : GFloat.ofInt (n : Int) = { num := (n : Int), scale := 0 } := by
    unfold GFloat.ofInt
    rw [gfloat_round_natCast]
    have := round24_exact n 0 hn
    simp only [pow_zero, Nat.mul_one] at this
    rw [this]
  have h2 : GFloat.ofInt 1000000 = { num := 1000000, scale := 0 } := by decide
  have h3 : GFloat.mul { num := (n : Int), scale := 0 } { num := (a : Int), scale := b }
      = { num := ((n * a : Nat) : Int), scale := b } := by
    unfold GFloat.mul
    simp only [Nat.zero_add]
    rw [show (n : Int) * (a : Int) = ((n * a : Nat) : Int) from by push_cast; rfl,
      gfloat_round_natCast]
    have := round24_exact (n * a) 0 ha
    simp only [pow_zero, Nat.mul_one] at this
    rw [this]
  have h4 : GFloat.mul { num := ((n * a : Nat) : Int), scale := b } { num := 1000000, scale := 0 }
      = { num := ((n * a * 1000000 : Nat) : Int), scale := b } := by
    unfold GFloat.mul
    simp only [Nat.add_zero]
    rw [show ((n * a : Nat) : Int) * 1000000 = ((m * 2 ^ k : Nat) : Int) from by
      rw [← hmk]; push_cast; ring, gfloat_round_natCast, round24_exact m k hm, hmk]
  rw [h1, h2, h3, h4]
  unfold GFloat.toInt
  simp only
  rw [if_pos (Int.ofNat_nonneg _)]
  norm_cast

/-- The `double` constant 0.4 is 7205759403792794 / 2 ^ 54; stored in a `gfloat`
it becomes 13421773 · 2 ^ 29 / 2 ^ 54, the value of
`DEFAULT_BITRATE_SWITCH_TOLERANCE`. -/
theorem default_tolerance_rounding :
    GFloat.round 7205759403792794 54 = { num := 13421773 * 2 ^ 29, scale := 54 }
      ∧ (13421773 * 2 ^ 29 : ℚ) / 2 ^ 54
          = (DEFAULT_BITRATE_SWITCH_TOLERANCE.num : ℚ) / 2 ^ DEFAULT_BITRATE_SWITCH_TOLERANCE.scale := by
  refine ⟨by decide, ?_⟩
  simp only [DEFAULT_BITRATE_SWITCH_TOLERANCE]
  norm_num

theorem schedule_update_factor_cases (count : Nat) :
    (count = 0 → schedule_update_factor count = { num := 1, scale := 0 })
      ∧ (count = 1 → schedule_update_factor count = { num := 1, scale := 1 })
      ∧ (count = 2 → schedule_update_factor count = { num := 3, scale := 1 })
      ∧ (3 ≤ count → schedule_update_factor count = { num := 3, scale := 0 }) := by
  unfold schedule_update_factor update_interval_factor
  refine ⟨?_, ?_, ?_, ?_⟩
  · rintro rfl; rfl
  · rintro rfl; rfl
  · rintro rfl; rfl
  · intro h
    have : ¬ count < 3 := by omega
    rw [if_neg this]
    rfl

theorem schedule_delta_exact (d : GstHLSDemux) (n : Nat)
    (hT : d.client.current.targetduration = (n : Int)) (hn : n ≤ 358) :
    (d.client.update_failed_count = 0 → schedule_delta d = (n : Int) * 1000000)
      ∧ (d.client.update_failed_count = 1 → schedule_delta d = (n : Int) * 500000)
      ∧ (d.client.update_failed_count = 2 → schedule_delta d = (n : Int) * 1500000)
      ∧ (3 ≤ d.client.update_failed_count → schedule_delta d = (n : Int) * 3000000) := by
  obtain ⟨h0, h1, h2, h3⟩ := schedule_update_factor_cases d.client.update_failed_count
  have e0 := schedule_product_exact n 1 0 (n * 15625) 6 (by omega) (by omega) (by omega)
    (by omega)
  have e1 := schedule_product_exact n 1 1 (n * 15625) 6 (by omega) (by omega) (by omega)
    (by omega)
  have hrep : ∃ m k : Nat, m < 2 ^ 24 ∧ n * 3 * 1000000 = m * 2 ^ k := by
    rcases Nat.lt_or_ge n 358 with h | h
    · exact ⟨n * 3 * 15625, 6, by omega, by omega⟩
    · have h358 : n = 358 := by omega
      subst h358
      exact ⟨8390625, 7, by decide, by decide⟩
  obtain ⟨m, k, hm, hmk⟩ := hrep
  have e2 := schedule_product_exact n 3 1 m k (by omega) (by omega) hm hmk
  have e3 := schedule_product_exact n 3 0 m k (by omega) (by omega) hm hmk
  have hd : ∀ f : GFloat, schedule_update_factor d.client.update_failed_count = f →
      schedule_delta d = GFloat.toInt (GFloat.mul (GFloat.mul (GFloat.ofInt (n : Int)) f)
        (GFloat.ofInt 1000000)) := by
    intro f hf
    unfold schedule_delta gst_hls_demux_schedule
    simp only [add_sub_cancel_left, hf, hT]
  refine ⟨fun hk => ?_, fun hk => ?_, fun hk => ?_, fun hk => ?_⟩
  · rw [hd _ (h0 hk)]
    simp only [Nat.cast_one] at e0 ⊢
    rw [e0]
    push_cast
    omega
  · rw [hd _ (h1 hk)]
    simp only [Nat.cast_one] at e1 ⊢
    rw [e1]
    have : n * 1 * 1000000 / 2 ^ 1 = n * 500000 := by omega
    rw [this]
    push_cast
    rfl
  · rw [hd _ (h2 hk)]
    simp only [Nat.cast_ofNat] at e2 ⊢
    rw [e2]
    have : n * 3 * 1000000 / 2 ^ 1 = n * 1500000 := by omega
    rw [this]
    push_cast
    rfl
  · rw [hd _ (h3 hk)]
    simp only [Nat.cast_ofNat] at e3 ⊢
    rw [e3]
    have : n * 3 * 1000000 / 2 ^ 0 = n * 3000000 := by omega
    rw [this]
    push_cast
    rfl

/-- C6 (as stated) fails in two ways. At update_failed_count = 0 with target
duration 10 s the schedule advances next_update by 10 s (factor 1), which is
T·f for no f in {0.5, 1.5, 3.0}. And with target duration 359 s and count 3
the single-precision product 359 · 3 · 1000000 is rounded: the advance is
1076999936 µs, not 1077000000 µs. -/
theorem schedule_factor_one_not_in_spec_set :
    demuxOnA.client.update_failed_count = 0
      ∧ demuxOnA.client.current.targetduration = 10
      ∧ schedule_delta demuxOnA = 10000000
      ∧ (¬ ∃ f : ℚ, (f = 1/2 ∨ f = 3/2 ∨ f = 3)
          ∧ ((schedule_delta demuxOnA : Int) : ℚ)
              = (demuxOnA.client.current.targetduration : ℚ) * f * 1000000)
      ∧ (demuxLongTarget 3).client.current.targetduration = 359
      ∧ schedule_delta (demuxLongTarget 3) = 1076999936
      ∧ schedule_delta (demuxLongTarget 3) ≠ 359 * 3 * 1000000 := by
  have hd : schedule_delta demuxOnA = 10000000 := by decide
  refine ⟨rfl, rfl, hd, ?_, rfl, by decide, by decide⟩
  rintro ⟨f, hf, h⟩
  rw [hd] at h
  have hT : demuxOnA.client.current.targetduration = 10 := rfl
  rw [hT] at h
  rcases hf with rfl | rfl | rfl <;> norm_num at h

/-- C6 (amended): for every update_failed_count and every target duration T
from 0 to 358 s, gst_hls_demux_schedule advances next_update by exactly T·f
(in microseconds, T·f·10^6) with f in {1, 0.5, 1.5, 3.0}, and f = 1 exactly
when the count is 0. (Up to 358 s the single-precision products are exact.) -/
theorem schedule_advances_by_table_factor (d : GstHLSDemux)
    (h0 : 0 ≤ d.client.current.targetduration)
    (h358 : d.client.current.targetduration ≤ 358) :
    ∃ f : ℚ, (f = 1 ∨ f = 1/2 ∨ f = 3/2 ∨ f = 3)
      ∧ (f = 1 ↔ d.client.update_failed_count = 0)
      ∧ ((schedule_delta d : Int) : ℚ)
          = (d.client.current.targetduration : ℚ) * f * 1000000 := by
  obtain ⟨n, hn⟩ := Int.eq_ofNat_of_zero_le h0
  obtain ⟨e0, e1, e2, e3⟩ := schedule_delta_exact d n hn (by omega)
  rw [hn]
  rcases Nat.lt_or_ge d.client.update_failed_count 3 with h | h
  · interval_cases hc : d.client.update_failed_count
    · refine ⟨1, Or.inl rfl, ⟨fun _ => rfl, fun _ => rfl⟩, ?_⟩
      rw [e0 rfl]; push_cast; ring
    · refine ⟨1/2, Or.inr (Or.inl rfl), ⟨fun hf => by norm_num at hf, fun hf => by omega⟩, ?_⟩
      rw [e1 rfl]; push_cast; ring
    · refine ⟨3/2, Or.inr (Or.inr (Or.inl rfl)),
        ⟨fun hf => by norm_num at hf, fun hf => by omega⟩, ?_⟩
      rw [e2 rfl]; push_cast; ring
  · refine ⟨3, Or.inr (Or.inr (Or.inr rfl)), ⟨fun hf => by norm_num at hf, fun hf => by omega⟩, ?_⟩
    rw [e3 h]; push_cast; ring

/-- Witness for C6 (amended): target duration 10 s and count 0: the advance is
10 s, factor 1. -/
theorem schedule_advances_by_table_factor_witness :
    (0 : Int) ≤ demuxOnA.client.current.targetduration
      ∧ demuxOnA.client.current.targetduration ≤ 358
      ∧ ∃ f : ℚ, (f = 1 ∨ f = 1/2 ∨ f = 3/2 ∨ f = 3)
          ∧ (f = 1 ↔ demuxOnA.client.update_failed_count = 0)
          ∧ ((schedule_delta demuxOnA : Int) : ℚ)
              = (demuxOnA.client.current.targetduration : ℚ) * f * 1000000 :=
  ⟨by decide, by decide, schedule_advances_by_table_factor demuxOnA (by decide) (by decide)⟩

/-- C7 (as stated) fails for long target durations: with T = 359 s the
single-precision products are rounded, and the advance is 538499968 µs for
k = 2 (not 1.5·T = 538500000 µs) and 1076999936 µs for k = 3 (not
3.0·T = 1077000000 µs). -/
theorem schedule_backoff_rounded_in_single_precision :
    (demuxLongTarget 2).client.current.targetduration = 359
      ∧ (demuxLongTarget 2).client.update_failed_count = 2
      ∧ schedule_delta (demuxLongTarget 2) = 538499968
      ∧ schedule_delta (demuxLongTarget 2) ≠ 359 * 1500000
      ∧ schedule_delta (demuxLongTarget 4) = 1076999936
      ∧ schedule_delta (demuxLongTarget 4) ≠ 359 * 3000000 := by
  decide

/-- C7 (amended): for a target duration T from 0 to 358 s, when
update_failed_count is k as gst_hls_demux_schedule runs, next_update advances
by 0.5·T for k = 1, by 1.5·T for k = 2 and by 3.0·T for every k ≥ 3 (T seconds
of target duration, next_update in microseconds). -/
theorem schedule_backoff_factors (d : GstHLSDemux)
    (h0 : 0 ≤ d.client.current.targetduration)
    (h358 : d.client.current.targetduration ≤ 358) :
    (d.client.update_failed_count = 1 →
        schedule_delta d = d.client.current.targetduration * 500000)
      ∧ (d.client.update_failed_count = 2 →
        schedule_delta d = d.client.current.targetduration * 1500000)
      ∧ (3 ≤ d.client.update_failed_count →
        schedule_delta d = d.client.current.targetduration * 3000000) := by
  obtain ⟨n, hn⟩ := Int.eq_ofNat_of_zero_le h0
  obtain ⟨_, e1, e2, e3⟩ := schedule_delta_exact d n hn (by omega)
  rw [hn]
  exact ⟨e1, e2, e3⟩

/-- Witness for C7 (amended) with T = 10 s: the successive deltas for failure
counts 1, 2, 3, 4 are 5 s, 15 s, 30 s, 30 s. -/
theorem schedule_backoff_factors_witness :
    schedule_delta (demuxWithFailures 1) = 5000000
      ∧ schedule_delta (demuxWithFailures 2) = 15000000
      ∧ schedule_delta (demuxWithFailures 3) = 30000000
      ∧ schedule_delta (demuxWithFailures 4) = 30000000 :=
  ⟨(schedule_backoff_factors (demuxWithFailures 1) (by decide) (by decide)).1 rfl,
   (schedule_backoff_factors (demuxWithFailures 2) (by decide) (by decide)).2.1 rfl,
   (schedule_backoff_factors (demuxWithFailures 3) (by decide) (by decide)).2.2 (by decide),
   (schedule_backoff_factors (demuxWithFailures 4) (by decide) (by decide)).2.2 (by decide)⟩

theorem change_playlist_to_node (fetched : Option RefreshOutcome) (is_fast : Bool)
    (d : GstHLSDemux) (j : Nat) (data : GstM3U8)
    (hlist : (if is_fast then g_list_next d.client.lists.length d.client.main_lists
              else g_list_previous d.client.main_lists) = some j)
    (hdata : d.client.lists[j]? = some data)
    (hne : data.addr ≠ d.client.current.addr) :
    (gst_hls_demux_change_playlist fetched is_fast d).client.main_lists = some j
      ∧ (gst_hls_demux_change_playlist fetched is_fast d).client.lists = d.client.lists
      ∧ (gst_hls_demux_change_playlist fetched is_fast d).client.current.addr = data.addr
      ∧ (gst_hls_demux_change_playlist fetched is_fast d).client.current.uri = data.uri
      ∧ (gst_hls_demux_change_playlist fetched is_fast d).client.current.bandwidth
          = data.bandwidth
      ∧ (gst_hls_demux_change_playlist fetched is_fast d).posted
          = d.posted ++ [{ uri := data.uri, bitrate := data.bandwidth }]
      ∧ (gst_hls_demux_change_playlist fetched is_fast d).accumulated_delay
          = d.accumulated_delay := by
  unfold gst_hls_demux_change_playlist
  simp only [hlist, hdata, hne, if_false]
  cases fetched <;>
    simp [gst_hls_demux_update_playlist, gst_m3u8_client_set_current, gst_m3u8_client_update]

theorem change_playlist_no_node (fetched : Option RefreshOutcome) (is_fast : Bool)
    (d : GstHLSDemux)
    (hlist : (if is_fast then g_list_next d.client.lists.length d.client.main_lists
              else g_list_previous d.client.main_lists) = none) :
    gst_hls_demux_change_playlist fetched is_fast d = d := by
  unfold gst_hls_demux_change_playlist
  simp only [hlist]

theorem change_playlist_accumulated_delay (fetched : Option RefreshOutcome) (is_fast : Bool)
    (d : GstHLSDemux) :
    (gst_hls_demux_change_playlist fetched is_fast d).accumulated_delay
      = d.accumulated_delay := by
  unfold gst_hls_demux_change_playlist
  cases fetched <;>
    (simp only [gst_hls_demux_update_playlist]; split <;> [rfl; (split <;> [rfl; (split <;> rfl)])])

theorem addr_ne_of_nodup (l : List GstM3U8) (i j : Nat) (a b : GstM3U8)
    (hnd : (l.map GstM3U8.addr).Nodup) (hi : l[i]? = some a) (hj : l[j]? = some b)
    (hij : i ≠ j) : b.addr ≠ a.addr := by
  intro h
  have hi' : (l.map GstM3U8.addr)[i]? = some a.addr := by simp [hi]
  have hj' : (l.map GstM3U8.addr)[j]? = some a.addr := by simp [hj, h]
  have hil : i < (l.map GstM3U8.addr).length := by
    rcases List.getElem?_eq_some_iff.mp hi' with ⟨hlt, _⟩; exact hlt
  have hjl : j < (l.map GstM3U8.addr).length := by
    rcases List.getElem?_eq_some_iff.mp hj' with ⟨hlt, _⟩; exact hlt
  have e1 : (l.map GstM3U8.addr)[i] = a.addr := (List.getElem?_eq_some_iff.mp hi').2
  have e2 : (l.map GstM3U8.addr)[j] = a.addr := (List.getElem?_eq_some_iff.mp hj').2
  exact hij ((List.Nodup.getElem_inj_iff hnd).mp (e1.trans e2.symm))

/-- C8 (as stated) fails where the single-precision limit lies above
targetduration × tolerance. With target duration 30 s and the tolerance 0.4 the
limit computed by the code is 12000001024 ns: 30000000000 becomes 30000001024
when converted to `gfloat`, and the product with 0.4 is rounded again. For
D = 12000001000 ns, which is above 30 s × 0.4 = 12 s (and above the product
with the `gfloat` value of 0.4), the client does not step up although a
successor exists. -/
theorem switch_limit_rounded_in_single_precision :
    demuxTarget30.client.current.targetduration = 30
      ∧ demuxTarget30.bitrate_switch_tol = DEFAULT_BITRATE_SWITCH_TOLERANCE
      ∧ switch_limit demuxTarget30 = 12000001024
      ∧ switch_diff demuxTarget30 87999999 = 12000001000
      ∧ (12000001000 : ℚ) > 30 * 1000000000 * (2 / 5)
      ∧ (12000001000 : ℚ) > 30 * 1000000000 * (13421773 / 2 ^ 25)
      ∧ demuxTarget30.client.lists[1]? = some variantB
      ∧ gst_hls_demux_switch_playlist none 87999999 demuxTarget30 = demuxTarget30 := by
  refine ⟨rfl, rfl, by decide, by decide, by norm_num, by norm_num, rfl, by decide⟩

/-- C8 (amended): in gst_hls_demux_switch_playlist, with L the limit
`targetduration * GST_SECOND * bitrate_switch_tol` as the code computes it in
single precision, when the master has a variant list whose node `i` is the
current variant (distinct objects) and D > L, the client steps up exactly one
variant: if a successor exists it becomes the current variant, main->lists
moves to it, and one message with the successor's (uri, bitrate) is posted; if
the current variant is the last one, nothing changes and nothing is posted. -/
theorem switch_playlist_step_up (fetched : Option RefreshOutcome) (now : Int)
    (d : GstHLSDemux) (i : Nat)
    (hpos : d.client.main_lists = some i)
    (hcur : d.client.lists[i]? = some d.client.current)
    (hnd : (d.client.lists.map GstM3U8.addr).Nodup)
    (hD : switch_diff d now > switch_limit d) :
    (∀ nxt, d.client.lists[i + 1]? = some nxt →
        (gst_hls_demux_switch_playlist fetched now d).client.main_lists = some (i + 1)
          ∧ (gst_hls_demux_switch_playlist fetched now d).client.lists = d.client.lists
          ∧ (gst_hls_demux_switch_playlist fetched now d).client.current.addr = nxt.addr
          ∧ (gst_hls_demux_switch_playlist fetched now d).client.current.uri = nxt.uri
          ∧ (gst_hls_demux_switch_playlist fetched now d).client.current.bandwidth
              = nxt.bandwidth
          ∧ (gst_hls_demux_switch_playlist fetched now d).posted
              = d.posted ++ [{ uri := nxt.uri, bitrate := nxt.bandwidth }])
      ∧ (i + 1 = d.client.lists.length →
          gst_hls_demux_switch_playlist fetched now d = d) := by
  have hsw : gst_hls_demux_switch_playlist fetched now d
      = gst_hls_demux_change_playlist fetched true d := by
    unfold gst_hls_demux_switch_playlist
    simp [hpos, hD]
  rw [hsw]
  constructor
  · intro nxt hnxt
    have hlt : i + 1 < d.client.lists.length :=
      (List.getElem?_eq_some_iff.mp hnxt).1
    have hlist : (if true then g_list_next d.client.lists.length d.client.main_lists
        else g_list_previous d.client.main_lists) = some (i + 1) := by
      simp [g_list_next, hpos, hlt]
    have hne : nxt.addr ≠ d.client.current.addr :=
      addr_ne_of_nodup d.client.lists i (i + 1) _ _ hnd hcur hnxt (by omega)
    obtain ⟨h1, h2, h3, h4, h5, h6, _⟩ :=
      change_playlist_to_node fetched true d (i + 1) nxt hlist hnxt hne
    exact ⟨h1, h2, h3, h4, h5, h6⟩
  · intro hlast
    apply change_playlist_no_node
    simp [g_list_next, hpos, hlast]

/-- Witness for C8 (amended): target duration 10 s, tolerance 0.4 (L = 4 s), D = +6 s,
playing A of [A, B]: the client switches to B and posts (URI_B, 1500000); and
playing B (the last variant) nothing changes. -/
theorem switch_playlist_step_up_witness :
    switch_limit demuxOnA = 4000000000
      ∧ switch_diff demuxOnA 94000000 = 6000000000
      ∧ (gst_hls_demux_switch_playlist none 94000000 demuxOnA).client.current.addr
          = variantB.addr
      ∧ (gst_hls_demux_switch_playlist none 94000000 demuxOnA).posted
          = [{ uri := "URI_B", bitrate := 1500000 }]
      ∧ gst_hls_demux_switch_playlist none 94000000 demuxOnB = demuxOnB := by
  have hL : switch_limit demuxOnA = 4000000000 := by decide
  have hLB : switch_limit demuxOnB = 4000000000 := by decide
  have hD : switch_diff demuxOnA 94000000 = 6000000000 := by decide
  have hDB : switch_diff demuxOnB 94000000 = 6000000000 := by decide
  have hA := switch_playlist_step_up none 94000000 demuxOnA 0 rfl rfl (by decide)
    (by rw [hL, hD]; decide)
  have hB := switch_playlist_step_up none 94000000 demuxOnB 1 rfl rfl (by decide)
    (by rw [hLB, hDB]; decide)
  obtain ⟨_, _, h3, _, _, h6⟩ := hA.1 variantB rfl
  exact ⟨hL, hD, h3, h6, hB.2 rfl⟩

theorem switch_limit_demuxOnB : switch_limit demuxOnB = 4000000000 := by decide

theorem switch_playlist_late_eq (fetched : Option RefreshOutcome) (now : Int)
    (d : GstHLSDemux) (i : Nat)
    (hpos : d.client.main_lists = some i)
    (hL : 0 ≤ switch_limit d)
    (hacc : 0 ≤ d.accumulated_delay)
    (hD : switch_diff d now < 0) :
    gst_hls_demux_switch_playlist fetched now d
      = if d.accumulated_delay - switch_diff d now ≥ switch_limit d then
          gst_hls_demux_change_playlist fetched false
            { d with accumulated_delay := d.accumulated_delay - switch_diff d now }
        else { d with accumulated_delay := d.accumulated_delay - switch_diff d now } := by
  unfold gst_hls_demux_switch_playlist
  have h1 : ¬ switch_diff d now > switch_limit d := by omega
  have h2 : ¬ d.accumulated_delay - switch_diff d now < 0 := by omega
  simp only [hpos, Option.isNone_some, h1, hD, h2, if_false, if_true]
  simp

/-- C9 (as stated) fails: playing B of [A, B] with L = 4 s, a fragment 5 s late
(D = −5 s) makes the client step down to A, and accumulated_delay is then
5 s, not 0. -/
theorem switch_playlist_step_down_keeps_delay :
    switch_diff demuxOnB 105000000 = -5000000000
      ∧ switch_limit demuxOnB = 4000000000
      ∧ (gst_hls_demux_switch_playlist none 105000000 demuxOnB).client.current.addr
          = variantA.addr
      ∧ (gst_hls_demux_switch_playlist none 105000000 demuxOnB).accumulated_delay
          = 5000000000
      ∧ (gst_hls_demux_switch_playlist none 105000000 demuxOnB).accumulated_delay ≠ 0 := by
  have hD : switch_diff demuxOnB 105000000 = -5000000000 := by decide
  have hL := switch_limit_demuxOnB
  have heq := switch_playlist_late_eq none 105000000 demuxOnB 1 rfl
    (by rw [hL]; decide) (by decide) (by rw [hD]; decide)
  rw [hL, hD] at heq
  have hge : (demuxOnB.accumulated_delay - (-5000000000) : Int) ≥ 4000000000 := by decide
  rw [if_pos hge] at heq
  rw [heq]
  refine ⟨hD, hL, ?_, ?_, ?_⟩
  · rfl
  · rfl
  · decide

/-- C9 (amended): in gst_hls_demux_switch_playlist with a variant list, L the
limit as the code computes it in single precision, L ≥ 0, a non-negative
accumulated delay and D < 0, the amount −D is added to
accumulated_delay and the sum is kept (no reset) whether or not the client
steps down; when the sum reaches L the client steps down to the predecessor
of the current variant (if there is one) and posts its (uri, bitrate); below L
the client and the posted messages are unchanged. -/
theorem switch_playlist_late_accumulates (fetched : Option RefreshOutcome) (now : Int)
    (d : GstHLSDemux) (i : Nat)
    (hpos : d.client.main_lists = some i)
    (hcur : d.client.lists[i]? = some d.client.current)
    (hnd : (d.client.lists.map GstM3U8.addr).Nodup)
    (hL : 0 ≤ switch_limit d)
    (hacc : 0 ≤ d.accumulated_delay)
    (hD : switch_diff d now < 0) :
    (gst_hls_demux_switch_playlist fetched now d).accumulated_delay
        = d.accumulated_delay + (-switch_diff d now)
      ∧ (d.accumulated_delay + (-switch_diff d now) ≥ switch_limit d →
          ∀ prv, 0 < i → d.client.lists[i - 1]? = some prv →
            (gst_hls_demux_switch_playlist fetched now d).client.main_lists = some (i - 1)
              ∧ (gst_hls_demux_switch_playlist fetched now d).client.current.addr = prv.addr
              ∧ (gst_hls_demux_switch_playlist fetched now d).client.current.uri = prv.uri
              ∧ (gst_hls_demux_switch_playlist fetched now d).posted
                  = d.posted ++ [{ uri := prv.uri, bitrate := prv.bandwidth }])
      ∧ (d.accumulated_delay + (-switch_diff d now) < switch_limit d →
          (gst_hls_demux_switch_playlist fetched now d).client = d.client
            ∧ (gst_hls_demux_switch_playlist fetched now d).posted = d.posted) := by
  have heq := switch_playlist_late_eq fetched now d i hpos hL hacc hD
  have hsum : d.accumulated_delay + (-switch_diff d now)
      = d.accumulated_delay - switch_diff d now := by ring
  rw [hsum]
  refine ⟨?_, ?_, ?_⟩
  · rw [heq]
    split_ifs
    · rw [change_playlist_accumulated_delay]
    · rfl
  · intro hge prv hi hprv
    rw [heq, if_pos hge]
    have hlist : (if false then
          g_list_next ({ d with accumulated_delay :=
              d.accumulated_delay - switch_diff d now } : GstHLSDemux).client.lists.length
            ({ d with accumulated_delay :=
              d.accumulated_delay - switch_diff d now } : GstHLSDemux).client.main_lists
        else g_list_previous ({ d with accumulated_delay :=
              d.accumulated_delay - switch_diff d now } : GstHLSDemux).client.main_lists)
        = some (i - 1) := by
      simp [g_list_previous, hpos, hi]
    have hne : prv.addr ≠ d.client.current.addr :=
      addr_ne_of_nodup d.client.lists i (i - 1) _ _ hnd hcur hprv (by omega)
    obtain ⟨h1, _, h3, h4, _, h6, _⟩ :=
      change_playlist_to_node fetched false
        { d with accumulated_delay := d.accumulated_delay - switch_diff d now }
        (i - 1) prv hlist hprv hne
    exact ⟨h1, h3, h4, h6⟩
  · intro hlt
    have hnge : ¬ d.accumulated_delay - switch_diff d now ≥ switch_limit d := by omega
    rw [heq, if_neg hnge]
    exact ⟨rfl, rfl⟩

/-- Witness for C9 (amended): playing B of [A, B], L = 4 s, D = −5 s: the
accumulated delay becomes 5 s and the client steps down to A. -/
theorem switch_playlist_late_accumulates_witness :
    (gst_hls_demux_switch_playlist none 105000000 demuxOnB).accumulated_delay
        = 0 + (-switch_diff demuxOnB 105000000)
      ∧ (gst_hls_demux_switch_playlist none 105000000 demuxOnB).client.current.uri
          = "URI_A" := by
  have hD : switch_diff demuxOnB 105000000 = -5000000000 := by decide
  have hL := switch_limit_demuxOnB
  have h := switch_playlist_late_accumulates none 105000000 demuxOnB 1 rfl rfl
    (by decide) (by rw [hL]; decide) (by decide) (by rw [hD]; decide)
  refine ⟨h.1, ?_⟩
  have hge : demuxOnB.accumulated_delay + (-switch_diff demuxOnB 105000000)
      ≥ switch_limit demuxOnB := by rw [hL, hD]; decide
  exact (h.2.1 hge variantA (by decide) rfl).2.2.1

/-- C10 (as stated) fails: a live variant with n = 2 segments numbered from
first-seq = 100, cursor at 100 and fragments_cache = 3: the cursor becomes 99,
which is neither n − fragments_cache clamped at 0 (that is 0) nor inside
[first-seq, first-seq + n] = [100, 102]. -/
theorem live_start_cursor_depends_on_prior :
    (liveFirstLoad 100 2 100 3).client.current.files = [100, 101]
      ∧ (cache_fragments_live_start (liveFirstLoad 100 2 100 3)).client.sequence = 99
      ∧ (cache_fragments_live_start (liveFirstLoad 100 2 100 3)).client.sequence
          ≠ 2 - 3
      ∧ ¬ (100 ≤ (cache_fragments_live_start (liveFirstLoad 100 2 100 3)).client.sequence
            ∧ (cache_fragments_live_start (liveFirstLoad 100 2 100 3)).client.sequence
                ≤ 100 + 2) := by
  decide

/-- C10 (amended): on first load of a live variant with n segments, with the
cursor at `prior` before the block and prior + n below 2^32, the cursor is set
to prior + n − fragments_cache clamped at 0; when moreover the prior cursor is
the media-sequence base first-seq and n ≥ fragments_cache, the resulting cursor
lies in [first-seq, first-seq + n]. -/
theorem live_start_cursor (d : GstHLSDemux)
    (hlive : gst_m3u8_client_is_live d.client = true)
    (hfit : d.client.sequence + d.client.current.files.length < 2 ^ 32) :
    ((cache_fragments_live_start d).client.sequence : Int)
        = max ((d.client.sequence : Int) + (d.client.current.files.length : Int)
                - (d.fragments_cache : Int)) 0
      ∧ (∀ first_seq, d.client.current.files.head? = some first_seq →
          d.client.sequence = first_seq →
          d.fragments_cache ≤ d.client.current.files.length →
          first_seq ≤ (cache_fragments_live_start d).client.sequence
            ∧ (cache_fragments_live_start d).client.sequence
                ≤ first_seq + d.client.current.files.length) := by
  have hmod : (d.client.sequence + d.client.current.files.length) % 2 ^ 32
      = d.client.sequence + d.client.current.files.length := Nat.mod_eq_of_lt hfit
  have hseq : (cache_fragments_live_start d).client.sequence
      = if d.client.sequence + d.client.current.files.length ≥ d.fragments_cache then
          d.client.sequence + d.client.current.files.length - d.fragments_cache
        else 0 := by
    unfold cache_fragments_live_start
    simp only [hlive, if_true, hmod]
  constructor
  · rw [hseq]
    split_ifs with h
    · rw [max_eq_left (by omega)]
      omega
    · rw [max_eq_right (by omega)]
      rfl
  · intro first_seq _ hprior hn
    rw [hseq]
    split_ifs with h <;> omega

/-- Witness for C10 (amended): 10 segments numbered from 5, cursor at 5,
fragments_cache 3: the cursor becomes 12, inside [5, 15]. -/
theorem live_start_cursor_witness :
    (cache_fragments_live_start (liveFirstLoad 5 10 5 3)).client.sequence = 12
      ∧ 5 ≤ (cache_fragments_live_start (liveFirstLoad 5 10 5 3)).client.sequence
      ∧ (cache_fragments_live_start (liveFirstLoad 5 10 5 3)).client.sequence ≤ 5 + 10 := by
  have h := live_start_cursor (liveFirstLoad 5 10 5 3) rfl (by decide)
  have h2 := h.2 5 rfl rfl (by decide)
  refine ⟨?_, h2.1, ?_⟩
  · have h1 := h.1
    have e : ((liveFirstLoad 5 10 5 3).client.sequence : Int)
        + ((liveFirstLoad 5 10 5 3).client.current.files.length : Int)
        - ((liveFirstLoad 5 10 5 3).fragments_cache : Int) = 12 := by decide
    rw [e] at h1
    have : ((cache_fragments_live_start (liveFirstLoad 5 10 5 3)).client.sequence : Int) = 12 := by
      rw [h1]; decide
    exact_mod_cast this
  · exact h2.2

end HlsDemux

namespace TsDemux

theorem add64_eq (a b : Nat) : add64 a b = (a + b) % 2 ^ 64 := rfl

theorem sub64_of_le (a b : Nat) (hb : b ≤ a) (ha : a < 2 ^ 64) : sub64 a b = a - b := by
  unfold sub64
  have h1 : b % 2 ^ 64 = b := Nat.mod_eq_of_lt (by omega)
  rw [h1]
  omega

theorem sub64_cast (a b : Nat) :
    ((sub64 a b : Nat) : Int) = ((a : Int) - (b : Int)) % 2 ^ 64 := by
  unfold sub64
  omega

/-- C3 (as stated) fails at the spec's own witness anchor.pcr = 0x1FFFFFFFFF0,
pts = 1000: the code adds pcr_to_ns(PCR_MAX_VALUE) = pcr_to_ns(2^33·300 + 298),
which is 11037 ns more than pcr_to_ns(2^33·300). -/
theorem calc_gsttime_from_pts_wrap_uses_pcr_max :
    wrapAnchor.pcr > 1000 * 300
      ∧ wrapAnchor.gsttime = PCRTIME_TO_GSTTIME wrapAnchor.pcr
      ∧ calc_gsttime_from_pts wrapAnchor 1000 = 95443728811036
      ∧ wrapAnchor.gsttime - PCRTIME_TO_GSTTIME wrapAnchor.pcr
          + PCRTIME_TO_GSTTIME (2 ^ 33 * 300) + MPEGTIME_TO_GSTTIME 1000 = 95443728799999
      ∧ calc_gsttime_from_pts wrapAnchor 1000
          ≠ wrapAnchor.gsttime - PCRTIME_TO_GSTTIME wrapAnchor.pcr
              + PCRTIME_TO_GSTTIME (2 ^ 33 * 300) + MPEGTIME_TO_GSTTIME 1000 := by
  decide

/-- C3 (amended): for every anchor and every 33-bit pts, in unsigned 64-bit
arithmetic calc_gsttime_from_pts(anchor, pts) equals
anchor.gsttime − pcr_to_ns(anchor.pcr) + pts_to_ns(pts) when
anchor.pcr ≤ pts × 300, and equals anchor.gsttime − pcr_to_ns(anchor.pcr)
+ pcr_to_ns(PCR_MAX_VALUE) + pts_to_ns(pts) when anchor.pcr > pts × 300, where
PCR_MAX_VALUE = 2^33 · 300 + 298. -/
theorem calc_gsttime_from_pts_eq (start : TSPcrOffset) (pts : Nat) (hpts : pts < 2 ^ 33) :
    (start.pcr ≤ pts * 300 →
        ((calc_gsttime_from_pts start pts : Nat) : Int)
          = ((start.gsttime : Int) - (PCRTIME_TO_GSTTIME start.pcr : Int)
              + (MPEGTIME_TO_GSTTIME pts : Int)) % 2 ^ 64)
      ∧ (start.pcr > pts * 300 →
        ((calc_gsttime_from_pts start pts : Nat) : Int)
          = ((start.gsttime : Int) - (PCRTIME_TO_GSTTIME start.pcr : Int)
              + (PCRTIME_TO_GSTTIME PCR_MAX_VALUE : Int)
              + (MPEGTIME_TO_GSTTIME pts : Int)) % 2 ^ 64) := by
  have hmod : (pts * 300) % 2 ^ 64 = pts * 300 := Nat.mod_eq_of_lt (by omega)
  constructor
  · intro h
    have hn : ¬ start.pcr > (pts * 300) % 2 ^ 64 := by rw [hmod]; omega
    unfold calc_gsttime_from_pts
    simp only [hn, if_false, add64_eq]
    have hs := sub64_cast start.gsttime (PCRTIME_TO_GSTTIME start.pcr)
    generalize sub64 start.gsttime (PCRTIME_TO_GSTTIME start.pcr) = t at hs
    generalize PCRTIME_TO_GSTTIME start.pcr = p at hs
    generalize MPEGTIME_TO_GSTTIME pts = m
    omega
  · intro h
    have hn : start.pcr > (pts * 300) % 2 ^ 64 := by rw [hmod]; omega
    unfold calc_gsttime_from_pts
    simp only [hn, if_true, add64_eq]
    have hs := sub64_cast start.gsttime (PCRTIME_TO_GSTTIME start.pcr)
    generalize sub64 start.gsttime (PCRTIME_TO_GSTTIME start.pcr) = t at hs
    generalize PCRTIME_TO_GSTTIME start.pcr = p at hs
    generalize MPEGTIME_TO_GSTTIME pts = m
    generalize PCRTIME_TO_GSTTIME PCR_MAX_VALUE = q
    omega

/-- Witness for C3 (amended): anchor.pcr = 0x1FFFFFFFFF0, pts = 1000 takes the
wrap branch and yields 95443728811036 ns. -/
theorem calc_gsttime_from_pts_eq_witness :
    ((calc_gsttime_from_pts wrapAnchor 1000 : Nat) : Int)
        = ((wrapAnchor.gsttime : Int) - (PCRTIME_TO_GSTTIME wrapAnchor.pcr : Int)
            + (PCRTIME_TO_GSTTIME PCR_MAX_VALUE : Int)
            + (MPEGTIME_TO_GSTTIME 1000 : Int)) % 2 ^ 64
      ∧ ((wrapAnchor.gsttime : Int) - (PCRTIME_TO_GSTTIME wrapAnchor.pcr : Int)
            + (PCRTIME_TO_GSTTIME PCR_MAX_VALUE : Int)
            + (MPEGTIME_TO_GSTTIME 1000 : Int)) % 2 ^ 64 = 95443728811036 :=
  ⟨(calc_gsttime_from_pts_eq wrapAnchor 1000 (by decide)).2 (by decide), by decide⟩

theorem pcrtime_split (x y : Nat) :
    PCRTIME_TO_GSTTIME x + PCRTIME_TO_GSTTIME y ≤ PCRTIME_TO_GSTTIME (x + y)
      ∧ PCRTIME_TO_GSTTIME (x + y) ≤ PCRTIME_TO_GSTTIME x + PCRTIME_TO_GSTTIME y + 1 := by
  unfold PCRTIME_TO_GSTTIME
  omega

/-- C4: for anchor.pcr ≤ PCR_MAX_VALUE and pcr ≤ PCR_MAX_VALUE (64-bit
values), calculate_gsttime(anchor, pcr) is, in unsigned 64-bit arithmetic,
anchor.gsttime plus the conversion of pcr − anchor.pcr when pcr ≥ anchor.pcr,
exactly anchor.gsttime when pcr = anchor.pcr, and, when anchor.pcr > pcr,
anchor.gsttime plus a time that is the conversion of
(PCR_MAX_VALUE − anchor.pcr) + pcr ticks up to 1 ns of rounding. -/
theorem calculate_gsttime_spec (start : TSPcrOffset) (pcr : Nat)
    (hg : start.gsttime < 2 ^ 64)
    (hs : start.pcr ≤ PCR_MAX_VALUE) (hp : pcr ≤ PCR_MAX_VALUE) :
    (start.pcr ≤ pcr →
        calculate_gsttime start pcr
          = (start.gsttime + PCRTIME_TO_GSTTIME (pcr - start.pcr)) % 2 ^ 64)
      ∧ (pcr = start.pcr → calculate_gsttime start pcr = start.gsttime)
      ∧ (start.pcr > pcr →
          ∃ t e, e ≤ 1
            ∧ t + e = PCRTIME_TO_GSTTIME ((PCR_MAX_VALUE - start.pcr) + pcr)
            ∧ calculate_gsttime start pcr = (start.gsttime + t) % 2 ^ 64) := by
  have hmax : PCR_MAX_VALUE < 2 ^ 64 := by decide
  refine ⟨?_, ?_, ?_⟩
  · intro h
    have hn : ¬ start.pcr > pcr := by omega
    unfold calculate_gsttime
    simp only [hn, if_false, add64_eq]
    rw [sub64_of_le pcr start.pcr h (by omega)]
  · intro h
    have hn : ¬ start.pcr > pcr := by omega
    unfold calculate_gsttime
    simp only [hn, if_false, add64_eq]
    rw [sub64_of_le pcr start.pcr (by omega) (by omega), h]
    have hz : PCRTIME_TO_GSTTIME (start.pcr - start.pcr) = 0 := by
      simp [PCRTIME_TO_GSTTIME]
    rw [hz, Nat.add_zero, Nat.mod_eq_of_lt hg]
  · intro h
    unfold calculate_gsttime
    simp only [h, if_true, add64_eq]
    rw [sub64_of_le PCR_MAX_VALUE start.pcr hs hmax]
    obtain ⟨h1, h2⟩ := pcrtime_split (PCR_MAX_VALUE - start.pcr) pcr
    refine ⟨PCRTIME_TO_GSTTIME (PCR_MAX_VALUE - start.pcr) + PCRTIME_TO_GSTTIME pcr,
      PCRTIME_TO_GSTTIME ((PCR_MAX_VALUE - start.pcr) + pcr)
        - (PCRTIME_TO_GSTTIME (PCR_MAX_VALUE - start.pcr) + PCRTIME_TO_GSTTIME pcr),
      by omega, by omega, ?_⟩
    rw [Nat.add_mod, Nat.mod_mod, ← Nat.add_mod]

/-- Witness for C4: anchored at pcr 27000000 (time 1 s), a PCR equal to the
anchor gives exactly the anchor time, a PCR one second later gives 2 s. -/
theorem calculate_gsttime_spec_witness :
    calculate_gsttime { gsttime := 1000000000, pcr := 27000000, offset := 0 } 27000000
        = 1000000000
      ∧ calculate_gsttime { gsttime := 1000000000, pcr := 27000000, offset := 0 } 54000000
        = (1000000000 + PCRTIME_TO_GSTTIME (54000000 - 27000000)) % 2 ^ 64 :=
  ⟨(calculate_gsttime_spec { gsttime := 1000000000, pcr := 27000000, offset := 0 } 27000000
      (by decide) (by decide) (by decide)).2.1 rfl,
   (calculate_gsttime_spec { gsttime := 1000000000, pcr := 27000000, offset := 0 } 54000000
      (by decide) (by decide) (by decide)).1 (by decide)⟩

/-- C5 (as stated) fails: with first = (pcr 1000, offset 188), a scan that
succeeds only on the retry (pcr 1000 at byte 1563300000) and
last = (pcr 500, offset 1563210241), the index built is ascending in none of
the three coordinates: two entries share a gsttime, the pcr drops at the wrap,
and the retried sample lies beyond the last offset. -/
theorem index_not_strictly_ascending :
    retryBuild = some (true, retryBuildState)
      ∧ ¬ ascendingGsttime retryBuildState.index
      ∧ ¬ ascendingPcr retryBuildState.index
      ∧ ¬ ascendingOffset retryBuildState.index := by
  refine ⟨rfl, ?_, ?_, ?_⟩
  · simp [ascendingGsttime, retryBuildState]
  · simp [ascendingPcr, retryBuildState]
  · simp [ascendingOffset, retryBuildState]

theorem calculate_gsttime_step (a : TSPcrOffset) (p : Nat)
    (ha : a.pcr < PCR_MAX_VALUE) (hp : p < PCR_MAX_VALUE)
    (hg : a.gsttime + 95443717699925 < 2 ^ 64) :
    a.gsttime ≤ calculate_gsttime a p
      ∧ calculate_gsttime a p ≤ a.gsttime + 95443717699925
      ∧ (a.pcr ≠ p → a.gsttime < calculate_gsttime a p) := by
  have hm : PCR_MAX_VALUE = 2576980377898 := by decide
  rw [hm] at ha hp
  unfold calculate_gsttime add64 sub64 PCRTIME_TO_GSTTIME
  rw [hm]
  dsimp only
  have e1 : a.pcr % 2 ^ 64 = a.pcr := Nat.mod_eq_of_lt (by omega)
  rw [e1]
  split_ifs with h
  · have e2 : (2576980377898 + (2 ^ 64 - a.pcr)) % 2 ^ 64 = 2576980377898 - a.pcr := by omega
    rw [e2]
    have b1 : (2576980377898 - a.pcr) * 1000000000 / 27000000 + p * 1000000000 / 27000000
        ≤ 95443717699925 := by omega
    have b2 : 1 ≤ (2576980377898 - a.pcr) * 1000000000 / 27000000 := by omega
    generalize (2576980377898 - a.pcr) * 1000000000 / 27000000 = u at b1 b2
    generalize p * 1000000000 / 27000000 = v at b1
    have m1 : (u + v) % 2 ^ 64 = u + v := Nat.mod_eq_of_lt (by omega)
    rw [m1]
    have m2 : (a.gsttime + (u + v)) % 2 ^ 64 = a.gsttime + (u + v) :=
      Nat.mod_eq_of_lt (by omega)
    rw [m2]
    omega
  · have e2 : (p + (2 ^ 64 - a.pcr)) % 2 ^ 64 = p - a.pcr := by omega
    rw [e2]
    have b1 : (p - a.pcr) * 1000000000 / 27000000 ≤ 95443717699925 := by omega
    have b2 : a.pcr ≠ p → 1 ≤ (p - a.pcr) * 1000000000 / 27000000 := by omega
    generalize (p - a.pcr) * 1000000000 / 27000000 = u at b1 b2
    have m2 : (a.gsttime + u) % 2 ^ 64 = a.gsttime + u := Nat.mod_eq_of_lt (by omega)
    rw [m2]
    refine ⟨by omega, by omega, fun hne => ?_⟩
    have := b2 hne
    omega

theorem verify_retry_spec (find : PcrScan) (n offset length : Nat)
    (r : Nat × Nat) (offset1 : Nat)
    (h : verify_retry find n offset length = some (r, offset1)) :
    offset ≤ offset1 ∧ ∃ o l, find o l = some r := by
  induction n generalizing offset length with
  | zero =>
    simp only [verify_retry, Option.map_eq_some'] at h
    obtain ⟨a, h1, h2⟩ := h
    simp only [Prod.mk.injEq] at h2
    obtain ⟨h3, h4⟩ := h2
    subst h3
    exact ⟨by omega, offset, length, h1⟩
  | succ n ih =>
    simp only [verify_retry] at h
    split at h
    · rename_i r2 hf
      simp only [Option.some.injEq, Prod.mk.injEq] at h
      obtain ⟨h3, h4⟩ := h
      subst h3
      exact ⟨by omega, offset, length, hf⟩
    · obtain ⟨h1, h2⟩ := ih _ _ h
      exact ⟨by omega, h2⟩

theorem chain_append_step (index : List TSPcrOffset) (first half : TSPcrOffset)
    (hch : index.Chain' gsttimeStep) (hl : index.getLast? = some first)
    (hstep : gsttimeStep first half) :
    (index ++ [half]).Chain' gsttimeStep ∧ (index ++ [half]).getLast? = some half := by
  constructor
  · apply List.Chain'.append hch (List.chain'_singleton half)
    intro x hx y hy
    rw [hl] at hx
    simp only [Option.mem_def, Option.some.injEq] at hx
    simp only [List.head?_cons, Option.mem_def, Option.some.injEq] at hy
    subst hx hy
    exact hstep
  · simp

theorem verify_loop_spec (maxpkt : Nat) (find : PcrScan) (last_offset : Nat)
    (hfind : ∀ o l r, find o l = some r → r.1 < PCR_MAX_VALUE)
    (hsize : last_offset < 2 ^ 48) (fuel : Nat) :
    ∀ (offset : Nat) (first : TSPcrOffset) (index : List TSPcrOffset) (k : Nat),
      index.Chain' gsttimeStep → index.getLast? = some first →
      first.pcr < PCR_MAX_VALUE →
      (k + 1) * 1562378240 ≤ offset → k * 1562378240 < 2 ^ 48 →
      first.gsttime ≤ (k + 1) * 95443717699925 →
      last_offset ≤ offset + fuel * 1562378240 →
      ∃ ok anchor index1,
        verify_loop maxpkt find last_offset (fuel + 1) offset first index
            = some (ok, anchor, index1)
          ∧ index1.Chain' gsttimeStep ∧ index1.getLast? = some anchor
          ∧ anchor.pcr < PCR_MAX_VALUE
          ∧ ∃ k1, k1 * 1562378240 < 2 ^ 48 ∧ anchor.gsttime ≤ (k1 + 1) * 95443717699925 := by
  have hW : PCR_WRAP_SIZE_128KBPS = 1562378240 := by decide
  induction fuel with
  | zero =>
    intro offset first index k hch hl hp hk1 hk2 hg hfuel
    have hc : ¬ offset + 4000 * maxpkt < last_offset := by omega
    refine ⟨true, first, index, ?_, hch, hl, hp, k, hk2, hg⟩
    simp only [verify_loop, hc, if_false]
  | succ fuel ih =>
    intro offset first index k hch hl hp hk1 hk2 hg hfuel
    by_cases hc : offset + 4000 * maxpkt < last_offset
    · cases hr : verify_retry find 3 offset (4000 * maxpkt) with
      | none =>
        refine ⟨false, first, index, ?_, hch, hl, hp, k, hk2, hg⟩
        rw [verify_loop]
        simp only [hc, if_true, hr]
      | some res =>
        obtain ⟨r, offset1⟩ := res
        obtain ⟨hle, o, l, hf⟩ := verify_retry_spec find 3 offset (4000 * maxpkt) r offset1 hr
        have hrp : r.1 < PCR_MAX_VALUE := hfind o l r hf
        have hk3 : (k + 1) * 1562378240 < 2 ^ 48 := by omega
        have hno : first.gsttime + 95443717699925 < 2 ^ 64 := by omega
        obtain ⟨s1, s2, s3⟩ := calculate_gsttime_step first r.1 hp hrp hno
        have hstep : gsttimeStep first
            { gsttime := calculate_gsttime first r.1, pcr := r.1, offset := r.2 } :=
          ⟨s1, s3⟩
        obtain ⟨c1, c2⟩ := chain_append_step index first _ hch hl hstep
        have := ih (offset1 + PCR_WRAP_SIZE_128KBPS)
          { gsttime := calculate_gsttime first r.1, pcr := r.1, offset := r.2 }
          (index ++ [{ gsttime := calculate_gsttime first r.1, pcr := r.1, offset := r.2 }])
          (k + 1) c1 c2 hrp (by rw [hW]; omega) hk3 (by dsimp only; omega)
          (by rw [hW]; omega)
        obtain ⟨ok, anchor, index1, e, rest⟩ := this
        refine ⟨ok, anchor, index1, ?_, rest⟩
        rw [verify_loop]
        simp only [hc, if_true, hr]
        exact e
    · refine ⟨true, first, index, ?_, hch, hl, hp, k, hk2, hg⟩
      rw [verify_loop]
      simp only [hc, if_false]

theorem sorted_of_chain_gsttimeStep (index : List TSPcrOffset)
    (h : index.Chain' gsttimeStep) :
    nondecreasingGsttime index ∧ strictGsttimeSteps index := by
  constructor
  · unfold nondecreasingGsttime
    have h1 : index.Chain' (fun a b : TSPcrOffset => a.gsttime ≤ b.gsttime) :=
      h.imp fun _ _ hab => hab.1
    haveI : IsTrans TSPcrOffset (fun a b : TSPcrOffset => a.gsttime ≤ b.gsttime) :=
      ⟨fun _ _ _ hab hbc => Nat.le_trans hab hbc⟩
    exact List.chain'_iff_pairwise.mp h1
  · unfold strictGsttimeSteps
    exact h.imp fun _ _ hab => hab.2

/-- C5 (amended): for every sequence of PCR samples returned by the scans
during index build (PCR values below PCR_MAX_VALUE, last sample below byte
2^48), verify_timestamps terminates and, whether it succeeds or gives up after
its retries, the index it leaves is sorted in gsttime: no entry is earlier than
a previous one, and gsttime strictly increases between consecutive entries
whose PCR values differ. -/
theorem verify_timestamps_gsttime_sorted (maxpkt : Nat) (find : PcrScan)
    (demux : IndexState) (first last : TSPcrOffset)
    (hfirst : first.pcr < PCR_MAX_VALUE) (hlast : last.pcr < PCR_MAX_VALUE)
    (hfind : ∀ o l r, find o l = some r → r.1 < PCR_MAX_VALUE)
    (hsize : last.offset < 2 ^ 48) :
    ∃ ok st, verify_timestamps maxpkt find demux first last = some (ok, st)
      ∧ nondecreasingGsttime st.index ∧ strictGsttimeSteps st.index := by
  have hW : PCR_WRAP_SIZE_128KBPS = 1562378240 := by decide
  have hm : PCR_MAX_VALUE = 2576980377898 := by decide
  have hg0 : PCRTIME_TO_GSTTIME first.pcr ≤ (0 + 1) * 95443717699925 := by
    unfold PCRTIME_TO_GSTTIME
    rw [hm] at hfirst
    omega
  have hfuel : last.offset ≤ 1562378240 + (last.offset / 1562378240) * 1562378240 := by
    omega
  obtain ⟨ok, anchor, index1, e, hch, hl, hp, k1, hk1, hg⟩ :=
    verify_loop_spec maxpkt find last.offset hfind hsize (last.offset / 1562378240)
      1562378240 { first with gsttime := PCRTIME_TO_GSTTIME first.pcr }
      [{ first with gsttime := PCRTIME_TO_GSTTIME first.pcr }] 0
      (List.chain'_singleton _) rfl hfirst (by omega) (by omega) hg0 hfuel
  unfold verify_timestamps
  rw [hW]
  dsimp only
  rw [e]
  cases ok with
  | false =>
    exact ⟨false, _, rfl, sorted_of_chain_gsttimeStep _ hch⟩
  | true =>
    refine ⟨true, _, rfl, ?_⟩
    apply sorted_of_chain_gsttimeStep
    have hno : anchor.gsttime + 95443717699925 < 2 ^ 64 := by omega
    obtain ⟨s1, _, s3⟩ := calculate_gsttime_step anchor last.pcr hp hlast hno
    exact (chain_append_step index1 anchor
      { last with gsttime := calculate_gsttime anchor last.pcr } hch hl ⟨s1, s3⟩).1

/-- Witness for C5 (amended): the build with the retried scan terminates with
an index sorted in gsttime. -/
theorem verify_timestamps_gsttime_sorted_witness :
    verify_timestamps 208 retryScan IndexState.empty
        { gsttime := 0, pcr := 1000, offset := 188 }
        { gsttime := 0, pcr := 500, offset := 1563210241 } = some (true, retryBuildState)
      ∧ nondecreasingGsttime retryBuildState.index
      ∧ strictGsttimeSteps retryBuildState.index := by
  obtain ⟨ok, st, e, h1, h2⟩ :=
    verify_timestamps_gsttime_sorted 208 retryScan IndexState.empty
      { gsttime := 0, pcr := 1000, offset := 188 }
      { gsttime := 0, pcr := 500, offset := 1563210241 }
      (by decide) (by decide)
      (by
        intro o l r h
        unfold retryScan at h
        split at h
        · simp only [Option.some.injEq] at h
          subst h
          decide
        · cases h)
      (by decide)
  have e1 : verify_timestamps 208 retryScan IndexState.empty
      { gsttime := 0, pcr := 1000, offset := 188 }
      { gsttime := 0, pcr := 500, offset := 1563210241 } = some (true, retryBuildState) := rfl
  rw [e1] at e
  simp only [Option.some.injEq, Prod.mk.injEq] at e
  obtain ⟨_, e3⟩ := e
  subst e3
  exact ⟨e1, h1, h2⟩

/-- C2 (as stated) fails. In a 60 s stream with key frames at 0.5 s, 12.5 s and
14.5 s: an ACCURATE seek to 13.2 s succeeds and chooses the position at 12.5 s,
before the requested time; a KEY_UNIT seek to 0 s succeeds and chooses the
position at 0.5 s, after the requested time. -/
theorem seek_flags_bounds_fail :
    seekSummary (gst_ts_demux_perform_seek seekEnv seekDemux
        (seekSegment 13200000000 true false) 65) = some (GstFlowReturn.ok, 12500000000)
      ∧ ¬ (13200000000 ≤ 12500000000)
      ∧ seekSummary (gst_ts_demux_perform_seek seekEnv seekDemux
          (seekSegment 0 false true) 65) = some (GstFlowReturn.ok, 500000000)
      ∧ ¬ (500000000 ≤ 0) := by
  refine ⟨?_, by decide, ?_, by decide⟩
  · rfl
  · rfl

theorem search_before_le (index : List TSPcrOffset) (t i : Nat) (z : TSPcrOffset)
    (h : search_before index t = some i) : (index.getD i z).gsttime ≤ t := by
  induction index generalizing i with
  | nil => simp [search_before] at h
  | cons e rest ih =>
    simp only [search_before] at h
    split at h
    · rename_i j hj
      simp only [Option.some.injEq] at h
      subst h
      simpa using ih j hj
    · split at h
      · simp only [Option.some.injEq] at h
        subst h
        simpa using ‹e.gsttime ≤ t›
      · cases h

theorem aux_pid_block_bound (env : SeekEnv) (seektime B : Nat) (fn : Option KeyframeFn)
    (packet : MpegTSPacketizerPacket) (s s1 : AuxScan)
    (hB : seektime ≤ B) (hs : AuxBound B s)
    (h : aux_pid_block env seektime fn packet s = some s1) : AuxBound B s1 := by
  unfold aux_pid_block at h
  simp only [Option.map_eq_some'] at h
  obtain ⟨a, ha, hmap⟩ := h
  have hA : AuxBound B a := by
    split at ha
    · split at ha
      · rename_i pts _
        simp only [Option.some.injEq] at ha
        subst ha
        split
        · rename_i hle
          exact ⟨Nat.le_trans hle hB, hs.2⟩
        · exact hs
      · cases ha
    · simp only [Option.some.injEq] at ha
      subst ha
      exact hs
  subst hmap
  split
  · split
    · split
      · exact ⟨hA.1, hA.1⟩
      · exact hA
    · exact hA
  · exact hA

theorem aux_packet_bound (env : SeekEnv) (seektime pid B : Nat) (accurate : Bool)
    (fn : Option KeyframeFn) (pk : Option MpegTSPacketizerPacket) (s : AuxScan)
    (hB : seektime ≤ B) (hs : AuxBound B s) :
    AuxBound B (aux_packet env seektime pid accurate fn pk s) := by
  unfold aux_packet
  cases pk with
  | none => exact hs
  | some packet =>
    dsimp only
    have key : ∀ s3 : AuxScan, AuxBound B s3 →
        AuxBound B
          (if (if accurate then s3.found_accurate && s3.found_keyframe
               else s3.found_keyframe) = true
           then { s3 with done := true, pcroffset := s3.key_pos }
           else { s3 with done := false }) := by
      intro s3 h3
      generalize (if accurate then s3.found_accurate && s3.found_keyframe
               else s3.found_keyframe) = b
      split_ifs
      · exact ⟨h3.2, h3.2⟩
      · exact h3
    split
    · rename_i hblk
      exact hs
    · rename_i s3 hblk
      apply key
      split at hblk
      · exact aux_pid_block_bound env seektime B fn packet s s3 hB hs hblk
      · simp only [Option.some.injEq] at hblk
        subst hblk
        exact hs

theorem aux_packets_bound (env : SeekEnv) (seektime pid B : Nat) (accurate : Bool)
    (fn : Option KeyframeFn) (pkts : List (Option MpegTSPacketizerPacket)) (s : AuxScan)
    (hB : seektime ≤ B) (hs : AuxBound B s) :
    AuxBound B (aux_packets env seektime pid accurate fn pkts s) := by
  induction pkts generalizing s with
  | nil => exact hs
  | cons pk rest ih =>
    simp only [aux_packets]
    split
    · exact hs
    · exact ih _ (aux_packet_bound env seektime pid B accurate fn pk s hB hs)

theorem aux_chunks_bound (env : SeekEnv) (seektime pid B : Nat) (accurate : Bool)
    (fn : Option KeyframeFn) (offset : Nat) (length : Int) (fuel : Nat)
    (hB : seektime ≤ B) :
    ∀ (scan_offset : Int) (s : AuxScan) (res : GstFlowReturn) (s1 : AuxScan)
      (res1 : GstFlowReturn),
      AuxBound B s →
      aux_chunks env seektime pid accurate fn offset length fuel scan_offset s res
        = some (s1, res1) →
      AuxBound B s1 := by
  induction fuel with
  | zero =>
    intro scan_offset s res s1 res1 hs h
    simp only [aux_chunks] at h
    split at h
    · cases h
    · simp only [Option.some.injEq, Prod.mk.injEq] at h
      obtain ⟨h1, _⟩ := h
      subst h1
      exact hs
  | succ fuel ih =>
    intro scan_offset s res s1 res1 hs h
    simp only [aux_chunks] at h
    split at h
    · split at h
      · simp only [Option.some.injEq, Prod.mk.injEq] at h
        obtain ⟨h1, _⟩ := h
        subst h1
        exact hs
      · exact ih _ _ _ _ _ (aux_packets_bound env seektime pid B accurate fn _ s hB hs) h
    · simp only [Option.some.injEq, Prod.mk.injEq] at h
      obtain ⟨h1, _⟩ := h
      subst h1
      exact hs

theorem auxiliary_seek_bound (env : SeekEnv) (seektime B : Nat) (pcroffset : TSPcrOffset)
    (length : Int) (pid : Nat) (accurate : Bool) (fn : Option KeyframeFn)
    (res : GstFlowReturn) (out : TSPcrOffset)
    (hB : seektime ≤ B) (hp : pcroffset.gsttime ≤ B)
    (h : gst_ts_demux_perform_auxiliary_seek env seektime pcroffset length pid accurate fn
          = some (res, out)) :
    out.gsttime ≤ B := by
  unfold gst_ts_demux_perform_auxiliary_seek at h
  dsimp only at h
  split at h
  · cases h
  · rename_i s r hch
    simp only [Option.some.injEq, Prod.mk.injEq] at h
    obtain ⟨_, h2⟩ := h
    subst h2
    have := aux_chunks_bound env seektime pid B accurate fn _ _ _ hB _ _ _ _ _
      (show AuxBound B _ from ⟨hp, Nat.zero_le _⟩) hch
    exact this.1

theorem seek_loop_body_ok (seektime : Nat) (pcr_start pcr_stop : TSPcrOffset)
    (found : GstFlowReturn × TSPcrOffset) (s e spo : TSPcrOffset)
    (hle : pcr_start.gsttime ≤ seektime)
    (h : seek_loop_body seektime pcr_start pcr_stop found = .ok (s, e, spo)) :
    s.gsttime ≤ seektime := by
  unfold seek_loop_body at h
  dsimp only at h
  split_ifs at h with h1 h2 h3
  · simp only [Except.ok.injEq, Prod.mk.injEq] at h
    obtain ⟨hs, _⟩ := h
    subst hs
    exact hle
  · simp only [Except.ok.injEq, Prod.mk.injEq] at h
    obtain ⟨hs, _⟩ := h
    subst hs
    dsimp only
    omega

theorem seek_loop_body_error (seektime : Nat) (pcr_start pcr_stop : TSPcrOffset)
    (found : GstFlowReturn × TSPcrOffset) (r : GstFlowReturn)
    (h : seek_loop_body seektime pcr_start pcr_stop found = .error r) :
    r ≠ GstFlowReturn.ok := by
  unfold seek_loop_body at h
  dsimp only at h
  split_ifs at h with h1 h2 h3
  · simp only [Except.error.injEq] at h
    subst h
    exact h1
  · simp only [Except.error.injEq] at h
    subst h
    decide

theorem seek_loop_start_le (env : SeekEnv) (seektime : Nat) (remaining : Nat) :
    ∀ (loop_cnt : Nat) (pcr_start pcr_stop seekpcroffset : TSPcrOffset) (time_diff : Int)
      (s e : TSPcrOffset),
      pcr_start.gsttime ≤ seektime →
      seek_loop env seektime remaining loop_cnt pcr_start pcr_stop seekpcroffset time_diff
        = .ok (s, e) →
      s.gsttime ≤ seektime := by
  induction remaining with
  | zero =>
    intro loop_cnt pcr_start pcr_stop seekpcroffset time_diff s e hle h
    simp only [seek_loop, Except.ok.injEq, Prod.mk.injEq] at h
    obtain ⟨h1, _⟩ := h
    subst h1
    exact hle
  | succ remaining ih =>
    intro loop_cnt pcr_start pcr_stop seekpcroffset time_diff s e hle h
    simp only [seek_loop] at h
    by_cases hc : time_diff > (SEEK_TIMESTAMP_OFFSET : Int) / 2
        ∧ sub64 pcr_stop.gsttime pcr_start.gsttime > SEEK_TIMESTAMP_OFFSET
    · rw [if_pos hc] at h
      cases hb : seek_loop_body seektime pcr_start pcr_stop
          (seek_loop_find env pcr_start
            (seek_loop_seekpos env.maxpkt seektime (loop_cnt + 1) pcr_start pcr_stop)
            seekpcroffset) with
      | error r => rw [hb] at h; cases h
      | ok v =>
        obtain ⟨s1, e1, spo1⟩ := v
        rw [hb] at h
        exact ih _ _ _ _ _ s e
          (seek_loop_body_ok seektime pcr_start pcr_stop _ s1 e1 spo1 hle hb) h
    · rw [if_neg hc] at h
      simp only [Except.ok.injEq, Prod.mk.injEq] at h
      obtain ⟨h1, _⟩ := h
      subst h1
      exact hle

theorem seek_loop_error_ne_ok (env : SeekEnv) (seektime : Nat) (remaining : Nat) :
    ∀ (loop_cnt : Nat) (pcr_start pcr_stop seekpcroffset : TSPcrOffset) (time_diff : Int)
      (r : GstFlowReturn),
      seek_loop env seektime remaining loop_cnt pcr_start pcr_stop seekpcroffset time_diff
        = .error r →
      r ≠ GstFlowReturn.ok := by
  induction remaining with
  | zero =>
    intro loop_cnt pcr_start pcr_stop seekpcroffset time_diff r h
    simp only [seek_loop] at h
    cases h
  | succ remaining ih =>
    intro loop_cnt pcr_start pcr_stop seekpcroffset time_diff r h
    simp only [seek_loop] at h
    by_cases hc : time_diff > (SEEK_TIMESTAMP_OFFSET : Int) / 2
        ∧ sub64 pcr_stop.gsttime pcr_start.gsttime > SEEK_TIMESTAMP_OFFSET
    · rw [if_pos hc] at h
      cases hb : seek_loop_body seektime pcr_start pcr_stop
          (seek_loop_find env pcr_start
            (seek_loop_seekpos env.maxpkt seektime (loop_cnt + 1) pcr_start pcr_stop)
            seekpcroffset) with
      | error r1 =>
        rw [hb] at h
        simp only [Except.error.injEq] at h
        subst h
        exact seek_loop_body_error seektime pcr_start pcr_stop _ r1 hb
      | ok v =>
        obtain ⟨s1, e1, spo1⟩ := v
        rw [hb] at h
        exact ih _ _ _ _ _ r h
    · rw [if_neg hc] at h
      cases h

theorem perform_seek_refine_bound (env : SeekEnv) (demux : SeekDemux) (segment : GstSegment)
    (pid seektime0 : Nat) (pcr_start pcr_stop : TSPcrOffset) (o : SeekOutcome)
    (hle : pcr_start.gsttime ≤ seektime0) (hfit : seektime0 + 1000000000 < 2 ^ 64)
    (h : perform_seek_refine env demux segment pid seektime0 pcr_start pcr_stop = some o) :
    o.seekpcroffset.gsttime ≤ seektime0 + 1000000000
      ∧ (o.res = GstFlowReturn.ok → o.demux.seek_offset = o.seekpcroffset.offset) := by
  have hst : add64 seektime0 SEEK_TIMESTAMP_OFFSET = seektime0 + 1000000000 := by
    unfold add64 SEEK_TIMESTAMP_OFFSET
    exact Nat.mod_eq_of_lt hfit
  unfold perform_seek_refine at h
  rw [hst] at h
  dsimp only at h
  split at h
  · cases h
  · split at h
    · cases h
    · rename_i res out haux
      have hb := auxiliary_seek_bound env (seektime0 + 1000000000) (seektime0 + 1000000000)
        pcr_start _ pid _ _ res out (Nat.le_refl _) (by omega) haux
      generalize (if res = GstFlowReturn.custom_error_1 then GstFlowReturn.error
        else res) = res1 at h
      by_cases hne : res1 ≠ GstFlowReturn.ok
      · rw [if_pos hne] at h
        simp only [Option.some.injEq] at h
        subst h
        exact ⟨hb, fun hok => absurd hok hne⟩
      · rw [if_neg hne] at h
        simp only [Option.some.injEq] at h
        subst h
        exact ⟨hb, fun _ => rfl⟩

theorem seek_use_cur_pcr_spec (demux : SeekDemux) (seektime : Nat)
    (pcr_start pcr_stop : TSPcrOffset) (hle : pcr_start.gsttime ≤ seektime) :
    (seek_use_cur_pcr demux seektime pcr_start pcr_stop).2.1.gsttime ≤ seektime
      ∧ (seek_use_cur_pcr demux seektime pcr_start pcr_stop).1.first_pcr = demux.first_pcr := by
  unfold seek_use_cur_pcr
  dsimp only
  split_ifs with h1 h2
  · exact ⟨Nat.le_of_lt h2, rfl⟩
  · exact ⟨hle, rfl⟩
  · exact ⟨hle, rfl⟩

theorem seek_start_time_eq (demux : SeekDemux) (segment : GstSegment)
    (ht : 0 ≤ segment.last_stop)
    (hfit : (demux.first_pcr.gsttime : Int) + max segment.last_stop 1000000000 < 2 ^ 64) :
    ((seek_start_time demux segment : Nat) : Int) + 1000000000
      = (demux.first_pcr.gsttime : Int) + max segment.last_stop 1000000000 := by
  unfold seek_start_time add64 ofInt64 SEEK_TIMESTAMP_OFFSET
  rcases le_total segment.last_stop 1000000000 with h | h
  · rw [max_eq_right h] at hfit ⊢
    rw [max_eq_left (by omega : segment.last_stop - ((1000000000 : Nat) : Int) ≤ 0)]
    omega
  · rw [max_eq_left h] at hfit ⊢
    rw [max_eq_right (by omega : (0 : Int) ≤ segment.last_stop - ((1000000000 : Nat) : Int))]
    omega

theorem perform_seek_position_bound (env : SeekEnv) (demux : SeekDemux)
    (segment : GstSegment) (pid : Nat) (o : SeekOutcome)
    (ht : 0 ≤ segment.last_stop)
    (hfit : (demux.first_pcr.gsttime : Int) + max segment.last_stop 1000000000 < 2 ^ 64)
    (hseek : gst_ts_demux_perform_seek env demux segment pid = some o)
    (hok : o.res = GstFlowReturn.ok) :
    (o.seekpcroffset.gsttime : Int)
        ≤ (demux.first_pcr.gsttime : Int) + max segment.last_stop 1000000000
      ∧ (1000000000 ≤ segment.last_stop →
          (o.seekpcroffset.gsttime : Int) ≤ (demux.first_pcr.gsttime : Int) + segment.last_stop)
      ∧ o.demux.seek_offset = o.seekpcroffset.offset := by
  have hst := seek_start_time_eq demux segment ht hfit
  have key : (o.seekpcroffset.gsttime : Int) + 0
        ≤ ((seek_start_time demux segment : Nat) : Int) + 1000000000
      ∧ o.demux.seek_offset = o.seekpcroffset.offset := by
    unfold gst_ts_demux_perform_seek at hseek
    dsimp only at hseek
    cases hidx : demux.index with
    | none =>
      rw [hidx] at hseek
      simp only [Option.some.injEq] at hseek
      subst hseek
      cases hok
    | some index =>
      rw [hidx] at hseek
      dsimp only at hseek
      cases hsb : search_before index (seek_start_time demux segment) with
      | none =>
        rw [hsb] at hseek
        simp only [Option.some.injEq] at hseek
        subst hseek
        cases hok
      | some i =>
        rw [hsb] at hseek
        dsimp only at hseek
        by_cases hz : (index.getD (i + 1) { gsttime := 0, pcr := 0, offset := 0 }).offset = 0
        · rw [if_pos hz] at hseek
          simp only [Option.some.injEq] at hseek
          subst hseek
          cases hok
        · rw [if_neg hz] at hseek
          have hps := search_before_le index (seek_start_time demux segment) i
            { gsttime := 0, pcr := 0, offset := 0 } hsb
          obtain ⟨hu, _⟩ := seek_use_cur_pcr_spec demux (seek_start_time demux segment)
            (index.getD i { gsttime := 0, pcr := 0, offset := 0 })
            (index.getD (i + 1) { gsttime := 0, pcr := 0, offset := 0 }) hps
          generalize seek_use_cur_pcr demux (seek_start_time demux segment)
            (index.getD i { gsttime := 0, pcr := 0, offset := 0 })
            (index.getD (i + 1) { gsttime := 0, pcr := 0, offset := 0 }) = u at hseek hu
          cases hl : seek_loop env (seek_start_time demux segment)
              (if segment.flags.accurate = true then 25 else 10) 0 u.2.1 u.2.2 u.2.1
              (toInt64 (sub64 (seek_start_time demux segment) u.2.1.gsttime)) with
          | error r =>
            rw [hl] at hseek
            simp only [Option.some.injEq] at hseek
            subst hseek
            exact absurd hok (seek_loop_error_ne_ok _ _ _ _ _ _ _ _ r hl)
          | ok v =>
            obtain ⟨s2, e2⟩ := v
            rw [hl] at hseek
            dsimp only at hseek
            have hs2 := seek_loop_start_le _ _ _ _ _ _ _ _ s2 e2 hu hl
            obtain ⟨b1, b2⟩ := perform_seek_refine_bound env u.1 segment pid
              (seek_start_time demux segment) s2 e2 o hs2 (by omega) hseek
            exact ⟨by omega, b2 hok⟩
  refine ⟨by omega, fun h1 => ?_, key.2⟩
  have : max segment.last_stop 1000000000 = segment.last_stop := max_eq_left h1
  omega

/-- C2 (amended): for every successful seek (gst_ts_demux_perform_seek returns
OK) to a requested time t ≥ 1 s with first_pcr.gsttime + t below 2^64, whatever
the flags (so with the KEY_UNIT flag and equally with the ACCURATE flag), the
position chosen by the key-frame refinement has a time (relative to
first_pcr.gsttime) at or before t; its byte offset is the new pull offset. -/
theorem perform_seek_position_at_or_before (env : SeekEnv) (demux : SeekDemux)
    (segment : GstSegment) (pid : Nat) (o : SeekOutcome)
    (ht : 1000000000 ≤ segment.last_stop)
    (hfit : (demux.first_pcr.gsttime : Int) + segment.last_stop < 2 ^ 64)
    (hseek : gst_ts_demux_perform_seek env demux segment pid = some o)
    (hok : o.res = GstFlowReturn.ok) :
    (o.seekpcroffset.gsttime : Int) ≤ (demux.first_pcr.gsttime : Int) + segment.last_stop
      ∧ o.demux.seek_offset = o.seekpcroffset.offset := by
  have hmax : max segment.last_stop 1000000000 = segment.last_stop := max_eq_left ht
  obtain ⟨_, h2, h3⟩ := perform_seek_position_bound env demux segment pid o (by omega)
    (by rw [hmax]; exact hfit) hseek hok
  exact ⟨h2 ht, h3⟩

/-- Witness for C2 (amended): in the 60 s stream the KEY_UNIT seek to 13.2 s
succeeds and chooses the position at 12.5 s, at or before the requested time. -/
theorem perform_seek_position_at_or_before_witness :
    gst_ts_demux_perform_seek seekEnv seekDemux (seekSegment 13200000000 false true) 65
        = some keyUnitSeekOutcome
      ∧ keyUnitSeekOutcome.res = GstFlowReturn.ok
      ∧ (keyUnitSeekOutcome.seekpcroffset.gsttime : Int)
          ≤ (seekDemux.first_pcr.gsttime : Int) + (seekSegment 13200000000 false true).last_stop
      ∧ keyUnitSeekOutcome.demux.seek_offset = keyUnitSeekOutcome.seekpcroffset.offset :=
  ⟨rfl, rfl,
   perform_seek_position_at_or_before seekEnv seekDemux
      (seekSegment 13200000000 false true) 65 keyUnitSeekOutcome (by decide) (by decide)
      rfl rfl⟩

theorem aux_chunks_fuel (env : SeekEnv) (seektime pid : Nat) (accurate : Bool)
    (fn : Option KeyframeFn) (offset : Nat) (length : Int) (fuel : Nat) :
    ∀ (scan_offset : Int) (s : AuxScan) (res : GstFlowReturn),
      length < scan_offset + (fuel : Int) * (50 * (env.maxpkt : Int)) →
      ∃ r, aux_chunks env seektime pid accurate fn offset length fuel scan_offset s res
        = some r := by
  induction fuel with
  | zero =>
    intro scan_offset s res h
    have hn : ¬ scan_offset ≤ length := by
      simp only [Nat.cast_zero, zero_mul, add_zero] at h
      omega
    exact ⟨(s, res), by simp [aux_chunks, hn]⟩
  | succ fuel ih =>
    intro scan_offset s res h
    simp only [aux_chunks]
    split
    · split
      · exact ⟨_, rfl⟩
      · apply ih
        have e : ((fuel + 1 : Nat) : Int) * (50 * (env.maxpkt : Int))
            = (fuel : Int) * (50 * (env.maxpkt : Int)) + 50 * (env.maxpkt : Int) := by
          push_cast; ring
        rw [e] at h
        linarith
    · exact ⟨_, rfl⟩

/-- The key-frame refinement always returns: with packets of positive size the
fuel given to its outer loop is never exhausted. -/
theorem perform_auxiliary_seek_returns (env : SeekEnv) (seektime : Nat)
    (pcroffset : TSPcrOffset) (length : Int) (pid : Nat) (accurate : Bool)
    (fn : Option KeyframeFn) (hpk : 0 < env.maxpkt) :
    ∃ r, gst_ts_demux_perform_auxiliary_seek env seektime pcroffset length pid accurate fn
      = some r := by
  unfold gst_ts_demux_perform_auxiliary_seek
  dsimp only
  have hc : (0 : Int) < 50 * (env.maxpkt : Int) := by
    have : (0 : Int) < (env.maxpkt : Int) := by exact_mod_cast hpk
    linarith
  have hmin : min length (50 * (env.maxpkt : Int)) ≤ length := min_le_left _ _
  have hq : 0 ≤ (length - min length (50 * (env.maxpkt : Int))) / (50 * (env.maxpkt : Int)) :=
    Int.ediv_nonneg (by linarith) (le_of_lt hc)
  have hfuel : length < min length (50 * (env.maxpkt : Int))
      + ((((length - min length (50 * (env.maxpkt : Int))) / (50 * (env.maxpkt : Int))).toNat
          + 1 : Nat) : Int) * (50 * (env.maxpkt : Int)) := by
    push_cast
    rw [Int.toNat_of_nonneg hq]
    have h1 := Int.emod_add_ediv (length - min length (50 * (env.maxpkt : Int)))
      (50 * (env.maxpkt : Int))
    have h2 := Int.emod_lt_of_pos (length - min length (50 * (env.maxpkt : Int))) hc
    nlinarith
  obtain ⟨r, hr⟩ := aux_chunks_fuel env seektime pid accurate fn
    (if env.m2ts then sub64 pcroffset.offset 4 else pcroffset.offset) length _
    (min length (50 * (env.maxpkt : Int)))
    { pcroffset := pcroffset, key_pos := { gsttime := 0, pcr := 0, offset := 0 },
      state := 0xffffffff, found_keyframe := false, found_accurate := false,
      need_more := true, done := false } GstFlowReturn.error hfuel
  rw [hr]
  exact ⟨_, rfl⟩

theorem seek_use_cur_pcr_fields (demux : SeekDemux) (seektime : Nat)
    (pcr_start pcr_stop : TSPcrOffset) :
    (seek_use_cur_pcr demux seektime pcr_start pcr_stop).1.need_newsegment
        = demux.need_newsegment
      ∧ (seek_use_cur_pcr demux seektime pcr_start pcr_stop).1.seek_offset = demux.seek_offset
      ∧ (seek_use_cur_pcr demux seektime pcr_start pcr_stop).1.first_pcr = demux.first_pcr
      ∧ (seek_use_cur_pcr demux seektime pcr_start pcr_stop).1.index = demux.index := by
  unfold seek_use_cur_pcr
  dsimp only
  split_ifs <;> exact ⟨rfl, rfl, rfl, rfl⟩

theorem perform_seek_refine_fail (env : SeekEnv) (demux : SeekDemux) (segment : GstSegment)
    (pid seektime0 : Nat) (pcr_start pcr_stop : TSPcrOffset) (o : SeekOutcome)
    (h : perform_seek_refine env demux segment pid seektime0 pcr_start pcr_stop = some o)
    (hne : o.res ≠ GstFlowReturn.ok) :
    o.demux = demux ∧ o.segment = segment := by
  unfold perform_seek_refine at h
  dsimp only at h
  by_cases hdt : sub64 pcr_stop.gsttime pcr_start.gsttime = 0
  · rw [if_pos hdt] at h
    cases h
  · rw [if_neg hdt] at h
    split at h
    · cases h
    · rename_i res out haux
      generalize (if res = GstFlowReturn.custom_error_1 then GstFlowReturn.error
        else res) = res1 at h
      by_cases hr : res1 ≠ GstFlowReturn.ok
      · rw [if_pos hr] at h
        simp only [Option.some.injEq] at h
        subst h
        exact ⟨rfl, rfl⟩
      · rw [if_neg hr] at h
        simp only [Option.some.injEq] at h
        subst h
        exact absurd rfl hne

theorem perform_seek_refine_ok (env : SeekEnv) (demux : SeekDemux) (segment : GstSegment)
    (pid seektime0 : Nat) (pcr_start pcr_stop : TSPcrOffset) (o : SeekOutcome)
    (h : perform_seek_refine env demux segment pid seektime0 pcr_start pcr_stop = some o)
    (hok : o.res = GstFlowReturn.ok) :
    o.segment.last_stop
        = toInt64 (sub64 (if segment.flags.key_unit then o.seekpcroffset.gsttime
                          else add64 seektime0 SEEK_TIMESTAMP_OFFSET) demux.first_pcr.gsttime)
      ∧ o.segment.time = o.segment.last_stop
      ∧ o.demux.need_newsegment = true
      ∧ o.demux.seek_offset = o.seekpcroffset.offset := by
  unfold perform_seek_refine at h
  dsimp only at h
  by_cases hdt : sub64 pcr_stop.gsttime pcr_start.gsttime = 0
  · rw [if_pos hdt] at h
    cases h
  · rw [if_neg hdt] at h
    split at h
    · cases h
    · rename_i res out haux
      generalize (if res = GstFlowReturn.custom_error_1 then GstFlowReturn.error
        else res) = res1 at h
      by_cases hr : res1 ≠ GstFlowReturn.ok
      · rw [if_pos hr] at h
        simp only [Option.some.injEq] at h
        subst h
        exact absurd hok hr
      · rw [if_neg hr] at h
        simp only [Option.some.injEq] at h
        subst h
        dsimp only
        refine ⟨?_, ?_, rfl, rfl⟩ <;> split_ifs <;> rfl

theorem perform_seek_reaches_refine (env : SeekEnv) (demux : SeekDemux)
    (segment : GstSegment) (pid : Nat) (o : SeekOutcome)
    (h : gst_ts_demux_perform_seek env demux segment pid = some o) :
    (o.res ≠ GstFlowReturn.ok ∧ o.segment = segment
        ∧ o.demux.need_newsegment = demux.need_newsegment
        ∧ o.demux.seek_offset = demux.seek_offset)
      ∨ ∃ d1 s2 e2,
          d1.first_pcr = demux.first_pcr
            ∧ d1.need_newsegment = demux.need_newsegment
            ∧ d1.seek_offset = demux.seek_offset
            ∧ s2.gsttime ≤ seek_start_time demux segment
            ∧ perform_seek_refine env d1 segment pid (seek_start_time demux segment) s2 e2
                = some o := by
  unfold gst_ts_demux_perform_seek at h
  dsimp only at h
  cases hidx : demux.index with
  | none =>
    rw [hidx] at h
    simp only [Option.some.injEq] at h
    subst h
    exact Or.inl ⟨(fun hc => by cases hc), rfl, rfl, rfl⟩
  | some index =>
    rw [hidx] at h
    dsimp only at h
    cases hsb : search_before index (seek_start_time demux segment) with
    | none =>
      rw [hsb] at h
      simp only [Option.some.injEq] at h
      subst h
      exact Or.inl ⟨(fun hc => by cases hc), rfl, rfl, rfl⟩
    | some i =>
      rw [hsb] at h
      dsimp only at h
      by_cases hz : (index.getD (i + 1) { gsttime := 0, pcr := 0, offset := 0 }).offset = 0
      · rw [if_pos hz] at h
        simp only [Option.some.injEq] at h
        subst h
        exact Or.inl ⟨(fun hc => by cases hc), rfl, rfl, rfl⟩
      · rw [if_neg hz] at h
        have hps := search_before_le index (seek_start_time demux segment) i
          { gsttime := 0, pcr := 0, offset := 0 } hsb
        obtain ⟨hu, _⟩ := seek_use_cur_pcr_spec demux (seek_start_time demux segment)
          (index.getD i { gsttime := 0, pcr := 0, offset := 0 })
          (index.getD (i + 1) { gsttime := 0, pcr := 0, offset := 0 }) hps
        obtain ⟨f1, f2, f3, _⟩ := seek_use_cur_pcr_fields demux (seek_start_time demux segment)
          (index.getD i { gsttime := 0, pcr := 0, offset := 0 })
          (index.getD (i + 1) { gsttime := 0, pcr := 0, offset := 0 })
        generalize seek_use_cur_pcr demux (seek_start_time demux segment)
          (index.getD i { gsttime := 0, pcr := 0, offset := 0 })
          (index.getD (i + 1) { gsttime := 0, pcr := 0, offset := 0 }) = u at h hu f1 f2 f3
        cases hl : seek_loop env (seek_start_time demux segment)
            (if segment.flags.accurate = true then 25 else 10) 0 u.2.1 u.2.2 u.2.1
            (toInt64 (sub64 (seek_start_time demux segment) u.2.1.gsttime)) with
        | error r =>
          rw [hl] at h
          simp only [Option.some.injEq] at h
          subst h
          exact Or.inl ⟨seek_loop_error_ne_ok _ _ _ _ _ _ _ _ r hl, rfl, f1, f2⟩
        | ok v =>
          obtain ⟨s2, e2⟩ := v
          rw [hl] at h
          dsimp only at h
          exact Or.inr ⟨u.1, s2, e2, f3, f1, f2,
            seek_loop_start_le _ _ _ _ _ _ _ _ s2 e2 hu hl, h⟩

theorem toInt64_sub64_of_le (a b : Nat) (hba : b ≤ a) (ha : a < b + 2 ^ 63)
    (hb : b < 2 ^ 63) : toInt64 (sub64 a b) = (a : Int) - (b : Int) := by
  have h1 : sub64 a b = a - b := sub64_of_le a b hba (by omega)
  rw [h1]
  unfold toInt64
  have h2 : (a - b) % 2 ^ 64 = a - b := Nat.mod_eq_of_lt (by omega)
  rw [h2, if_pos (by omega)]
  omega

theorem perform_seek_refine_no_keyframe (env : SeekEnv) (demux : SeekDemux)
    (segment : GstSegment) (pid seektime0 : Nat) (pcr_start pcr_stop out : TSPcrOffset)
    (hdt : sub64 pcr_stop.gsttime pcr_start.gsttime ≠ 0)
    (hscan : refine_keyframe_scan env demux segment pid seektime0 pcr_start pcr_stop
      = some (GstFlowReturn.custom_error_1, out)) :
    perform_seek_refine env demux segment pid seektime0 pcr_start pcr_stop
      = some { res := GstFlowReturn.error, demux := demux, segment := segment,
               seekpcroffset := out } := by
  unfold refine_keyframe_scan at hscan
  unfold perform_seek_refine
  simp only [] at hscan ⊢
  rw [if_neg hdt, hscan]
  rfl

theorem do_seek_returns_failure (env : SeekEnv)
    (set_seek : GstSegment → SeekEvent → GstSegment) (st : SeekState) (event : SeekEvent)
    (pid : Nat) (o : SeekOutcome)
    (hfmt : event.format_is_time = true) (hseg : event.flags.segment = false)
    (hskip : event.flags.skip = false)
    (hseek : gst_ts_demux_perform_seek env st.base (set_seek st.segment event) pid = some o)
    (hres : o.res ≠ GstFlowReturn.ok) :
    gst_ts_demux_do_seek env set_seek st event pid
      = some (o.res, { st with base := o.demux }) := by
  unfold gst_ts_demux_do_seek
  simp only [hfmt, hseg, hskip, hseek]
  simp [hres]

set_option maxRecDepth 20000

/-- Claim C18, counterexample: in the 60 s stream a KEY_UNIT seek to 13.2 s
with no key frame in the scan window, and the same seek on a demuxer without
index, both end with the generic `GST_FLOW_ERROR`, from
`gst_ts_demux_perform_seek` and from `gst_ts_demux_do_seek`: the caller cannot
tell the two failures apart. -/
theorem no_keyframe_error_same_as_missing_index :
    seekResult (gst_ts_demux_perform_seek noKeyframeEnv seekDemux
        (seekSegment 13200000000 false true) 65) = some GstFlowReturn.error
      ∧ seekResult (gst_ts_demux_perform_seek seekEnv noIndexDemux
        (seekSegment 13200000000 false true) 65) = some GstFlowReturn.error
      ∧ (gst_ts_demux_do_seek noKeyframeEnv setSeekExample (seekState seekDemux)
          (keyUnitEvent 13200000000) 65).map Prod.fst = some GstFlowReturn.error
      ∧ (gst_ts_demux_do_seek seekEnv setSeekExample (seekState noIndexDemux)
          (keyUnitEvent 13200000000) 65).map Prod.fst = some GstFlowReturn.error :=
  ⟨rfl, rfl, rfl, rfl⟩

/-- Claim C18, amended: when the key-frame scan of the seek finds no key frame
(the auxiliary seek returns `GST_FLOW_CUSTOM_ERROR_1`), the refinement of
`gst_ts_demux_perform_seek` ends with the generic `GST_FLOW_ERROR`, leaving
demuxer and segment as they were, and `gst_ts_demux_do_seek` returns the
`GST_FLOW_ERROR` of a failed `gst_ts_demux_perform_seek` unchanged. -/
theorem no_keyframe_seek_fails_with_generic_error (env : SeekEnv) (demux : SeekDemux)
    (segment : GstSegment) (pid seektime0 : Nat) (pcr_start pcr_stop out : TSPcrOffset)
    (hdt : sub64 pcr_stop.gsttime pcr_start.gsttime ≠ 0)
    (hscan : refine_keyframe_scan env demux segment pid seektime0 pcr_start pcr_stop
      = some (GstFlowReturn.custom_error_1, out)) :
    perform_seek_refine env demux segment pid seektime0 pcr_start pcr_stop
        = some { res := GstFlowReturn.error, demux := demux, segment := segment,
                 seekpcroffset := out }
      ∧ ∀ (set_seek : GstSegment → SeekEvent → GstSegment) (st : SeekState)
          (event : SeekEvent) (o : SeekOutcome),
          event.format_is_time = true → event.flags.segment = false →
          event.flags.skip = false →
          gst_ts_demux_perform_seek env st.base (set_seek st.segment event) pid = some o →
          o.res = GstFlowReturn.error →
          gst_ts_demux_do_seek env set_seek st event pid
            = some (GstFlowReturn.error, { st with base := o.demux }) := by
  refine ⟨perform_seek_refine_no_keyframe env demux segment pid seektime0 pcr_start pcr_stop
    out hdt hscan, ?_⟩
  intro set_seek st event o hfmt hseg hskip hseek hres
  have h := do_seek_returns_failure env set_seek st event pid o hfmt hseg hskip hseek
    (by rw [hres]; exact fun hc => by cases hc)
  rw [hres] at h
  exact h

/-- Claim C18, witness: the KEY_UNIT seek to 13.2 s in the 60 s stream without
key frames; the scan from the PCR at 12 s reports no key frame, and the seek
ends with `GST_FLOW_ERROR`. -/
theorem no_keyframe_seek_fails_with_generic_error_witness :
    sub64 60000000000 12000000000 ≠ 0
      ∧ refine_keyframe_scan noKeyframeEnv seekDemux (seekSegment 13200000000 false true) 65
          12200000000 { gsttime := 12000000000, pcr := 324000000, offset := 12000000 }
          { gsttime := 60000000000, pcr := 1620000000, offset := 60000000 }
        = some (GstFlowReturn.custom_error_1,
                { gsttime := 12000000000, pcr := 324000000, offset := 12000000 })
      ∧ perform_seek_refine noKeyframeEnv seekDemux (seekSegment 13200000000 false true) 65
          12200000000 { gsttime := 12000000000, pcr := 324000000, offset := 12000000 }
          { gsttime := 60000000000, pcr := 1620000000, offset := 60000000 }
        = some { res := GstFlowReturn.error, demux := seekDemux,
                 segment := seekSegment 13200000000 false true,
                 seekpcroffset :=
                   { gsttime := 12000000000, pcr := 324000000, offset := 12000000 } }
      ∧ gst_ts_demux_do_seek noKeyframeEnv setSeekExample (seekState seekDemux)
          (keyUnitEvent 13200000000) 65
        = some (GstFlowReturn.error, seekState seekDemux) :=
  ⟨by decide, rfl,
   (no_keyframe_seek_fails_with_generic_error noKeyframeEnv seekDemux
      (seekSegment 13200000000 false true) 65 12200000000
      { gsttime := 12000000000, pcr := 324000000, offset := 12000000 }
      { gsttime := 60000000000, pcr := 1620000000, offset := 60000000 }
      { gsttime := 12000000000, pcr := 324000000, offset := 12000000 }
      (by decide) rfl).1,
   rfl⟩

/-- Claim C19: whenever `gst_ts_demux_do_seek` returns a result other than
`GST_FLOW_OK`, the demuxer segment is the one from before the call, and
`need_newsegment`, the pull offset `seek_offset` and the posted segment-start
messages are unchanged. -/
theorem do_seek_failure_leaves_segment_untouched (env : SeekEnv)
    (set_seek : GstSegment → SeekEvent → GstSegment) (st st2 : SeekState)
    (event : SeekEvent) (pid : Nat) (r : GstFlowReturn)
    (hseek : gst_ts_demux_do_seek env set_seek st event pid = some (r, st2))
    (hres : r ≠ GstFlowReturn.ok) :
    st2.segment = st.segment ∧ st2.base.need_newsegment = st.base.need_newsegment
      ∧ st2.base.seek_offset = st.base.seek_offset
      ∧ st2.segment_start_msgs = st.segment_start_msgs := by
  unfold gst_ts_demux_do_seek at hseek
  by_cases hfmt : (!event.format_is_time) = true
  · rw [if_pos hfmt] at hseek
    simp only [Option.some.injEq, Prod.mk.injEq] at hseek
    obtain ⟨_, h2⟩ := hseek
    subst h2
    exact ⟨rfl, rfl, rfl, rfl⟩
  · rw [if_neg hfmt] at hseek
    by_cases hfl : (event.flags.segment || event.flags.skip) = true
    · rw [if_pos hfl] at hseek
      simp only [Option.some.injEq, Prod.mk.injEq] at hseek
      obtain ⟨_, h2⟩ := hseek
      subst h2
      exact ⟨rfl, rfl, rfl, rfl⟩
    · rw [if_neg hfl] at hseek
      simp only [] at hseek
      cases hps : gst_ts_demux_perform_seek env st.base (set_seek st.segment event) pid with
      | none => rw [hps] at hseek; cases hseek
      | some o =>
        rw [hps] at hseek
        simp only [] at hseek
        by_cases hok : o.res ≠ GstFlowReturn.ok
        · rw [if_pos hok] at hseek
          simp only [Option.some.injEq, Prod.mk.injEq] at hseek
          obtain ⟨_, h2⟩ := hseek
          subst h2
          rcases perform_seek_reaches_refine env st.base (set_seek st.segment event) pid o hps
            with ⟨_, _, hn, hso⟩ | ⟨d1, s2, e2, _, hn, hso, _, href⟩
          · exact ⟨rfl, hn, hso, rfl⟩
          · have hf := perform_seek_refine_fail env d1 (set_seek st.segment event) pid _
              s2 e2 o href hok
            refine ⟨rfl, ?_, ?_, rfl⟩
            · show o.demux.need_newsegment = _
              rw [hf.1]; exact hn
            · show o.demux.seek_offset = _
              rw [hf.1]; exact hso
        · rw [if_neg hok] at hseek
          simp only [Option.some.injEq, Prod.mk.injEq] at hseek
          obtain ⟨h1, _⟩ := hseek
          exact absurd (h1 ▸ not_not.mp hok) hres

/-- Claim C19, witness: the KEY_UNIT seek to 13.2 s in the 60 s stream without
key frames fails and leaves segment, `need_newsegment` and `seek_offset` as
they were. -/
theorem do_seek_failure_leaves_segment_untouched_witness :
    gst_ts_demux_do_seek noKeyframeEnv setSeekExample (seekState seekDemux)
        (keyUnitEvent 13200000000) 65 = some (GstFlowReturn.error, seekState seekDemux)
      ∧ GstFlowReturn.error ≠ GstFlowReturn.ok
      ∧ (seekState seekDemux).segment = seekSegment 0 false false
      ∧ (seekState seekDemux).base.need_newsegment = false
      ∧ (seekState seekDemux).base.seek_offset = 0 :=
  have h := do_seek_failure_leaves_segment_untouched noKeyframeEnv setSeekExample
    (seekState seekDemux) (seekState seekDemux) (keyUnitEvent 13200000000) 65
    GstFlowReturn.error rfl (by decide)
  ⟨rfl, by decide, h.1, h.2.1, h.2.2.1⟩

/-! ### The PES header parser -/

theorem pes_update_index_pcr_isSome (demux : PesDemux) (offset : Nat)
    (hidx : demux.index ≠ none) : ∃ d, pes_update_index_pcr demux offset = some d := by
  unfold pes_update_index_pcr
  cases hi : demux.index with
  | none => exact absurd hi hidx
  | some index =>
    dsimp only
    split_ifs
    · cases search_before_offset (index.take demux.index_size) offset with
      | none => exact ⟨_, rfl⟩
      | some n => exact ⟨_, rfl⟩
    · exact ⟨_, rfl⟩

theorem pes_header_timestamps_isSome (read_ts : List Nat → Option (Nat × List Nat))
    (demux : PesDemux) (pts0 : Nat) (buf0 : GstBuffer) (p2 : Nat) (data : List Nat)
    (hidx : demux.index ≠ none) :
    ∃ lost d pts1 buf1, pes_header_timestamps read_ts demux pts0 buf0 p2 data
        = some (lost, d, pts1, buf1) ∧ buf1.data = buf0.data ∧ buf1.caps = buf0.caps
        ∧ buf1.offset = buf0.offset := by
  unfold pes_header_timestamps
  by_cases hpts : p2 &&& 0x80 ≠ 0
  · rw [if_pos hpts]
    cases hr : read_ts data with
    | none => exact ⟨true, _, _, _, rfl, rfl, rfl, rfl⟩
    | some r =>
      obtain ⟨pts, data1⟩ := r
      obtain ⟨d1, hd1⟩ := pes_update_index_pcr_isSome demux buf0.offset hidx
      simp only [hd1]
      by_cases hdts : p2 &&& 0x40 ≠ 0
      · rw [if_pos hdts]
        cases read_ts data1 with
        | none => exact ⟨true, _, _, _, rfl, rfl, rfl, rfl⟩
        | some _ => exact ⟨false, _, _, _, rfl, rfl, rfl, rfl⟩
      · rw [if_neg hdts]
        exact ⟨false, _, _, _, rfl, rfl, rfl, rfl⟩
  · rw [if_neg hpts]
    simp only []
    by_cases hdts : p2 &&& 0x40 ≠ 0
    · rw [if_pos hdts]
      cases read_ts data with
      | none => exact ⟨true, _, _, _, rfl, rfl, rfl, rfl⟩
      | some _ => exact ⟨false, _, _, _, rfl, rfl, rfl, rfl⟩
    · rw [if_neg hdts]
      exact ⟨false, _, _, _, rfl, rfl, rfl, rfl⟩

theorem pes_header_timestamps_none_flagged (read_ts : List Nat → Option (Nat × List Nat))
    (demux : PesDemux) (pts0 : Nat) (buf0 : GstBuffer) (p2 : Nat) (data : List Nat)
    (hpts : p2 &&& 0x80 = 0) (hdts : p2 &&& 0x40 = 0) :
    pes_header_timestamps read_ts demux pts0 buf0 p2 data = some (false, demux, pts0, buf0) := by
  unfold pes_header_timestamps
  rw [if_neg (not_not.mpr hpts)]
  simp only []
  rw [if_neg (not_not.mpr hdts)]

theorem parse_pes_header_single (read_ts : List Nat → Option (Nat × List Nat))
    (demux : PesDemux) (stream : TSDemuxStream) (buf : GstBuffer)
    (b0 b1 b2 b3 l0 l1 p1 p2 h : Nat) (rest : List Nat)
    (hpend : stream.pendingbuffers = [buf]) (hnb : stream.nbpending = 1)
    (hcur : stream.current = false)
    (hdata : buf.data = b0 :: b1 :: b2 :: b3 :: l0 :: l1 :: p1 :: p2 :: h :: rest)
    (hidx : demux.index ≠ none)
    (hstid : GST_READ_UINT32_BE b0 b1 b2 b3 &&& 0x000000ff ≠ 0xbf)
    (hh : h ≤ 252) :
    ∃ d2 s2, gst_ts_demux_parse_pes_header read_ts demux stream = some (d2, s2)
      ∧ (stream.state = PendingPacketState.PENDING_PACKET_HEADER →
          s2.state ≠ PendingPacketState.PENDING_PACKET_HEADER)
      ∧ (rest.length < h + 3 → s2.state = PendingPacketState.PENDING_PACKET_DISCONT)
      ∧ (s2.state = PendingPacketState.PENDING_PACKET_BUFFER →
          stream.state ≠ PendingPacketState.PENDING_PACKET_BUFFER →
          s2.currentlist.map GstBuffer.data = [buf.data.drop (9 + h)]
            ∧ s2.pendingbuffers = [] ∧ s2.nbpending = 0 ∧ s2.current = true)
      ∧ (GST_READ_UINT32_BE b0 b1 b2 b3 &&& 0xffffff00 = 0x00000100 →
          p1 &&& 0xc0 = 0x80 → p2 &&& 0x80 = 0 → p2 &&& 0x40 = 0 → h + 3 ≤ rest.length →
          s2.state = PendingPacketState.PENDING_PACKET_BUFFER) := by
  have hH : (h + 3) % 256 = h + 3 := Nat.mod_eq_of_lt (by omega)
  have hlen : buf.data.length - 4 - 2 - 3 = rest.length := by
    rw [hdata]; simp only [List.length_cons]; omega
  unfold gst_ts_demux_parse_pes_header
  rw [hpend]
  simp only []
  rw [hdata] at hlen ⊢
  simp only []
  by_cases hpsc : GST_READ_UINT32_BE b0 b1 b2 b3 &&& 0xffffff00 ≠ 0x00000100
  · rw [if_pos hpsc]
    refine ⟨_, _, rfl, (fun _ hc => by cases hc), fun _ => rfl, fun hc hs => ?_,
      fun h1 => absurd h1 hpsc⟩
    cases hc
  · rw [if_neg hpsc, if_pos hstid]
    by_cases hp1 : p1 &&& 0xc0 ≠ 0x80
    · rw [if_pos hp1]
      refine ⟨_, _, rfl, (fun _ hc => by cases hc), fun _ => rfl, fun hc hs => ?_,
        fun _ h1 => absurd h1 hp1⟩
      cases hc
    · rw [if_neg hp1, hlen, hH]
      by_cases hshort : rest.length < h + 3
      · rw [if_pos hshort]
        refine ⟨_, _, rfl, (fun _ hc => by cases hc), fun _ => rfl, fun hc hs => ?_,
          fun _ _ _ _ h1 => absurd hshort (by omega)⟩
        cases hc
      · rw [if_neg hshort]
        obtain ⟨lost, d1, pts1, buf1, hts, hbd, _, _⟩ :=
          pes_header_timestamps_isSome read_ts demux stream.pts buf p2 rest hidx
        rw [hts]
        cases lost with
        | true =>
          refine ⟨_, _, rfl, (fun _ hc => by cases hc), fun h1 => absurd h1 hshort,
            fun hc hs => ?_, fun _ _ h80 h40 _ => ?_⟩
          · cases hc
          · rw [pes_header_timestamps_none_flagged read_ts demux stream.pts buf p2 rest
              h80 h40] at hts
            simp only [Option.some.injEq, Prod.mk.injEq] at hts
            exact absurd hts.1 (by decide)
        | false =>
          refine ⟨_, _, rfl, (fun _ hc => by unfold pes_header_finish at hc; cases hc),
            fun h1 => absurd h1 hshort, fun _ _ => ?_, fun _ _ _ _ _ => rfl⟩
          unfold pes_header_finish
          simp only [hcur, hnb, hbd, hdata]
          refine ⟨?_, rfl, rfl, rfl⟩
          simp only [Bool.not_false, if_true, List.take, List.map]
          rw [show 6 + (h + 3) = 9 + h from by omega]

theorem queue_data_header_step (read_ts : List Nat → Option (Nat × List Nat))
    (demux : PesDemux) (stream : TSDemuxStream) (packet : MpegTSPacketizerPacket)
    (buffer : GstBuffer) (payload : List Nat)
    (hstate : (stream.state = PendingPacketState.PENDING_PACKET_EMPTY
        ∧ packet.payload_unit_start_indicator = true)
      ∨ stream.state = PendingPacketState.PENDING_PACKET_HEADER)
    (hpend : stream.pendingbuffers = []) (hnb : stream.nbpending = 0)
    (hpay : packet.payload = some payload) :
    ∃ caps, gst_ts_demux_queue_data read_ts demux stream packet buffer
      = gst_ts_demux_parse_pes_header read_ts demux
          { stream with state := PendingPacketState.PENDING_PACKET_HEADER,
                        pendingbuffers := [{ buffer with data := payload, caps := caps }],
                        nbpending := 1 } := by
  unfold gst_ts_demux_queue_data
  rw [hpay]
  simp only []
  rcases hstate with ⟨hs, hp⟩ | hs
  · rw [if_pos hs, hp]
    simp only [Bool.not_true, Bool.false_eq_true, if_false, if_true, hpend, hnb, pending_store,
      List.length_nil, Nat.lt_irrefl, List.nil_append]
    cases hpad : stream.pad with
    | true => exact ⟨true, rfl⟩
    | false => exact ⟨buffer.caps, rfl⟩
  · have hne : ¬ stream.state = PendingPacketState.PENDING_PACKET_EMPTY := by
      rw [hs]; exact fun hc => by cases hc
    rw [if_neg hne]
    simp only [hs, if_true, hpend, hnb, pending_store, List.length_nil, Nat.lt_irrefl,
      if_false, List.nil_append]
    refine ⟨buffer.caps, ?_⟩
    congr 1

/-- Claim C20, counterexample: (1) a PUSI packet whose payload holds the 9
fixed header bytes with PES_header_data_length = 5 but only 2 further bytes:
the stream does not stay in HEADER, it goes to DISCONT; (2) a PUSI packet with
PES_header_data_length = 255 and 2 further bytes parses, and 8 bytes are
stripped, not 9 + 255. -/
theorem pes_header_short_or_long_header :
    (gst_ts_demux_queue_data noReadTs pesDemux emptyStream
        (payloadPacket true [0, 0, 1, 0xe0, 0, 0, 0x80, 0, 5, 1, 2]) packetBuffer).map
        (fun r => r.2)
      = some { emptyStream with
               state := PendingPacketState.PENDING_PACKET_DISCONT,
               pendingbuffers := [{ packetBuffer with
                                    data := [0, 0, 1, 0xe0, 0, 0, 0x80, 0, 5, 1, 2],
                                    caps := true }],
               nbpending := 1 }
    ∧ (gst_ts_demux_queue_data noReadTs pesDemux emptyStream
        (payloadPacket true [0, 0, 1, 0xe0, 0, 0, 0x80, 0, 255, 7, 8]) packetBuffer).map
        (fun r => r.2)
      = some { emptyStream with
               state := PendingPacketState.PENDING_PACKET_BUFFER,
               current := true,
               currentlist := [{ packetBuffer with data := [255, 7, 8], caps := true }] } :=
  ⟨rfl, rfl⟩

/-- Claim C20, amended: a stream with nothing pending that is EMPTY and gets a
PUSI packet (or is in HEADER), with a payload of at least 9 bytes, a stream_id
other than 0xbf and PES_header_data_length `h` at most 252, parses the header
at once from that payload alone. The state never stays HEADER; with fewer than
`h + 3` bytes after the first 9 it becomes DISCONT; whenever it becomes BUFFER
exactly `9 + h` bytes have been stripped from the payload, which is the only
buffer of the output group; and it does become BUFFER when start code and
marker bits are right, no PTS or DTS is flagged and at least `h + 3` bytes
follow the first 9. -/
theorem queue_data_parses_first_payload (read_ts : List Nat → Option (Nat × List Nat))
    (demux : PesDemux) (stream : TSDemuxStream) (packet : MpegTSPacketizerPacket)
    (buffer : GstBuffer) (b0 b1 b2 b3 l0 l1 p1 p2 h : Nat) (rest : List Nat)
    (hstate : (stream.state = PendingPacketState.PENDING_PACKET_EMPTY
        ∧ packet.payload_unit_start_indicator = true)
      ∨ stream.state = PendingPacketState.PENDING_PACKET_HEADER)
    (hpend : stream.pendingbuffers = []) (hnb : stream.nbpending = 0)
    (hcur : stream.current = false)
    (hpay : packet.payload
      = some (b0 :: b1 :: b2 :: b3 :: l0 :: l1 :: p1 :: p2 :: h :: rest))
    (hidx : demux.index ≠ none)
    (hstid : GST_READ_UINT32_BE b0 b1 b2 b3 &&& 0x000000ff ≠ 0xbf)
    (hh : h ≤ 252) :
    ∃ d2 s2, gst_ts_demux_queue_data read_ts demux stream packet buffer = some (d2, s2)
      ∧ s2.state ≠ PendingPacketState.PENDING_PACKET_HEADER
      ∧ (rest.length < h + 3 → s2.state = PendingPacketState.PENDING_PACKET_DISCONT)
      ∧ (s2.state = PendingPacketState.PENDING_PACKET_BUFFER →
          s2.currentlist.map GstBuffer.data
              = [(b0 :: b1 :: b2 :: b3 :: l0 :: l1 :: p1 :: p2 :: h :: rest).drop (9 + h)]
            ∧ s2.pendingbuffers = [] ∧ s2.nbpending = 0 ∧ s2.current = true)
      ∧ (GST_READ_UINT32_BE b0 b1 b2 b3 &&& 0xffffff00 = 0x00000100 →
          p1 &&& 0xc0 = 0x80 → p2 &&& 0x80 = 0 → p2 &&& 0x40 = 0 → h + 3 ≤ rest.length →
          s2.state = PendingPacketState.PENDING_PACKET_BUFFER) := by
  obtain ⟨caps, hq⟩ := queue_data_header_step read_ts demux stream packet buffer _ hstate
    hpend hnb hpay
  obtain ⟨d2, s2, hp, h1, h2, h3, h4⟩ := parse_pes_header_single read_ts demux
    { stream with state := PendingPacketState.PENDING_PACKET_HEADER,
                  pendingbuffers := [{ buffer with
                    data := b0 :: b1 :: b2 :: b3 :: l0 :: l1 :: p1 :: p2 :: h :: rest,
                    caps := caps }],
                  nbpending := 1 }
    { buffer with data := b0 :: b1 :: b2 :: b3 :: l0 :: l1 :: p1 :: p2 :: h :: rest,
                  caps := caps }
    b0 b1 b2 b3 l0 l1 p1 p2 h rest rfl rfl hcur rfl hidx hstid hh
  exact ⟨d2, s2, hq.trans hp, h1 rfl, h2,
    fun hb => h3 hb (fun hc => by cases hc), h4⟩

/-- Claim C20, witness: a PUSI packet with PES_header_data_length = 2 followed
by 5 bytes: the state becomes BUFFER and 11 header bytes are stripped. -/
theorem queue_data_parses_first_payload_witness :
    (gst_ts_demux_queue_data noReadTs pesDemuxIndexed emptyStream
        (payloadPacket true [0, 0, 1, 0xe0, 0, 0, 0x80, 0, 2, 0xff, 0xff, 7, 8, 9])
        packetBuffer).map (fun r => r.2)
      = some { emptyStream with
               state := PendingPacketState.PENDING_PACKET_BUFFER,
               current := true,
               currentlist := [{ packetBuffer with data := [7, 8, 9], caps := true }] }
    ∧ ∃ d2 s2, gst_ts_demux_queue_data noReadTs pesDemuxIndexed emptyStream
        (payloadPacket true [0, 0, 1, 0xe0, 0, 0, 0x80, 0, 2, 0xff, 0xff, 7, 8, 9])
        packetBuffer = some (d2, s2)
      ∧ s2.state ≠ PendingPacketState.PENDING_PACKET_HEADER
      ∧ (s2.state = PendingPacketState.PENDING_PACKET_BUFFER →
          s2.currentlist.map GstBuffer.data = [[7, 8, 9]]) :=
  ⟨rfl,
   (queue_data_parses_first_payload noReadTs pesDemuxIndexed emptyStream
      (payloadPacket true [0, 0, 1, 0xe0, 0, 0, 0x80, 0, 2, 0xff, 0xff, 7, 8, 9])
      packetBuffer 0 0 1 0xe0 0 0 0x80 0 2 [0xff, 0xff, 7, 8, 9]
      (Or.inl ⟨rfl, rfl⟩) rfl rfl rfl rfl (by decide) (by decide) (by decide)).elim
     fun d2 hd => hd.elim fun s2 hs =>
       ⟨d2, s2, hs.1, hs.2.1, fun hb => (hs.2.2.2.1 hb).1⟩⟩

end TsDemux

namespace HlsDemux

/-! ### Fetching a URI -/

/-- Claim C13, evaluation of the code on the failing input: the body bytes
[60, 104, 62] arrive on the fetcher pad, then the fetcher posts an error on its
bus. `fetcher_error` is set, yet `gst_hls_demux_fetch_location` returns `TRUE`
and the three bytes stay in the adapter for the caller; with the error first
and the body second the result is `FALSE` with an empty adapter. -/
theorem fetch_location_body_before_error :
    fetchSummary (gst_hls_demux_fetch_location true true true
        [FetcherEvent.chain [60, 104, 62], FetcherEvent.bus true] FetchState.idle)
      = some (true, [60, 104, 62], true)
    ∧ fetchSummary (gst_hls_demux_fetch_location true true true
        [FetcherEvent.bus true, FetcherEvent.chain [60, 104, 62]] FetchState.idle)
      = some (false, [], true) := by
  decide

end HlsDemux

namespace HlsDemux

/-! ### The segment pipeline -/

theorem update_playlist_fragments_cache (f : Option RefreshOutcome) (d : GstHLSDemux) :
    (gst_hls_demux_update_playlist f d).1.fragments_cache = d.fragments_cache := by
  cases f <;> rfl

theorem change_playlist_fragments_cache (f : Option RefreshOutcome) (is_fast : Bool)
    (d : GstHLSDemux) :
    (gst_hls_demux_change_playlist f is_fast d).fragments_cache = d.fragments_cache := by
  unfold gst_hls_demux_change_playlist
  dsimp only
  split
  · rfl
  · split
    · rfl
    · split
      · rfl
      · dsimp only
        rw [update_playlist_fragments_cache]

theorem switch_playlist_fragments_cache (f : Option RefreshOutcome) (now : Int)
    (d : GstHLSDemux) :
    (gst_hls_demux_switch_playlist f now d).fragments_cache = d.fragments_cache := by
  unfold gst_hls_demux_switch_playlist
  dsimp only
  split_ifs <;> first | rfl | (rw [change_playlist_fragments_cache])

theorem loop_fetched (ret : GstFlowReturn) (e : EmitterState) :
    (gst_hls_demux_loop ret e).queue.length + (gst_hls_demux_loop ret e).pushed.length
      = e.queue.length + e.pushed.length := by
  unfold gst_hls_demux_loop loop_end_of_playlist loop_pop_push
  cases hq : e.queue with
  | nil => split_ifs <;> simp [hq]
  | cons b rest => split_ifs <;> simp [hq] <;> omega

theorem get_next_fragment_fields (env : FragmentEnv) (s : Pipeline) :
    (gst_hls_demux_get_next_fragment env s).1.emitter.pushed = s.emitter.pushed
      ∧ (gst_hls_demux_get_next_fragment env s).1.emitter.queue.length
          ≤ s.emitter.queue.length + 1
      ∧ (gst_hls_demux_get_next_fragment env s).1.demux.fragments_cache
          = s.demux.fragments_cache
      ∧ (gst_hls_demux_get_next_fragment env s).1.need_cache = s.need_cache
      ∧ (gst_hls_demux_get_next_fragment env s).1.emitter.task_stopped
          = s.emitter.task_stopped := by
  unfold gst_hls_demux_get_next_fragment
  cases gst_m3u8_client_get_next_fragment s.demux.client with
  | none => exact ⟨rfl, Nat.le_succ _, rfl, rfl, rfl⟩
  | some r =>
    obtain ⟨client, discont, file⟩ := r
    dsimp only
    cases (env.fetch file).data with
    | none => exact ⟨rfl, Nat.le_succ _, rfl, rfl, rfl⟩
    | some bytes =>
      refine ⟨rfl, ?_, rfl, rfl, rfl⟩
      simp [queue_push_tail]

theorem cache_fragments_loop_fields (env : FragmentEnv) (n : Nat) (s : Pipeline) :
    (cache_fragments_loop env n s).1.emitter.pushed = s.emitter.pushed
      ∧ (cache_fragments_loop env n s).1.emitter.queue.length ≤ s.emitter.queue.length + n
      ∧ (cache_fragments_loop env n s).1.demux.fragments_cache = s.demux.fragments_cache
      ∧ (cache_fragments_loop env n s).1.need_cache = s.need_cache
      ∧ (cache_fragments_loop env n s).1.emitter.task_stopped = s.emitter.task_stopped := by
  induction n generalizing s with
  | zero => exact ⟨rfl, Nat.le_refl _, rfl, rfl, rfl⟩
  | succ n ih =>
    obtain ⟨g1, g2, g3, g4, g5⟩ := get_next_fragment_fields env s
    unfold cache_fragments_loop
    dsimp only
    by_cases h1 : (!(gst_hls_demux_get_next_fragment env s).2) = true
    · rw [if_pos h1]
      by_cases h2 : (!(gst_hls_demux_get_next_fragment env s).1.cancelled) = true
      · rw [if_pos h2]
        exact ⟨g1, by dsimp only; omega, g3, g4, g5⟩
      · rw [if_neg h2]
        exact ⟨g1, by dsimp only; omega, g3, g4, g5⟩
    · rw [if_neg h1]
      by_cases h2 : (gst_hls_demux_get_next_fragment env s).1.cancelled = true
      · rw [if_pos h2]
        exact ⟨g1, by dsimp only; omega, g3, g4, g5⟩
      · rw [if_neg h2]
        obtain ⟨i1, i2, i3, i4, i5⟩ := ih (gst_hls_demux_get_next_fragment env s).1
        exact ⟨i1.trans g1, by omega, i3.trans g3, i4.trans g4, i5.trans g5⟩

theorem live_start_fragments_cache (d : GstHLSDemux) :
    (cache_fragments_live_start d).fragments_cache = d.fragments_cache := by
  unfold cache_fragments_live_start
  split_ifs <;> rfl

theorem cache_fragments_prepare_fields (m c : Option RefreshOutcome) (s : Pipeline) :
    (cache_fragments_prepare m c s).1.emitter = s.emitter
      ∧ (cache_fragments_prepare m c s).1.demux.fragments_cache = s.demux.fragments_cache
      ∧ (cache_fragments_prepare m c s).1.need_cache = s.need_cache := by
  unfold cache_fragments_prepare
  dsimp only
  split_ifs <;>
    simp only [live_start_fragments_cache, update_playlist_fragments_cache, and_self,
      true_and]

theorem cache_fragments_fields (m c : Option RefreshOutcome) (now : Int) (env : FragmentEnv)
    (s : Pipeline) :
    (gst_hls_demux_cache_fragments m c now env s).1.emitter.pushed = s.emitter.pushed
      ∧ (gst_hls_demux_cache_fragments m c now env s).1.emitter.queue.length
          ≤ s.emitter.queue.length + cache_fragments_count s.demux.fragments_cache
      ∧ (gst_hls_demux_cache_fragments m c now env s).1.demux.fragments_cache
          = s.demux.fragments_cache
      ∧ (gst_hls_demux_cache_fragments m c now env s).1.emitter.task_stopped
          = s.emitter.task_stopped
      ∧ ((gst_hls_demux_cache_fragments m c now env s).2 = true →
          (gst_hls_demux_cache_fragments m c now env s).1.need_cache = false) := by
  obtain ⟨p1, p2, _⟩ := cache_fragments_prepare_fields m c s
  obtain ⟨l1, l2, l3, l4, l5⟩ := cache_fragments_loop_fields env
    (cache_fragments_count (cache_fragments_prepare m c s).1.demux.fragments_cache)
    (cache_fragments_prepare m c s).1
  clear l4
  rw [p1] at l1 l2 l5
  rw [p2] at l1 l2 l3 l5
  unfold gst_hls_demux_cache_fragments
  dsimp only
  by_cases h1 : (!(cache_fragments_prepare m c s).2) = true
  · rw [if_pos h1]
    refine ⟨by rw [p1], by rw [p1]; omega, p2, by rw [p1], fun h => ?_⟩
    rw [h] at h1
    cases h1
  · rw [if_neg h1, p2]
    generalize cache_fragments_loop env (cache_fragments_count s.demux.fragments_cache)
      (cache_fragments_prepare m c s).1 = L at l1 l2 l3 l5 ⊢
    by_cases h2 : (!L.2) = true
    · rw [if_pos h2]
      refine ⟨l1, l2, l3, l5, fun h => ?_⟩
      rw [h] at h2
      cases h2
    · rw [if_neg h2]
      exact ⟨l1, l2, l3, l5, fun _ => rfl⟩

theorem cacheBudget_le (s : Pipeline) :
    cacheBudget s ≤ cache_fragments_count s.demux.fragments_cache := by
  unfold cacheBudget
  split_ifs
  · exact Nat.le_refl _
  · exact Nat.zero_le _

theorem loop_task_budget (c : CacheInput) (env : FragmentEnv) (ret : GstFlowReturn)
    (s : Pipeline) :
    fetchedCount (gst_hls_demux_loop_task c env ret s)
        + cacheBudget (gst_hls_demux_loop_task c env ret s)
      ≤ fetchedCount s + cacheBudget s := by
  unfold gst_hls_demux_loop_task
  by_cases hstop : s.emitter.task_stopped = true
  · rw [if_pos hstop]
  · rw [if_neg hstop]
    by_cases hcache : (s.need_cache && !s.emitter.waiting) = true
    · rw [if_pos hcache]
      obtain ⟨r1, r2, r3, r4, r5⟩ := cache_fragments_fields c.main_refresh c.child_refresh
        c.now env s
      have hneed : s.need_cache = true := by
        cases hn : s.need_cache with
        | true => rfl
        | false => rw [hn] at hcache; cases hcache
      have hbs : (if (s.need_cache && !s.emitter.task_stopped) = true then
          cache_fragments_count s.demux.fragments_cache else 0)
          = cache_fragments_count s.demux.fragments_cache := by
        rw [hneed, Bool.not_eq_true _ |>.mp hstop]
        rfl
      generalize gst_hls_demux_cache_fragments c.main_refresh c.child_refresh c.now env s
        = r at r1 r2 r3 r4 r5 ⊢
      dsimp only
      by_cases hr : (!r.2) = true
      · rw [if_pos hr]
        unfold fetchedCount cacheBudget
        simp only [Bool.not_true, Bool.and_false, Bool.false_eq_true, if_false, r1]
        omega
      · rw [if_neg hr]
        have hr2 : r.2 = true := by
          cases h2 : r.2 with
          | true => rfl
          | false => rw [h2] at hr; exact absurd rfl hr
        have hl := loop_fetched ret r.1.emitter
        unfold fetchedCount cacheBudget
        simp only [r5 hr2, Bool.false_and, Bool.false_eq_true, if_false]
        rw [r1] at hl
        omega
    · rw [if_neg hcache]
      have hl := loop_fetched ret s.emitter
      unfold fetchedCount cacheBudget
      dsimp only
      by_cases hb : (s.need_cache && !s.emitter.task_stopped) = true
      · rw [if_pos hb]
        split_ifs <;> omega
      · rw [if_neg hb]
        have hneed : s.need_cache = false := by
          cases hn : s.need_cache with
          | false => rfl
          | true =>
            rw [hn, Bool.not_eq_true _ |>.mp hstop] at hb
            exact absurd rfl hb
        simp only [hneed, Bool.false_and, Bool.false_eq_true, if_false]
        omega

theorem update_thread_fields (i : UpdaterInput) (env : FragmentEnv) (s : Pipeline) :
    (gst_hls_demux_update_thread i env s).emitter.pushed = s.emitter.pushed
      ∧ (gst_hls_demux_update_thread i env s).emitter.queue.length
          ≤ s.emitter.queue.length + 1
      ∧ (gst_hls_demux_update_thread i env s).demux.fragments_cache
          = s.demux.fragments_cache
      ∧ (gst_hls_demux_update_thread i env s).need_cache = s.need_cache
      ∧ (gst_hls_demux_update_thread i env s).emitter.task_stopped
          = s.emitter.task_stopped := by
  have hr : (if gst_m3u8_client_is_live s.demux.client = true then
        gst_hls_demux_update_playlist i.refresh s.demux
      else (s.demux, true)).1.fragments_cache = s.demux.fragments_cache := by
    split_ifs
    · exact update_playlist_fragments_cache _ _
    · rfl
  unfold gst_hls_demux_update_thread
  dsimp only
  generalize (if gst_m3u8_client_is_live s.demux.client = true then
        gst_hls_demux_update_playlist i.refresh s.demux
      else (s.demux, true)) = r at hr ⊢
  by_cases h0 : (!s.updater_started || s.updater_quit) = true
  · rw [if_pos h0]
    exact ⟨rfl, Nat.le_succ _, rfl, rfl, rfl⟩
  · rw [if_neg h0]
    by_cases h1 : i.signalled = true
    · rw [if_pos h1]
      exact ⟨rfl, Nat.le_succ _, rfl, rfl, rfl⟩
    · rw [if_neg h1]
      by_cases h2 : (!r.2) = true
      · rw [if_pos h2]
        exact ⟨rfl, Nat.le_succ _, hr, rfl, rfl⟩
      · rw [if_neg h2]
        by_cases h3 : (gst_m3u8_client_is_live (gst_hls_demux_schedule r.1).client
            && decide ((gst_hls_demux_schedule r.1).client.update_failed_count > 0)) = true
        · rw [if_pos h3]
          exact ⟨rfl, Nat.le_succ _, hr, rfl, rfl⟩
        · rw [if_neg h3]
          obtain ⟨g1, g2, g3, g4, g5⟩ := get_next_fragment_fields env
            { s with demux := gst_hls_demux_schedule r.1 }
          generalize gst_hls_demux_get_next_fragment env
            { s with demux := gst_hls_demux_schedule r.1 } = g at g1 g2 g3 g4 g5 ⊢
          by_cases h4 : (!g.2) = true
          · rw [if_pos h4]
            dsimp only
            split_ifs <;> exact ⟨g1, g2, g3.trans hr, g4, g5⟩
          · rw [if_neg h4]
            refine ⟨g1, g2, ?_, g4, g5⟩
            dsimp only
            rw [switch_playlist_fragments_cache]
            exact g3.trans hr

theorem update_thread_budget (i : UpdaterInput) (env : FragmentEnv) (s : Pipeline) :
    fetchedCount (gst_hls_demux_update_thread i env s)
        + cacheBudget (gst_hls_demux_update_thread i env s)
      ≤ fetchedCount s + cacheBudget s + 1 := by
  obtain ⟨u1, u2, u3, u4, u5⟩ := update_thread_fields i env s
  unfold fetchedCount cacheBudget
  rw [u1, u3, u4, u5]
  omega

theorem runSegments_budget (env : FragmentEnv) (steps : List SegmentStep) (s : Pipeline) :
    fetchedCount (runSegments env steps s) + cacheBudget (runSegments env steps s)
      ≤ fetchedCount s + cacheBudget s + updatesOf steps := by
  induction steps generalizing s with
  | nil => exact Nat.le_refl _
  | cons step rest ih =>
    have h := ih (step.apply env s)
    have hrun : runSegments env (step :: rest) s = runSegments env rest (step.apply env s) :=
      rfl
    rw [hrun]
    cases step with
    | task c ret =>
      have hs := loop_task_budget c env ret s
      have hu : updatesOf (SegmentStep.task c ret :: rest) = updatesOf rest := rfl
      rw [hu]
      exact Nat.le_trans h (by
        have : (SegmentStep.task c ret).apply env s = gst_hls_demux_loop_task c env ret s := rfl
        rw [this]; omega)
    | update i =>
      have hs := update_thread_budget i env s
      have hu : updatesOf (SegmentStep.update i :: rest) = updatesOf rest + 1 := rfl
      rw [hu]
      exact Nat.le_trans h (by
        have : (SegmentStep.update i).apply env s = gst_hls_demux_update_thread i env s := rfl
        rw [this]; omega)

/-- Claim C11, counterexample: with `fragments_cache` = 3 and a playlist of 6
segments, the first run of the emitter task caches two segments and pushes one;
three updater iterations without a further emitter run then leave 4 buffers in
the queue, more than `fragments_cache`. -/
theorem cache_queue_exceeds_fragments_cache :
    (runSegments goodEnv
        [SegmentStep.task cacheInput GstFlowReturn.ok,
         SegmentStep.update (updaterInput 2000),
         SegmentStep.update (updaterInput 3000),
         SegmentStep.update (updaterInput 4000)] (vodPipeline 6 3)).emitter.queue
      = [segmentBuffer 1, segmentBuffer 2, segmentBuffer 3, segmentBuffer 4]
    ∧ (vodPipeline 6 3).demux.fragments_cache = 3 :=
  ⟨rfl, rfl⟩

/-- Claim C11, amended: in every state reached from a start with empty queue
by any interleaving of emitter task runs (the first of which does the initial
caching) and updater iterations, the buffers held in the queue together with
those already pushed number at most `fragments_cache - 1` plus the updater
iterations run so far. -/
theorem cache_queue_bounded_by_fetches (env : FragmentEnv) (steps : List SegmentStep)
    (s : Pipeline) (hq : s.emitter.queue = []) (hp : s.emitter.pushed = [])
    (hfc : 1 ≤ s.demux.fragments_cache) :
    (runSegments env steps s).emitter.queue.length
        + (runSegments env steps s).emitter.pushed.length
      ≤ (s.demux.fragments_cache - 1) + updatesOf steps := by
  have h := runSegments_budget env steps s
  have hb := cacheBudget_le s
  have hc : cache_fragments_count s.demux.fragments_cache = s.demux.fragments_cache - 1 := by
    unfold cache_fragments_count
    rw [if_neg (by omega)]
  unfold fetchedCount at h
  rw [hq, hp] at h
  simp only [List.length_nil] at h
  omega

/-- Claim C11, witness: the run of the counterexample; 4 buffers in the queue
and 1 pushed are within 2 + 3. -/
theorem cache_queue_bounded_by_fetches_witness :
    (runSegments goodEnv
        [SegmentStep.task cacheInput GstFlowReturn.ok,
         SegmentStep.update (updaterInput 2000),
         SegmentStep.update (updaterInput 3000),
         SegmentStep.update (updaterInput 4000)] (vodPipeline 6 3)).emitter.queue.length
      + (runSegments goodEnv
        [SegmentStep.task cacheInput GstFlowReturn.ok,
         SegmentStep.update (updaterInput 2000),
         SegmentStep.update (updaterInput 3000),
         SegmentStep.update (updaterInput 4000)] (vodPipeline 6 3)).emitter.pushed.length
      ≤ (3 - 1) + 3 :=
  cache_queue_bounded_by_fetches goodEnv
    [SegmentStep.task cacheInput GstFlowReturn.ok,
     SegmentStep.update (updaterInput 2000),
     SegmentStep.update (updaterInput 3000),
     SegmentStep.update (updaterInput 4000)] (vodPipeline 6 3) rfl rfl (by decide)

/-! ### Initial caching -/

theorem find_eq_head_filter (p : Nat → Bool) (l : List Nat) :
    l.find? p = (l.filter p).head? := by
  induction l with
  | nil => rfl
  | cons a l ih =>
    cases hp : p a with
    | true => rw [List.find?_cons_of_pos l hp, List.filter_cons_of_pos hp]; rfl
    | false =>
      rw [List.find?_cons_of_neg l (by rw [hp]; exact Bool.false_ne_true),
        List.filter_cons_of_neg (by rw [hp]; exact Bool.false_ne_true)]
      exact ih

theorem filter_after_head (l : List Nat) (hs : l.Pairwise (· < ·)) (c f : Nat)
    (rest : List Nat)
    (h : l.filter (fun x => decide (c ≤ x)) = f :: rest) :
    l.filter (fun x => decide (f + 1 ≤ x)) = rest := by
  induction l with
  | nil => cases h
  | cons a l ih =>
    rw [List.pairwise_cons] at hs
    obtain ⟨ha, hl⟩ := hs
    by_cases hca : c ≤ a
    · rw [List.filter_cons_of_pos (by simpa using hca)] at h
      simp only [List.cons.injEq] at h
      obtain ⟨hf, hrest⟩ := h
      subst hf
      rw [List.filter_cons_of_neg (by simp)]
      have h1 : l.filter (fun x => decide (a + 1 ≤ x)) = l :=
        List.filter_eq_self.mpr (fun x hx => by simpa using ha x hx)
      have h2 : l.filter (fun x => decide (c ≤ x)) = l :=
        List.filter_eq_self.mpr (fun x hx => by
          have := ha x hx
          simp only [decide_eq_true_eq]
          omega)
      rw [h1, ← hrest, h2]
    · rw [List.filter_cons_of_neg (by simpa using hca)] at h
      have hf : c ≤ f := by
        have hmem : f ∈ l.filter (fun x => decide (c ≤ x)) := by rw [h]; simp
        have := (List.mem_filter.mp hmem).2
        simpa using this
      rw [List.filter_cons_of_neg (by simp only [decide_eq_true_eq]; omega)]
      exact ih hl h

theorem client_next_fragment_cons (c : GstM3U8Client)
    (hs : c.current.files.Pairwise (· < ·)) (f : Nat) (rest : List Nat)
    (h : remainingFiles c = f :: rest) :
    gst_m3u8_client_get_next_fragment c
        = some ({ c with sequence := f + 1 }, decide (c.sequence ≠ f), f)
      ∧ remainingFiles { c with sequence := f + 1 } = rest := by
  unfold remainingFiles at h
  constructor
  · unfold gst_m3u8_client_get_next_fragment
    rw [find_eq_head_filter, h]
    rfl
  · exact filter_after_head c.current.files hs c.sequence f rest h

theorem client_next_fragment_nil (c : GstM3U8Client) (h : remainingFiles c = []) :
    gst_m3u8_client_get_next_fragment c = none := by
  unfold remainingFiles at h
  unfold gst_m3u8_client_get_next_fragment
  rw [find_eq_head_filter, h]
  rfl

theorem get_next_fragment_client (env : FragmentEnv) (s : Pipeline)
    (hs : s.demux.client.current.files.Pairwise (· < ·)) (f : Nat) (rest : List Nat)
    (h : remainingFiles s.demux.client = f :: rest) :
    (gst_hls_demux_get_next_fragment env s).1.demux.client
      = { s.demux.client with sequence := f + 1 } := by
  unfold gst_hls_demux_get_next_fragment
  rw [(client_next_fragment_cons s.demux.client hs f rest h).1]
  dsimp only
  cases (env.fetch f).data <;> rfl

theorem get_next_fragment_at_end (env : FragmentEnv) (s : Pipeline)
    (h : remainingFiles s.demux.client = []) :
    (gst_hls_demux_get_next_fragment env s).2 = false := by
  unfold gst_hls_demux_get_next_fragment
  rw [client_next_fragment_nil s.demux.client h]

theorem get_next_fragment_good (env : FragmentEnv) (bytes : Nat → List Nat)
    (hfetch : ∀ f, env.fetch f = { data := some (bytes f), cancelled := false })
    (s : Pipeline) (hs : s.demux.client.current.files.Pairwise (· < ·)) (f : Nat)
    (rest : List Nat) (h : remainingFiles s.demux.client = f :: rest) :
    (gst_hls_demux_get_next_fragment env s).2 = true
      ∧ queueContents (gst_hls_demux_get_next_fragment env s).1.emitter.queue
          = queueContents s.emitter.queue ++ [(bytes f, env.duration f)]
      ∧ (gst_hls_demux_get_next_fragment env s).1.cancelled = s.cancelled
      ∧ (gst_hls_demux_get_next_fragment env s).1.element_errors = s.element_errors
      ∧ (gst_hls_demux_get_next_fragment env s).1.log = s.log := by
  unfold gst_hls_demux_get_next_fragment
  rw [(client_next_fragment_cons s.demux.client hs f rest h).1]
  dsimp only
  rw [hfetch f]
  dsimp only
  refine ⟨rfl, ?_, ?_, rfl, rfl⟩
  · simp [queueContents, queue_push_tail]
  · simp

theorem cache_fragments_loop_short (env : FragmentEnv) (n : Nat) (s : Pipeline)
    (hs : s.demux.client.current.files.Pairwise (· < ·))
    (hlen : (remainingFiles s.demux.client).length < n) :
    (cache_fragments_loop env n s).2 = false := by
  induction n generalizing s with
  | zero => exact absurd hlen (Nat.not_lt_zero _)
  | succ n ih =>
    unfold cache_fragments_loop
    dsimp only
    by_cases h1 : (!(gst_hls_demux_get_next_fragment env s).2) = true
    · rw [if_pos h1]
    · rw [if_neg h1]
      by_cases h2 : (gst_hls_demux_get_next_fragment env s).1.cancelled = true
      · rw [if_pos h2]
      · rw [if_neg h2]
        cases hrem : remainingFiles s.demux.client with
        | nil =>
          rw [get_next_fragment_at_end env s hrem] at h1
          exact absurd rfl h1
        | cons f rest =>
          have hc := get_next_fragment_client env s hs f rest hrem
          have hrest := (client_next_fragment_cons s.demux.client hs f rest hrem).2
          apply ih
          · rw [hc]; exact hs
          · rw [hc, hrest]
            rw [hrem] at hlen
            simp only [List.length_cons] at hlen
            omega

theorem cache_fragments_loop_good (env : FragmentEnv) (bytes : Nat → List Nat)
    (hfetch : ∀ f, env.fetch f = { data := some (bytes f), cancelled := false })
    (n : Nat) (s : Pipeline)
    (hs : s.demux.client.current.files.Pairwise (· < ·))
    (hc : s.cancelled = false)
    (hlen : n ≤ (remainingFiles s.demux.client).length) :
    (cache_fragments_loop env n s).2 = true
      ∧ queueContents (cache_fragments_loop env n s).1.emitter.queue
          = queueContents s.emitter.queue
            ++ ((remainingFiles s.demux.client).take n).map
                (fun f => (bytes f, env.duration f))
      ∧ (cache_fragments_loop env n s).1.element_errors = s.element_errors
      ∧ (cache_fragments_loop env n s).1.log = s.log := by
  induction n generalizing s with
  | zero =>
    refine ⟨rfl, ?_, rfl, rfl⟩
    simp [cache_fragments_loop]
  | succ n ih =>
    cases hrem : remainingFiles s.demux.client with
    | nil =>
      rw [hrem] at hlen
      exact absurd hlen (by simp)
    | cons f rest =>
      obtain ⟨g1, g2, g3, g4, g5⟩ := get_next_fragment_good env bytes hfetch s hs f rest hrem
      have hcl := get_next_fragment_client env s hs f rest hrem
      have hrest := (client_next_fragment_cons s.demux.client hs f rest hrem).2
      have hlen2 : n ≤ rest.length := by
        rw [hrem] at hlen
        simp only [List.length_cons] at hlen
        omega
      have hrem2 : remainingFiles (gst_hls_demux_get_next_fragment env s).1.demux.client
          = rest := by rw [hcl]; exact hrest
      obtain ⟨i1, i2, i3, i4⟩ := ih (gst_hls_demux_get_next_fragment env s).1
        (by rw [hcl]; exact hs) (by rw [g3]; exact hc) (by rw [hrem2]; exact hlen2)
      unfold cache_fragments_loop
      dsimp only
      rw [if_neg (by rw [g1]; exact fun hcon => by cases hcon),
        if_neg (by rw [g3, hc]; exact fun hcon => by cases hcon)]
      refine ⟨i1, ?_, i3.trans g4, i4.trans g5⟩
      rw [i2, g2, hrem2]
      simp

theorem cache_fragments_prepare_flags (m c : Option RefreshOutcome) (s : Pipeline) :
    (cache_fragments_prepare m c s).1.cancelled = s.cancelled
      ∧ (cache_fragments_prepare m c s).1.element_errors = s.element_errors := by
  unfold cache_fragments_prepare
  dsimp only
  split_ifs <;> exact ⟨rfl, rfl⟩

theorem cache_fragments_count_pos (fc : Nat) (h : 1 ≤ fc) :
    cache_fragments_count fc = fc - 1 := by
  unfold cache_fragments_count
  rw [if_neg (by omega)]

theorem cache_fragments_result (m c : Option RefreshOutcome) (now : Int)
    (env : FragmentEnv) (s s1 : Pipeline)
    (hprep : cache_fragments_prepare m c s = (s1, true))
    (hfc : 1 ≤ s.demux.fragments_cache) :
    gst_hls_demux_cache_fragments m c now env s
      = if !(cache_fragments_loop env (s.demux.fragments_cache - 1) s1).2 then
          cache_fragments_loop env (s.demux.fragments_cache - 1) s1
        else
          ({ (cache_fragments_loop env (s.demux.fragments_cache - 1) s1).1 with
             demux := { (cache_fragments_loop env (s.demux.fragments_cache - 1) s1).1.demux with
                        next_update := now },
             need_cache := false }, true) := by
  have hfcs : s1.demux.fragments_cache = s.demux.fragments_cache := by
    have h := (cache_fragments_prepare_fields m c s).2.1
    rw [hprep] at h
    exact h
  unfold gst_hls_demux_cache_fragments
  rw [hprep]
  dsimp only
  rw [hfcs, cache_fragments_count_pos _ hfc]
  rfl

/-- Claim C12, evaluation of the code on the failing input: a finished
playlist with one remaining segment, `fragments_cache` = 3, every fetch
succeeding and no cancellation. The second iteration of the caching loop finds
no further fragment (the end of the playlist), so
`gst_hls_demux_cache_fragments` returns `FALSE` and the emitter task raises
"Could not cache the first fragments" although no fetch failed. -/
theorem cache_fails_without_fetch_failure :
    remainingFiles (vodPipeline 1 3).demux.client = [0]
      ∧ (gst_hls_demux_cache_fragments none none 1000 goodEnv (vodPipeline 1 3)).2 = false
      ∧ (gst_hls_demux_loop_task cacheInput goodEnv GstFlowReturn.ok
          (vodPipeline 1 3)).element_errors = ["Could not cache the first fragments"] :=
  ⟨rfl, rfl, rfl⟩

/-- The outcome of the initial caching for every playlist: once the playlist is
loaded and the cursor placed
(`cache_fragments_prepare` succeeds with state `s1`), with segments listed by
increasing sequence number, `fragments_cache` at least 1, every fetch succeeding
and no cancellation: if at least `fragments_cache - 1` segments remain,
`gst_hls_demux_cache_fragments` returns `TRUE`, clears `need_cache`, raises no
element error and leaves in the (initially empty) queue the next
`fragments_cache - 1` segments in playlist order; if fewer remain it returns
`FALSE`, although no fetch failed. -/
theorem cache_fragments_fills_queue (m c : Option RefreshOutcome) (now : Int)
    (env : FragmentEnv) (bytes : Nat → List Nat) (s s1 : Pipeline)
    (hprep : cache_fragments_prepare m c s = (s1, true))
    (hsorted : s1.demux.client.current.files.Pairwise (· < ·))
    (hfc : 1 ≤ s.demux.fragments_cache)
    (hfetch : ∀ f, env.fetch f = { data := some (bytes f), cancelled := false })
    (hcancel : s.cancelled = false) (hq : s.emitter.queue = []) :
    (s.demux.fragments_cache - 1 ≤ (remainingFiles s1.demux.client).length →
        (gst_hls_demux_cache_fragments m c now env s).2 = true
          ∧ (gst_hls_demux_cache_fragments m c now env s).1.need_cache = false
          ∧ queueContents (gst_hls_demux_cache_fragments m c now env s).1.emitter.queue
              = ((remainingFiles s1.demux.client).take (s.demux.fragments_cache - 1)).map
                  (fun f => (bytes f, env.duration f))
          ∧ (gst_hls_demux_cache_fragments m c now env s).1.element_errors
              = s.element_errors)
      ∧ ((remainingFiles s1.demux.client).length < s.demux.fragments_cache - 1 →
          (gst_hls_demux_cache_fragments m c now env s).2 = false) := by
  have hs1 : s1 = (cache_fragments_prepare m c s).1 := by rw [hprep]
  have hflags := cache_fragments_prepare_flags m c s
  have hfields := cache_fragments_prepare_fields m c s
  rw [← hs1] at hflags hfields
  rw [cache_fragments_result m c now env s s1 hprep hfc]
  constructor
  · intro hlen
    obtain ⟨l1, l2, l3, _⟩ := cache_fragments_loop_good env bytes hfetch
      (s.demux.fragments_cache - 1) s1 hsorted (hflags.1.trans hcancel) hlen
    rw [if_neg (by rw [l1]; exact fun hcon => by cases hcon)]
    refine ⟨rfl, rfl, ?_, l3.trans hflags.2⟩
    show queueContents (cache_fragments_loop env (s.demux.fragments_cache - 1) s1).1.emitter.queue
      = _
    rw [l2, hfields.1, hq]
    rfl
  · intro hlen
    have hshort := cache_fragments_loop_short env (s.demux.fragments_cache - 1) s1 hsorted hlen
    rw [if_pos (by rw [hshort]; rfl)]
    exact hshort

/-- A finished playlist of 5 segments with
`fragments_cache` = 3 on a network where every fetch succeeds: caching succeeds
and leaves segments 0 and 1 in the queue. -/
theorem cache_fragments_fills_queue_witness :
    (gst_hls_demux_cache_fragments none none 1000 goodEnv (vodPipeline 5 3)).2 = true
      ∧ (gst_hls_demux_cache_fragments none none 1000 goodEnv (vodPipeline 5 3)).1.need_cache
          = false
      ∧ queueContents
          (gst_hls_demux_cache_fragments none none 1000 goodEnv (vodPipeline 5 3)).1.emitter.queue
          = [([0], 10000000000), ([1], 10000000000)]
      ∧ (gst_hls_demux_cache_fragments none none 1000 goodEnv
          (vodPipeline 5 3)).1.element_errors = [] :=
  (cache_fragments_fills_queue none none 1000 goodEnv (fun k => [k]) (vodPipeline 5 3)
    (vodPipeline 5 3) rfl (by decide) (by decide) (fun _ => rfl) rfl rfl).1 (by decide)

/-! ### Failures in the updates thread -/

theorem loop_no_eos (ret : GstFlowReturn) (e : EmitterState)
    (hend : e.end_of_playlist = false) (heos : e.eos_sent = false) :
    (gst_hls_demux_loop ret e).end_of_playlist = false
      ∧ (gst_hls_demux_loop ret e).eos_sent = false := by
  unfold gst_hls_demux_loop loop_end_of_playlist loop_pop_push
  cases hq : e.queue with
  | nil => split_ifs <;> simp_all
  | cons b rest => split_ifs <;> simp_all

theorem client_next_fragment_head (c : GstM3U8Client) (f : Nat) (rest : List Nat)
    (h : remainingFiles c = f :: rest) :
    gst_m3u8_client_get_next_fragment c
      = some ({ c with sequence := f + 1 }, decide (c.sequence ≠ f), f) := by
  unfold remainingFiles at h
  unfold gst_m3u8_client_get_next_fragment
  rw [find_eq_head_filter, h]
  rfl

theorem get_next_fragment_fetch_fails (env : FragmentEnv) (s : Pipeline) (f : Nat)
    (rest : List Nat) (h : remainingFiles s.demux.client = f :: rest)
    (hfail : (env.fetch f).data = none) :
    (gst_hls_demux_get_next_fragment env s).2 = false
      ∧ (gst_hls_demux_get_next_fragment env s).1.emitter = s.emitter
      ∧ (gst_hls_demux_get_next_fragment env s).1.need_cache = s.need_cache
      ∧ (gst_hls_demux_get_next_fragment env s).1.updater_started = s.updater_started := by
  unfold gst_hls_demux_get_next_fragment
  rw [client_next_fragment_head s.demux.client f rest h]
  dsimp only
  rw [hfail]
  exact ⟨rfl, rfl, rfl, rfl⟩

/-- The states in which the updates thread is gone without the end of the
playlist having been reached. -/
theorem stalled_step (env : FragmentEnv) (step : SegmentStep) (t : Pipeline)
    (hquit : t.updater_quit = true) (hneed : t.need_cache = false)
    (hend : t.emitter.end_of_playlist = false) (heos : t.emitter.eos_sent = false) :
    (step.apply env t).updater_quit = true ∧ (step.apply env t).need_cache = false
      ∧ (step.apply env t).emitter.end_of_playlist = false
      ∧ (step.apply env t).emitter.eos_sent = false
      ∧ (step.apply env t).emitter.pushed ++ (step.apply env t).emitter.queue
          = t.emitter.pushed ++ t.emitter.queue := by
  cases step with
  | task c ret =>
    have hap : (SegmentStep.task c ret).apply env t = gst_hls_demux_loop_task c env ret t :=
      rfl
    rw [hap]
    unfold gst_hls_demux_loop_task
    by_cases hstop : t.emitter.task_stopped = true
    · rw [if_pos hstop]
      exact ⟨hquit, hneed, hend, heos, rfl⟩
    · rw [if_neg hstop, hneed]
      rw [if_neg (by simp)]
      obtain ⟨l1, l2⟩ := loop_no_eos ret t.emitter hend heos
      exact ⟨hquit, rfl, l1, l2, gst_hls_demux_loop_inv ret t.emitter⟩
  | update i =>
    have hap : (SegmentStep.update i).apply env t = gst_hls_demux_update_thread i env t :=
      rfl
    rw [hap]
    unfold gst_hls_demux_update_thread
    rw [if_pos (by rw [hquit]; simp)]
    exact ⟨hquit, hneed, hend, heos, rfl⟩

theorem stalled_run (env : FragmentEnv) (steps : List SegmentStep) (t : Pipeline)
    (hquit : t.updater_quit = true) (hneed : t.need_cache = false)
    (hend : t.emitter.end_of_playlist = false) (heos : t.emitter.eos_sent = false) :
    (runSegments env steps t).emitter.eos_sent = false
      ∧ (runSegments env steps t).emitter.pushed ++ (runSegments env steps t).emitter.queue
          = t.emitter.pushed ++ t.emitter.queue := by
  induction steps generalizing t with
  | nil => exact ⟨heos, rfl⟩
  | cons step rest ih =>
    obtain ⟨a1, a2, a3, a4, a5⟩ := stalled_step env step t hquit hneed hend heos
    obtain ⟨i1, i2⟩ := ih (step.apply env t) a1 a2 a3 a4
    have hrun : runSegments env (step :: rest) t = runSegments env rest (step.apply env t) :=
      rfl
    rw [hrun]
    exact ⟨i1, i2.trans a5⟩

theorem update_thread_fetch_fails (i : UpdaterInput) (env : FragmentEnv) (s : Pipeline)
    (d : GstHLSDemux) (f : Nat) (rest : List Nat)
    (hstart : s.updater_started = true) (hquit : s.updater_quit = false)
    (hsig : i.signalled = false)
    (hrefresh : (if gst_m3u8_client_is_live s.demux.client = true then
        gst_hls_demux_update_playlist i.refresh s.demux else (s.demux, true)) = (d, true))
    (hcount : (gst_m3u8_client_is_live d.client
        && decide (d.client.update_failed_count > 0)) = false)
    (hrem : remainingFiles d.client = f :: rest)
    (hfail : (env.fetch f).data = none) :
    (gst_hls_demux_update_thread i env s).updater_quit = true
      ∧ (gst_hls_demux_update_thread i env s).emitter = s.emitter
      ∧ (gst_hls_demux_update_thread i env s).need_cache = s.need_cache := by
  have hcount2 : (gst_m3u8_client_is_live (gst_hls_demux_schedule d).client
      && decide ((gst_hls_demux_schedule d).client.update_failed_count > 0)) = false := hcount
  obtain ⟨g1, g2, g3, _⟩ := get_next_fragment_fetch_fails env
    { s with demux := gst_hls_demux_schedule d } f rest hrem hfail
  unfold gst_hls_demux_update_thread
  dsimp only
  rw [hrefresh]
  dsimp only
  rw [if_neg (by rw [hstart, hquit]; simp), if_neg (by rw [hsig]; simp),
    if_neg (by simp), if_neg (by rw [hcount2]; simp), if_pos (by rw [g1]; rfl)]
  refine ⟨rfl, ?_, ?_⟩
  · dsimp only
    split_ifs <;> exact g2
  · dsimp only
    split_ifs <;> exact g3

/-- Claim C14, the code after a failed fragment fetch in the updates thread: the
thread quits and leaves the emitter fields as they were (`end_of_playlist` stays
unset); in every later run of the pipeline the emitter neither loses nor gains
buffers and never sends EOS. The hypotheses say that the iteration reaches the
fetch of segment `f` (thread running, wait timed out, playlist refreshed if
live, something new in it) and that this fetch fails. -/
theorem fetch_failure_never_reaches_eos (i : UpdaterInput) (env : FragmentEnv)
    (s : Pipeline) (d : GstHLSDemux) (f : Nat) (rest : List Nat) (steps : List SegmentStep)
    (hstart : s.updater_started = true) (hquit : s.updater_quit = false)
    (hsig : i.signalled = false)
    (hrefresh : (if gst_m3u8_client_is_live s.demux.client = true then
        gst_hls_demux_update_playlist i.refresh s.demux else (s.demux, true)) = (d, true))
    (hcount : (gst_m3u8_client_is_live d.client
        && decide (d.client.update_failed_count > 0)) = false)
    (hrem : remainingFiles d.client = f :: rest)
    (hfail : (env.fetch f).data = none)
    (hneed : s.need_cache = false) (hend : s.emitter.end_of_playlist = false)
    (heos : s.emitter.eos_sent = false) :
    (gst_hls_demux_update_thread i env s).updater_quit = true
      ∧ (gst_hls_demux_update_thread i env s).emitter.end_of_playlist = false
      ∧ (runSegments env steps (gst_hls_demux_update_thread i env s)).emitter.eos_sent = false
      ∧ (runSegments env steps (gst_hls_demux_update_thread i env s)).emitter.pushed
          ++ (runSegments env steps (gst_hls_demux_update_thread i env s)).emitter.queue
          = s.emitter.pushed ++ s.emitter.queue := by
  obtain ⟨u1, u2, u3⟩ := update_thread_fetch_fails i env s d f rest hstart hquit hsig
    hrefresh hcount hrem hfail
  obtain ⟨r1, r2⟩ := stalled_run env steps (gst_hls_demux_update_thread i env s) u1
    (u3.trans hneed) (by rw [u2]; exact hend) (by rw [u2]; exact heos)
  refine ⟨u1, by rw [u2]; exact hend, r1, ?_⟩
  rw [r2, u2]

/-- Claim C14, the failing input evaluated: playlist of 6 segments,
`fragments_cache` = 3, the fetch of segment 3 fails in the updater. After four
more runs of the emitter task the buffers 0, 1, 2 have been pushed, the queue is
empty, the task went to wait on the empty queue, and no EOS was sent. -/
theorem fetch_failure_never_reaches_eos_witness :
    fetchFailureRun.updater_quit = true
      ∧ fetchFailureRun.emitter.end_of_playlist = false
      ∧ fetchFailureRun.emitter.pushed = [segmentBuffer 0, segmentBuffer 1, segmentBuffer 2]
      ∧ fetchFailureRun.emitter.queue = []
      ∧ fetchFailureRun.emitter.eos_sent = false
      ∧ fetchFailureRun.log = ["Could not fetch the next fragment"]
      ∧ fetchFailureRun.emitter.pushed ++ fetchFailureRun.emitter.queue
          = beforeFetchFailure.emitter.pushed ++ beforeFetchFailure.emitter.queue :=
  ⟨rfl, rfl, rfl, rfl, rfl, rfl,
   (fetch_failure_never_reaches_eos (updaterInput 3000) (failingEnv 3) beforeFetchFailure
      beforeFetchFailure.demux 3 [4, 5]
      [SegmentStep.task cacheInput GstFlowReturn.ok,
       SegmentStep.task cacheInput GstFlowReturn.ok,
       SegmentStep.task cacheInput GstFlowReturn.ok,
       SegmentStep.task cacheInput GstFlowReturn.ok]
      rfl rfl rfl rfl rfl rfl rfl rfl rfl rfl).2.2.2⟩

/-- Claim C15, counterexample: on a live variant the playlist download of an
updater iteration fails (`gst_hls_demux_update_playlist` returns `FALSE`). The
thread ends at `quit`: `update_failed_count` is still 0, `next_update` is still
at 100 s, and only "Could not update the playlist" is logged. -/
theorem refresh_failure_quits_updater :
    (gst_hls_demux_update_playlist none livePipeline.demux).2 = false
      ∧ (gst_hls_demux_update_thread (updaterInput 2000) goodEnv livePipeline).updater_quit
          = true
      ∧ (gst_hls_demux_update_thread (updaterInput 2000) goodEnv
          livePipeline).demux.client.update_failed_count = 0
      ∧ (gst_hls_demux_update_thread (updaterInput 2000) goodEnv
          livePipeline).demux.next_update = 100000000
      ∧ (gst_hls_demux_update_thread (updaterInput 2000) goodEnv livePipeline).log
          = ["Could not update the playlist"] :=
  ⟨rfl, rfl, rfl, rfl, rfl⟩

/-- Claim C15, amended: in an iteration of a running updates thread on a live
variant whose wait timed out, (1) when the playlist download fails
(`gst_hls_demux_update_playlist` returns `FALSE`) the failure is logged and the
thread terminates, with the demuxer (failure counter and `next_update`
included) unchanged; (2) when the download succeeds but the client counts a
failed update (nothing new in a still live playlist), the thread keeps running:
it schedules the next refresh with the factor of that count and fetches no
fragment. -/
theorem updater_refresh_outcomes (i : UpdaterInput) (env : FragmentEnv) (s : Pipeline)
    (hstart : s.updater_started = true) (hquit : s.updater_quit = false)
    (hsig : i.signalled = false)
    (hlive : gst_m3u8_client_is_live s.demux.client = true) :
    (i.refresh = none →
        (gst_hls_demux_update_playlist i.refresh s.demux).2 = false
          ∧ (gst_hls_demux_update_thread i env s).updater_quit = true
          ∧ (gst_hls_demux_update_thread i env s).demux = s.demux
          ∧ (gst_hls_demux_update_thread i env s).log
              = s.log ++ ["Could not update the playlist"])
      ∧ (∀ o, i.refresh = some o → o.endlist = false → 0 < o.update_failed_count →
          (gst_hls_demux_update_thread i env s).updater_quit = false
            ∧ (gst_hls_demux_update_thread i env s).demux
                = gst_hls_demux_schedule
                    { s.demux with client := gst_m3u8_client_update s.demux.client o }
            ∧ (gst_hls_demux_update_thread i env s).demux.client.update_failed_count
                = o.update_failed_count
            ∧ (gst_hls_demux_update_thread i env s).emitter = s.emitter) := by
  constructor
  · intro hnone
    unfold gst_hls_demux_update_thread
    dsimp only
    rw [if_neg (by rw [hstart, hquit]; simp), if_neg (by rw [hsig]; simp), if_pos hlive,
      hnone]
    exact ⟨rfl, rfl, rfl, rfl⟩
  · intro o ho hend hcnt
    unfold gst_hls_demux_update_thread
    dsimp only
    rw [if_neg (by rw [hstart, hquit]; simp), if_neg (by rw [hsig]; simp), if_pos hlive, ho]
    have hcond : (gst_m3u8_client_is_live
          (gst_hls_demux_schedule (gst_hls_demux_update_playlist (some o) s.demux).1).client
        && decide ((gst_hls_demux_schedule
          (gst_hls_demux_update_playlist (some o) s.demux).1).client.update_failed_count > 0))
        = true := by
      simp [gst_hls_demux_update_playlist, gst_hls_demux_schedule, gst_m3u8_client_update,
        gst_m3u8_client_is_live, hend, hcnt]
    rw [if_neg (by simp [gst_hls_demux_update_playlist]), if_pos hcond]
    exact ⟨hquit, rfl, rfl, rfl⟩

/-- Claim C15, witness: the live pipeline on variant A; a failed download ends
the thread, a refresh that brought nothing new (count 1) leaves it running with
`next_update` moved by 0.5 target durations. -/
theorem updater_refresh_outcomes_witness :
    (gst_hls_demux_update_thread (updaterInput 2000) goodEnv livePipeline).updater_quit = true
      ∧ (gst_hls_demux_update_thread
          { updaterInput 2000 with refresh := some staleRefresh } goodEnv
          livePipeline).updater_quit = false
      ∧ (gst_hls_demux_update_thread
          { updaterInput 2000 with refresh := some staleRefresh } goodEnv
          livePipeline).demux.client.update_failed_count = 1
      ∧ (gst_hls_demux_update_thread
          { updaterInput 2000 with refresh := some staleRefresh } goodEnv
          livePipeline).emitter = livePipeline.emitter :=
  have h1 := (updater_refresh_outcomes (updaterInput 2000) goodEnv livePipeline rfl rfl rfl
    rfl).1 rfl
  have h2 := (updater_refresh_outcomes { updaterInput 2000 with refresh := some staleRefresh }
    goodEnv livePipeline rfl rfl rfl rfl).2 staleRefresh rfl rfl (by decide)
  ⟨h1.2.1, h2.1, h2.2.2.1, h2.2.2.2⟩

/-! ### The first playlist -/

/-- Claim C16, counterexample: EOS at the sink with playlist bytes that are not
valid UTF-8 and a peer that answers the URI query: no element error is posted,
only a warning is logged, the emitter task is started and `TRUE` is returned. -/
theorem sink_event_invalid_utf8_starts_task :
    sinkSummary (gst_hls_demux_sink_event (sinkEnv false true) true sinkDemux)
      = (SinkResult.returned true, true, [], ["Error validating first playlist."]) := by
  decide

/-- Claim C16, amended: on EOS at the sink with a playlist buffer, (1) if the
bytes are valid UTF-8 and the playlist client rejects the text,
`gst_hls_demux_sink_event` posts the element error "Invalid playlist.", returns
`FALSE` and does not start the emitter task; (2) if the bytes are not valid
UTF-8 and the peer answered the URI query, no error is posted: a warning is
logged, the task is started and `TRUE` is returned. -/
theorem sink_event_first_playlist (env : SinkEnv) (d : SinkDemux) (data : List Nat)
    (hplaylist : d.playlist = some data) (htask : d.task_started = false) :
    (env.g_utf8_validate data = true →
        (∀ c, (env.client_update c (data ++ [env.following])).2 = false) →
        (gst_hls_demux_sink_event env true d).2 = SinkResult.returned false
          ∧ (gst_hls_demux_sink_event env true d).1.task_started = false
          ∧ (gst_hls_demux_sink_event env true d).1.element_errors
              = d.element_errors ++ ["Invalid playlist."])
      ∧ (env.g_utf8_validate data = false → env.peer_uri.isSome = true →
          (gst_hls_demux_sink_event env true d).2 = SinkResult.returned true
            ∧ (gst_hls_demux_sink_event env true d).1.task_started = true
            ∧ (gst_hls_demux_sink_event env true d).1.element_errors = d.element_errors
            ∧ (gst_hls_demux_sink_event env true d).1.warnings
                = d.warnings ++ ["Error validating first playlist."]) := by
  constructor
  · intro hvalid hreject
    unfold gst_hls_demux_sink_event gst_hls_src_buf_to_utf8_playlist
    rw [hplaylist]
    simp only [Bool.not_true, Bool.false_eq_true, if_false, hvalid]
    rw [if_pos (by rw [hreject]; rfl)]
    cases env.peer_uri with
    | none => exact ⟨rfl, htask, rfl⟩
    | some uri => exact ⟨rfl, htask, rfl⟩
  · intro hinvalid huri
    cases hp : env.peer_uri with
    | none => rw [hp] at huri; cases huri
    | some uri =>
      unfold gst_hls_demux_sink_event gst_hls_src_buf_to_utf8_playlist sink_event_start
      rw [hplaylist, hp]
      simp [hinvalid]

/-- Claim C16, witness: a playlist that is valid UTF-8 but rejected by the
client gives "Invalid playlist.", `FALSE` and no task start. -/
theorem sink_event_first_playlist_witness :
    (gst_hls_demux_sink_event (sinkEnv true false) true sinkDemux).2
        = SinkResult.returned false
      ∧ (gst_hls_demux_sink_event (sinkEnv true false) true sinkDemux).1.task_started = false
      ∧ (gst_hls_demux_sink_event (sinkEnv true false) true sinkDemux).1.element_errors
          = [] ++ ["Invalid playlist."] :=
  (sink_event_first_playlist (sinkEnv true false) sinkDemux [255, 254] rfl rfl).1 rfl
    (fun _ => rfl)

end HlsDemux

namespace TsDemux

/-! ### The time committed by a seek without KEY_UNIT -/

/-- Claim C30, evaluation of the code on the failing input: in the 60 s stream
a seek without KEY_UNIT to 0.5 s succeeds and commits 1 s as
`segment.last_stop` and `segment.time`: the subtraction of
`SEEK_TIMESTAMP_OFFSET` is clamped at 0 and the offset is added back in
full. -/
theorem seek_below_one_second_commits_one_second :
    seekCommitted (gst_ts_demux_perform_seek seekEnv seekDemux
        (seekSegment 500000000 false false) 65)
      = some (GstFlowReturn.ok, 1000000000, 1000000000) :=
  rfl

/-- The time committed by the code: for every successful seek without the
KEY_UNIT flag to a requested time t ≥ 0 (with first_pcr.gsttime + max(t, 1 s)
below 2^63), the committed `segment.last_stop` and `segment.time` equal
max(t, 1 s): they equal t when t is at least one second and are one second
below that. -/
theorem seek_commits_requested_time (env : SeekEnv) (demux : SeekDemux)
    (segment : GstSegment) (pid : Nat) (o : SeekOutcome)
    (hkey : segment.flags.key_unit = false)
    (ht : 0 ≤ segment.last_stop)
    (hfit : (demux.first_pcr.gsttime : Int) + max segment.last_stop 1000000000 < 2 ^ 63)
    (hseek : gst_ts_demux_perform_seek env demux segment pid = some o)
    (hok : o.res = GstFlowReturn.ok) :
    o.segment.last_stop = max segment.last_stop 1000000000
      ∧ o.segment.time = max segment.last_stop 1000000000
      ∧ (1000000000 ≤ segment.last_stop →
          o.segment.last_stop = segment.last_stop ∧ o.segment.time = segment.last_stop) := by
  have hst := seek_start_time_eq demux segment ht (by omega)
  have hm : (1000000000 : Int) ≤ max segment.last_stop 1000000000 := le_max_right _ _
  rcases perform_seek_reaches_refine env demux segment pid o hseek with hf | hr
  · exact absurd hok hf.1
  · obtain ⟨d1, s2, e2, hfirst, _, _, _, href⟩ := hr
    obtain ⟨h1, h2, _, _⟩ := perform_seek_refine_ok env d1 segment pid _ s2 e2 o href hok
    rw [hkey, hfirst] at h1
    simp only [Bool.false_eq_true, if_false] at h1
    have hadd : add64 (seek_start_time demux segment) SEEK_TIMESTAMP_OFFSET
        = seek_start_time demux segment + 1000000000 := by
      unfold add64 SEEK_TIMESTAMP_OFFSET
      exact Nat.mod_eq_of_lt (by omega)
    rw [hadd] at h1
    have hconv := toInt64_sub64_of_le (seek_start_time demux segment + 1000000000)
      demux.first_pcr.gsttime (by omega) (by omega) (by omega)
    rw [hconv] at h1
    have hl : o.segment.last_stop = max segment.last_stop 1000000000 := by
      rw [h1]; push_cast; omega
    refine ⟨hl, h2.trans hl, fun hge => ?_⟩
    have hmax : max segment.last_stop 1000000000 = segment.last_stop := max_eq_left hge
    rw [hmax] at hl
    exact ⟨hl, h2.trans hl⟩

/-- The seek without KEY_UNIT to 13.2 s in the 60 s stream commits 13.2 s. -/
theorem seek_commits_requested_time_witness :
    gst_ts_demux_perform_seek seekEnv seekDemux (seekSegment 13200000000 false false) 65
        = some plainSeekOutcome
      ∧ plainSeekOutcome.segment.last_stop = 13200000000
      ∧ plainSeekOutcome.segment.time = 13200000000 :=
  ⟨rfl,
   ((seek_commits_requested_time seekEnv seekDemux (seekSegment 13200000000 false false) 65
      plainSeekOutcome rfl (by decide) (by decide) rfl rfl).2.2 (by decide)).1,
   ((seek_commits_requested_time seekEnv seekDemux (seekSegment 13200000000 false false) 65
      plainSeekOutcome rfl (by decide) (by decide) rfl rfl).2.2 (by decide)).2⟩

end TsDemux

namespace HlsDemux

/-! ### The copy of the playlist text -/

/-- Claim C27, the code on the failing input: the four valid UTF-8 bytes
"#EXT" followed in memory by the byte 65. The result is not `NULL` and has
5 bytes, but its last byte is 65, the byte after the input, not the null
character; for invalid UTF-8 the result is `NULL`. -/
theorem utf8_playlist_last_byte_is_following_byte :
    gst_hls_src_buf_to_utf8_playlist (fun _ => true) [35, 69, 88, 84] 65
        = some [35, 69, 88, 84, 65]
      ∧ (gst_hls_src_buf_to_utf8_playlist (fun _ => true) [35, 69, 88, 84] 65).map
          List.getLast? = some (some 65)
      ∧ gst_hls_src_buf_to_utf8_playlist (fun _ => false) [35, 69, 88, 84] 65 = none := by
  decide

end HlsDemux

namespace TsDemux

/-! ### The key-frame scan without a detector -/

theorem aux_pid_block_zero_key (env : SeekEnv) (seektime : Nat)
    (packet : MpegTSPacketizerPacket) (s s1 : AuxScan)
    (h : aux_pid_block env seektime none packet s = some s1) : s1.key_pos = s.key_pos := by
  unfold aux_pid_block at h
  simp only [Option.map_eq_some'] at h
  obtain ⟨a, ha, hmap⟩ := h
  have hA : a.key_pos = s.key_pos := by
    split at ha
    · split at ha
      · simp only [Option.some.injEq] at ha
        subst ha
        dsimp only
        split <;> rfl
      · cases ha
    · simp only [Option.some.injEq] at ha
      subst ha
      rfl
  subst hmap
  exact hA

theorem aux_packet_zero_key (env : SeekEnv) (seektime pid : Nat) (accurate : Bool)
    (pk : Option MpegTSPacketizerPacket) (s : AuxScan) (hs : AuxZeroKey s) :
    AuxZeroKey (aux_packet env seektime pid accurate none pk s) := by
  unfold aux_packet
  cases pk with
  | none => exact hs
  | some packet =>
    dsimp only
    have key : ∀ s3 : AuxScan, s3.key_pos = s.key_pos →
        AuxZeroKey
          (if (if accurate then s3.found_accurate && s3.found_keyframe
               else s3.found_keyframe) = true
           then { s3 with done := true, pcroffset := s3.key_pos }
           else { s3 with done := false }) := by
      intro s3 h3
      generalize (if accurate then s3.found_accurate && s3.found_keyframe
               else s3.found_keyframe) = b
      split_ifs
      · exact ⟨h3.trans hs.1, fun _ => h3.trans hs.1⟩
      · exact ⟨h3.trans hs.1, fun hc => by cases hc⟩
    split
    · exact hs
    · rename_i s3 hblk
      apply key
      split at hblk
      · exact aux_pid_block_zero_key env seektime packet s s3 hblk
      · simp only [Option.some.injEq] at hblk
        subst hblk
        rfl

theorem aux_packets_zero_key (env : SeekEnv) (seektime pid : Nat) (accurate : Bool)
    (pkts : List (Option MpegTSPacketizerPacket)) (s : AuxScan) (hs : AuxZeroKey s) :
    AuxZeroKey (aux_packets env seektime pid accurate none pkts s) := by
  induction pkts generalizing s with
  | nil => exact hs
  | cons pk rest ih =>
    simp only [aux_packets]
    split
    · exact hs
    · exact ih _ (aux_packet_zero_key env seektime pid accurate pk s hs)

theorem aux_chunks_zero_key (env : SeekEnv) (seektime pid : Nat) (accurate : Bool)
    (offset : Nat) (length : Int) (fuel : Nat) :
    ∀ (scan_offset : Int) (s : AuxScan) (res : GstFlowReturn) (s1 : AuxScan)
      (res1 : GstFlowReturn),
      AuxZeroKey s →
      aux_chunks env seektime pid accurate none offset length fuel scan_offset s res
        = some (s1, res1) →
      AuxZeroKey s1 := by
  induction fuel with
  | zero =>
    intro scan_offset s res s1 res1 hs h
    simp only [aux_chunks] at h
    split at h
    · cases h
    · simp only [Option.some.injEq, Prod.mk.injEq] at h
      obtain ⟨h1, _⟩ := h
      subst h1
      exact hs
  | succ fuel ih =>
    intro scan_offset s res s1 res1 hs h
    simp only [aux_chunks] at h
    split at h
    · split at h
      · simp only [Option.some.injEq, Prod.mk.injEq] at h
        obtain ⟨h1, _⟩ := h
        subst h1
        exact hs
      · exact ih _ _ _ _ _ (aux_packets_zero_key env seektime pid accurate _ s hs) h
    · simp only [Option.some.injEq, Prod.mk.injEq] at h
      obtain ⟨h1, _⟩ := h
      subst h1
      exact hs

/-- Claim C28, the code without a key-frame detector: whenever
`gst_ts_demux_perform_auxiliary_seek` is called with `auxiliary_seek_fn` `NULL`
and returns `GST_FLOW_OK`, the position it returns is (0, 0, 0): `key_pos` is
never assigned in that branch and is copied to `*pcroffset` when the scan is
done. The returned offset and gsttime therefore lie below every positive
starting offset and gsttime. -/
theorem auxiliary_seek_without_detector_returns_zero (env : SeekEnv) (seektime : Nat)
    (pcroffset : TSPcrOffset) (length : Int) (pid : Nat) (accurate : Bool)
    (out : TSPcrOffset)
    (h : gst_ts_demux_perform_auxiliary_seek env seektime pcroffset length pid accurate none
          = some (GstFlowReturn.ok, out)) :
    out = { gsttime := 0, pcr := 0, offset := 0 }
      ∧ (0 < pcroffset.offset → out.offset < pcroffset.offset)
      ∧ (0 < pcroffset.gsttime → out.gsttime < pcroffset.gsttime) := by
  have hout : out = { gsttime := 0, pcr := 0, offset := 0 } := by
    unfold gst_ts_demux_perform_auxiliary_seek at h
    dsimp only at h
    split at h
    · cases h
    · rename_i s r hch
      have hz := aux_chunks_zero_key env seektime pid accurate _ _ _ _ _ _ _ _
        (show AuxZeroKey _ from ⟨rfl, fun hc => by cases hc⟩) hch
      simp only [Option.some.injEq, Prod.mk.injEq] at h
      obtain ⟨h1, h2⟩ := h
      subst h2
      by_cases hd : s.done = true
      · exact hz.2 hd
      · rw [if_neg hd] at h1
        split at h1
        · cases h1
        · rename_i hr
          exact absurd h1 hr
  subst hout
  exact ⟨rfl, fun hp => hp, fun hp => hp⟩

/-- Claim C28, witness: in the 60 s stream the scan without detector from the
PCR at 12 s (offset 12000000) returns `GST_FLOW_OK` with the position
(0, 0, 0). -/
theorem auxiliary_seek_without_detector_returns_zero_witness :
    gst_ts_demux_perform_auxiliary_seek seekEnv 13200000000
        { gsttime := 12000000000, pcr := 324000000, offset := 12000000 } 2500000 65 false none
        = some (GstFlowReturn.ok, { gsttime := 0, pcr := 0, offset := 0 })
      ∧ (0 : Nat) < 12000000
      ∧ (0 : Nat) < 12000000000 :=
  have h := auxiliary_seek_without_detector_returns_zero seekEnv 13200000000
    { gsttime := 12000000000, pcr := 324000000, offset := 12000000 } 2500000 65 false
    { gsttime := 0, pcr := 0, offset := 0 } rfl
  ⟨rfl, h.2.1 (by decide), h.2.2 (by decide)⟩

/-! ### The divisor of the average bitrate -/

/-- Claim C29, the code on the failing input: the 60 s stream with index
[0 s, 60 s] (non-decreasing), last recorded PCR at 12 s, seek to 13 s, so that
the search target is 12 s. `cur_pcr` replaces `pcr_stop`, the seek loop finds
the PCR at 12 s and makes it `pcr_start`, and the loop ends with
`pcr_stop.gsttime = pcr_start.gsttime`: the refinement is reached with the
divisor 0, where the model, like the division, has no result. -/
theorem seek_reaches_division_with_zero_divisor :
    seek_start_time curPcrDemux (seekSegment 13000000000 false false) = 12000000000
      ∧ (seek_use_cur_pcr curPcrDemux 12000000000 { gsttime := 0, pcr := 0, offset := 0 }
          { gsttime := 60000000000, pcr := 1620000000, offset := 60000000 }).2
          = ({ gsttime := 0, pcr := 0, offset := 0 }, pcrAt12s)
      ∧ seek_loop seekEnv 12000000000 10 0 { gsttime := 0, pcr := 0, offset := 0 } pcrAt12s
          { gsttime := 0, pcr := 0, offset := 0 } 12000000000
          = .ok (pcrAt12s, pcrAt12s)
      ∧ sub64 pcrAt12s.gsttime pcrAt12s.gsttime = 0
      ∧ perform_seek_refine seekEnv
          (seek_use_cur_pcr curPcrDemux 12000000000 { gsttime := 0, pcr := 0, offset := 0 }
            { gsttime := 60000000000, pcr := 1620000000, offset := 60000000 }).1
          (seekSegment 13000000000 false false) 65 12000000000 pcrAt12s pcrAt12s = none
      ∧ gst_ts_demux_perform_seek seekEnv curPcrDemux (seekSegment 13000000000 false false) 65
          = none :=
  ⟨rfl, rfl, rfl, rfl, rfl, rfl⟩

/-! ### PCR scans of the seek loop -/

theorem find_pcr_loop_miss (e : PcrScanEnv) (offset length : Nat)
    (hfit : offset + length + 50 * e.maxpkt < 2 ^ 64)
    (hmiss : ∀ o, offset ≤ o → o < offset + length →
      e.pull_range o = GstFlowReturn.ok ∧ e.process_pes o = none)
    (fuel : Nat) :
    ∀ (scan_offset : Nat) (p : TSPcrOffset),
      scan_offset ≤ length + 50 * e.maxpkt →
      length < scan_offset + fuel * (50 * e.maxpkt) →
      ∃ so, find_pcr_loop e offset length fuel scan_offset p
        = some (GstFlowReturn.ok, false, so, p, false) := by
  induction fuel with
  | zero =>
    intro so p _ h
    have hn : ¬ so < length := by omega
    exact ⟨so, by simp [find_pcr_loop, hn]⟩
  | succ fuel ih =>
    intro so p hso h
    by_cases hlt : so < length
    · have hadd : add64 offset so = offset + so := by
        unfold add64
        exact Nat.mod_eq_of_lt (by omega)
      have hadd2 : add64 so (50 * e.maxpkt) = so + 50 * e.maxpkt := by
        unfold add64
        exact Nat.mod_eq_of_lt (by omega)
      obtain ⟨hp, hq⟩ := hmiss (offset + so) (by omega) (by omega)
      obtain ⟨so2, h2⟩ := ih (so + 50 * e.maxpkt) p (by omega)
        (by rw [Nat.succ_mul] at h; omega)
      refine ⟨so2, ?_⟩
      simp only [find_pcr_loop, hlt, if_true, hadd, hadd2, hp, hq, ne_eq, not_true_eq_false,
        if_false]
      exact h2
    · exact ⟨so, by simp [find_pcr_loop, hlt]⟩

theorem find_pcr_packet_miss (e : PcrScanEnv) (offset length : Nat) (p : TSPcrOffset)
    (hprog : e.program = true) (hpk : 0 < e.maxpkt)
    (hfit : offset + length + 50 * e.maxpkt < 2 ^ 64)
    (hmiss : ∀ o, offset - 4 ≤ o → o < offset + length →
      e.pull_range o = GstFlowReturn.ok ∧ e.process_pes o = none) :
    find_pcr_packet e offset length p = some (GstFlowReturn.error, p) := by
  unfold find_pcr_packet
  rw [hprog]
  simp only [Bool.not_true, Bool.false_eq_true, if_false]
  have hfuel : length < 0 + (length / (50 * e.maxpkt) + 1) * (50 * e.maxpkt) := by
    have hc : 0 < 50 * e.maxpkt := by omega
    have := Nat.div_add_mod length (50 * e.maxpkt)
    have hm := Nat.mod_lt length hc
    rw [Nat.add_mul, Nat.mul_comm (length / (50 * e.maxpkt))]
    omega
  have hoff : ∀ off', offset - 4 ≤ off' → off' ≤ offset →
      ∃ so, find_pcr_loop e off' length (length / (50 * e.maxpkt) + 1) 0 p
        = some (GstFlowReturn.ok, false, so, p, false) := by
    intro off' h1 h2
    exact find_pcr_loop_miss e off' length (by omega)
      (fun o ho1 ho2 => hmiss o (by omega) (by omega)) _ 0 p (by omega) hfuel
  by_cases hm : offset ≥ 4 ∧ e.m2ts = true
  · rw [if_pos hm]
    obtain ⟨so, hso⟩ := hoff (offset - 4) (Nat.le_refl _) (by omega)
    rw [hso]
    simp
  · rw [if_neg hm]
    obtain ⟨so, hso⟩ := hoff offset (by omega) (Nat.le_refl _)
    rw [hso]
    simp

theorem find_pcr_loop_total (e : PcrScanEnv) (offset length : Nat)
    (hfit : length + 50 * e.maxpkt < 2 ^ 64) (fuel : Nat) :
    ∀ (scan_offset : Nat) (p : TSPcrOffset),
      length < scan_offset + fuel * (50 * e.maxpkt) →
      ∃ r, find_pcr_loop e offset length fuel scan_offset p = some r := by
  induction fuel with
  | zero =>
    intro so p h
    have hn : ¬ so < length := by omega
    exact ⟨(GstFlowReturn.ok, false, so, p, false), by simp [find_pcr_loop, hn]⟩
  | succ fuel ih =>
    intro so p h
    by_cases hlt : so < length
    · have hadd2 : add64 so (50 * e.maxpkt) = so + 50 * e.maxpkt := by
        unfold add64
        exact Nat.mod_eq_of_lt (by omega)
      simp only [find_pcr_loop, hlt, if_true, hadd2]
      by_cases hp : e.pull_range (add64 offset so) ≠ GstFlowReturn.ok
      · rw [if_pos hp]
        exact ⟨_, rfl⟩
      · rw [if_neg hp]
        cases e.process_pes (add64 offset so) with
        | some r => exact ⟨_, rfl⟩
        | none =>
          exact ih (so + 50 * e.maxpkt) p (by rw [Nat.succ_mul] at h; omega)
    · exact ⟨(GstFlowReturn.ok, false, so, p, false), by simp [find_pcr_loop, hlt]⟩

theorem find_pcr_packet_total (e : PcrScanEnv) (offset length : Nat) (p : TSPcrOffset)
    (hpk : 0 < e.maxpkt) (hfit : length + 50 * e.maxpkt < 2 ^ 64) :
    ∃ r, find_pcr_packet e offset length p = some r := by
  unfold find_pcr_packet
  by_cases hprog : (!e.program) = true
  · rw [if_pos hprog]
    exact ⟨_, rfl⟩
  · rw [if_neg hprog]
    have hfuel : length < 0 + (length / (50 * e.maxpkt) + 1) * (50 * e.maxpkt) := by
      have hc : 0 < 50 * e.maxpkt := by omega
      have := Nat.div_add_mod length (50 * e.maxpkt)
      have hm := Nat.mod_lt length hc
      rw [Nat.add_mul, Nat.mul_comm (length / (50 * e.maxpkt))]
      omega
    dsimp only
    obtain ⟨r, hr⟩ := find_pcr_loop_total e
      (if offset ≥ 4 ∧ e.m2ts = true then offset - 4 else offset) length hfit _ 0 p hfuel
    rw [hr]
    obtain ⟨ret, done, so, p1, jumped⟩ := r
    dsimp only
    split_ifs <;> exact ⟨_, rfl⟩

/-- Claim C24, counterexample: in the 60 s file whose only PCR lies at offset
29600000, the first iteration of the seek to 13.2 s scans 4000 packets from
29988560 and finds no PCR; `find_pcr_packet` returns `GST_FLOW_ERROR`, no wider
scan is made and the seek fails, although the scan of 8000 packets from
29572748 does contain the PCR. -/
theorem seek_fails_on_single_scan_miss :
    seek_loop_seekpos 208 12200000000 1 { gsttime := 0, pcr := 0, offset := 0 }
        { gsttime := 60000000000, pcr := 1620000000, offset := 60000000 } = 29988560
      ∧ find_pcr_packet sparsePcrEnv 29988560 (4000 * 208) { gsttime := 0, pcr := 0, offset := 0 }
          = some (GstFlowReturn.error, { gsttime := 0, pcr := 0, offset := 0 })
      ∧ seek_loop_retry_seekpos 208 { gsttime := 0, pcr := 0, offset := 0 } 29988560 = 29572748
      ∧ find_pcr_packet sparsePcrEnv 29572748 (8000 * 208) { gsttime := 0, pcr := 0, offset := 0 }
          = some (GstFlowReturn.ok, { gsttime := 0, pcr := 799200000, offset := 29600000 })
      ∧ seekResult (gst_ts_demux_perform_seek sparseSeekEnv seekDemux
          (seekSegment 13200000000 false false) 65) = some GstFlowReturn.error :=
  ⟨rfl, rfl, rfl, rfl, rfl⟩

/-- Claim C24, amended: in an iteration of the seek loop whose PCR scans are
done by `find_pcr_packet`, (1) if every pull of the first scan of 4000 packets
succeeds and none of its chunks holds a PCR packet, the scan returns
`GST_FLOW_ERROR`, no wider scan is made and the iteration leaves the seek with
`GST_FLOW_ERROR`; (2) the wider scan of 8000 packets from further back is made
exactly when the first scan returns `GST_FLOW_UNEXPECTED`, and its result is
then the result of the iteration's scans. -/
theorem seek_loop_scan_miss_fails (e : PcrScanEnv) (env : SeekEnv) (seektime : Nat)
    (pcr_start pcr_stop seekpcroffset : TSPcrOffset) (seekpos : Nat)
    (hagree : ∀ off p, find_pcr_packet e off (4000 * e.maxpkt) p
      = some (env.find_pcr_packet off (4000 * env.maxpkt) p))
    (hprog : e.program = true) (hpk : 0 < e.maxpkt)
    (hfit : seekpos + 4000 * e.maxpkt + 50 * e.maxpkt < 2 ^ 64)
    (hmiss : ∀ o, seekpos - 4 ≤ o → o < seekpos + 4000 * e.maxpkt →
      e.pull_range o = GstFlowReturn.ok ∧ e.process_pes o = none) :
    seek_loop_find env pcr_start seekpos seekpcroffset
        = (GstFlowReturn.error, seekpcroffset)
      ∧ seek_loop_body seektime pcr_start pcr_stop
          (seek_loop_find env pcr_start seekpos seekpcroffset)
          = .error GstFlowReturn.error
      ∧ (∀ seekpos2 p2,
          (env.find_pcr_packet seekpos2 (4000 * env.maxpkt) p2).1 = GstFlowReturn.unexpected →
          seek_loop_find env pcr_start seekpos2 p2
            = env.find_pcr_packet (seek_loop_retry_seekpos env.maxpkt pcr_start seekpos2)
                (8000 * env.maxpkt) (env.find_pcr_packet seekpos2 (4000 * env.maxpkt) p2).2)
      ∧ (∀ seekpos2 p2,
          (env.find_pcr_packet seekpos2 (4000 * env.maxpkt) p2).1 ≠ GstFlowReturn.unexpected →
          seek_loop_find env pcr_start seekpos2 p2
            = env.find_pcr_packet seekpos2 (4000 * env.maxpkt) p2) := by
  have h1 := find_pcr_packet_miss e seekpos (4000 * e.maxpkt) seekpcroffset hprog hpk hfit hmiss
  rw [hagree] at h1
  simp only [Option.some.injEq] at h1
  have hfind : seek_loop_find env pcr_start seekpos seekpcroffset
      = (GstFlowReturn.error, seekpcroffset) := by
    unfold seek_loop_find
    dsimp only
    rw [h1, if_neg (fun hc => by cases hc)]
  refine ⟨hfind, ?_, ?_, ?_⟩
  · rw [hfind]
    unfold seek_loop_body
    rw [if_pos (fun hc => by cases hc)]
  · intro seekpos2 p2 hu
    unfold seek_loop_find
    dsimp only
    rw [if_pos hu]
  · intro seekpos2 p2 hu
    unfold seek_loop_find
    dsimp only
    rw [if_neg hu]

/-- Claim C24, witness: the first iteration of the seek to 13.2 s in the file
whose only PCR lies at offset 29600000: the scan from 29988560 misses and the
iteration leaves the seek with `GST_FLOW_ERROR`. -/
theorem seek_loop_scan_miss_fails_witness :
    seek_loop_find sparseSeekEnv { gsttime := 0, pcr := 0, offset := 0 } 29988560
        { gsttime := 0, pcr := 0, offset := 0 }
        = (GstFlowReturn.error, { gsttime := 0, pcr := 0, offset := 0 })
      ∧ seek_loop_body 12200000000 { gsttime := 0, pcr := 0, offset := 0 }
          { gsttime := 60000000000, pcr := 1620000000, offset := 60000000 }
          (seek_loop_find sparseSeekEnv { gsttime := 0, pcr := 0, offset := 0 } 29988560
            { gsttime := 0, pcr := 0, offset := 0 })
          = .error GstFlowReturn.error :=
  have h := seek_loop_scan_miss_fails sparsePcrEnv sparseSeekEnv 12200000000
    { gsttime := 0, pcr := 0, offset := 0 }
    { gsttime := 60000000000, pcr := 1620000000, offset := 60000000 }
    { gsttime := 0, pcr := 0, offset := 0 } 29988560
    (fun off p => by
      obtain ⟨r, hr⟩ := find_pcr_packet_total sparsePcrEnv off (4000 * sparsePcrEnv.maxpkt) p
        (by decide) (by decide)
      rw [hr]
      show some r = some ((find_pcr_packet sparsePcrEnv off (4000 * sparsePcrEnv.maxpkt) p).getD
        (GstFlowReturn.error, p))
      rw [hr]
      rfl)
    rfl (by decide) (by decide)
    (fun o h1 h2 => by
      have e1 : sparsePcrEnv.maxpkt = 208 := rfl
      rw [e1] at h2
      constructor
      · show (if o < 60000000 then GstFlowReturn.ok else GstFlowReturn.unexpected)
          = GstFlowReturn.ok
        rw [if_pos (by omega)]
      · show (if o ≤ 29600000 ∧ 29600000 < o + 10400 then some (799200000, 29600000) else none)
          = none
        rw [if_neg (by omega)])
  ⟨h.1, h.2.1⟩

/-! ### Flow combination -/

theorem combine_flows_scan_spec (l : List (Option FlowStream)) :
    (combine_flows_scan l GstFlowReturn.not_linked = GstFlowReturn.not_linked
        ↔ ∀ (i : Nat) (st : FlowStream), l[i]? = some (some st) → st.pad = true →
            st.flow_return = GstFlowReturn.not_linked)
      ∧ (combine_flows_scan l GstFlowReturn.not_linked ≠ GstFlowReturn.not_linked →
          ∃ (i : Nat) (st : FlowStream), l[i]? = some (some st) ∧ st.pad = true
            ∧ st.flow_return ≠ GstFlowReturn.not_linked
            ∧ combine_flows_scan l GstFlowReturn.not_linked = st.flow_return
            ∧ ∀ (j : Nat) (t : FlowStream), j < i → l[j]? = some (some t) → t.pad = true →
                t.flow_return = GstFlowReturn.not_linked) := by
  induction l with
  | nil =>
    refine ⟨⟨fun _ i st h => by simp at h, fun _ => rfl⟩, fun h => absurd rfl h⟩
  | cons a rest ih =>
    obtain ⟨ih1, ih2⟩ := ih
    have shift : (∀ (i : Nat) (st : FlowStream), rest[i]? = some (some st) → st.pad = true →
          st.flow_return = GstFlowReturn.not_linked) →
        (∀ st : FlowStream, a = some st → st.pad = true → st.flow_return = GstFlowReturn.not_linked) →
        ∀ (i : Nat) (st : FlowStream), (a :: rest)[i]? = some (some st) → st.pad = true →
          st.flow_return = GstFlowReturn.not_linked := by
      intro hr ha i st h hp
      cases i with
      | zero =>
        simp only [List.getElem?_cons_zero, Option.some.injEq] at h
        exact ha st h hp
      | succ i =>
        rw [List.getElem?_cons_succ] at h
        exact hr i st h hp
    have lift : ∀ (hskip : ∀ t : FlowStream, a = some t → t.pad = true →
          t.flow_return = GstFlowReturn.not_linked),
        combine_flows_scan (a :: rest) GstFlowReturn.not_linked
          = combine_flows_scan rest GstFlowReturn.not_linked →
        (combine_flows_scan (a :: rest) GstFlowReturn.not_linked = GstFlowReturn.not_linked
            ↔ ∀ (i : Nat) (st : FlowStream), (a :: rest)[i]? = some (some st) → st.pad = true →
                st.flow_return = GstFlowReturn.not_linked)
          ∧ (combine_flows_scan (a :: rest) GstFlowReturn.not_linked
                ≠ GstFlowReturn.not_linked →
              ∃ (i : Nat) (st : FlowStream), (a :: rest)[i]? = some (some st) ∧ st.pad = true
                ∧ st.flow_return ≠ GstFlowReturn.not_linked
                ∧ combine_flows_scan (a :: rest) GstFlowReturn.not_linked = st.flow_return
                ∧ ∀ (j : Nat) (t : FlowStream), j < i → (a :: rest)[j]? = some (some t) → t.pad = true →
                    t.flow_return = GstFlowReturn.not_linked) := by
      intro hskip heq
      rw [heq]
      constructor
      · constructor
        · intro h
          exact shift (ih1.mp h) hskip
        · intro h
          exact ih1.mpr (fun i st hi hp => h (i + 1) st (by rw [List.getElem?_cons_succ]; exact hi) hp)
      · intro h
        obtain ⟨i, st, h1, h2, h3, h4, h5⟩ := ih2 h
        refine ⟨i + 1, st, by rw [List.getElem?_cons_succ]; exact h1, h2, h3, h4, ?_⟩
        intro j t hj hjt hp
        cases j with
        | zero =>
          simp only [List.getElem?_cons_zero, Option.some.injEq] at hjt
          exact hskip t hjt hp
        | succ j =>
          rw [List.getElem?_cons_succ] at hjt
          exact h5 j t (by omega) hjt hp
    cases a with
    | none =>
      exact lift (fun t ht => by cases ht) rfl
    | some stream =>
      by_cases hpad : stream.pad = true
      · by_cases hnl : stream.flow_return ≠ GstFlowReturn.not_linked
        · have hval : combine_flows_scan (some stream :: rest) GstFlowReturn.not_linked
              = stream.flow_return := by
            simp only [combine_flows_scan, hpad, if_true, if_pos hnl]
          rw [hval]
          constructor
          · constructor
            · intro h
              exact absurd h hnl
            · intro h
              exact h 0 stream List.getElem?_cons_zero hpad
          · intro _
            exact ⟨0, stream, List.getElem?_cons_zero, hpad, hnl, rfl,
              fun j t hj => absurd hj (Nat.not_lt_zero _)⟩
        · have hnl2 : stream.flow_return = GstFlowReturn.not_linked := not_not.mp hnl
          apply lift
          · intro t ht _
            simp only [Option.some.injEq] at ht
            rw [← ht]
            exact hnl2
          · simp only [combine_flows_scan, hpad, if_true, hnl2]
            rw [if_neg (fun hc => hc rfl)]
      · apply lift
        · intro t ht hp
          simp only [Option.some.injEq] at ht
          rw [← ht] at hp
          exact absurd hp hpad
        · simp only [combine_flows_scan, hpad, Bool.false_eq_true, if_false]

theorem take_getElem_some (l : List (Option FlowStream)) (n i : Nat) (x : Option FlowStream) :
    (l.take n)[i]? = some x ↔ i < n ∧ l[i]? = some x := by
  rw [List.getElem?_take]
  by_cases h : i < n
  · rw [if_pos h]
    exact ⟨fun hx => ⟨h, hx⟩, fun hx => hx.2⟩
  · rw [if_neg h]
    exact ⟨(fun hx => by cases hx), fun hx => absurd hx.1 h⟩

theorem store_flow_return_at (streams : List (Option FlowStream)) (pid : Nat)
    (ret : GstFlowReturn) (st : FlowStream) (h : streams[pid]? = some (some st)) :
    (store_flow_return streams pid ret)[pid]? = some (some { st with flow_return := ret }) := by
  unfold store_flow_return
  have hlt : pid < streams.length := by
    by_contra hc
    rw [List.getElem?_eq_none (by omega)] at h
    cases h
  rw [List.getElem?_set_self hlt]
  have hd : streams.getD pid none = some st := by
    rw [List.getD_eq_getElem?_getD, h]
    rfl
  rw [hd]
  rfl

/-- Claim C25: `tsdemux_combine_flows` stores `ret` as the flow return of the
stream of `pid` and leaves the other streams alone; when `ret` is not
`GST_FLOW_NOT_LINKED` it returns `ret`; when it is, the result is
`GST_FLOW_NOT_LINKED` if and only if every stream of the program with a pad
(PID below 0x2000) has the stored flow return `GST_FLOW_NOT_LINKED`, and
otherwise it is the stored flow return of the lowest-PID stream with a pad
whose flow return is not `GST_FLOW_NOT_LINKED`. -/
theorem combine_flows_spec (streams : List (Option FlowStream)) (pid : Nat)
    (ret : GstFlowReturn) :
    (∀ st : FlowStream, streams[pid]? = some (some st) →
        (tsdemux_combine_flows streams pid ret).1[pid]?
          = some (some { st with flow_return := ret }))
      ∧ (∀ i : Nat, i ≠ pid → (tsdemux_combine_flows streams pid ret).1[i]? = streams[i]?)
      ∧ (ret ≠ GstFlowReturn.not_linked → (tsdemux_combine_flows streams pid ret).2 = ret)
      ∧ (ret = GstFlowReturn.not_linked →
          ((tsdemux_combine_flows streams pid ret).2 = GstFlowReturn.not_linked
            ↔ ∀ (i : Nat) (st : FlowStream), i < 0x2000 →
                (tsdemux_combine_flows streams pid ret).1[i]? = some (some st) →
                st.pad = true → st.flow_return = GstFlowReturn.not_linked))
      ∧ (ret = GstFlowReturn.not_linked →
          (tsdemux_combine_flows streams pid ret).2 ≠ GstFlowReturn.not_linked →
          ∃ (i : Nat) (st : FlowStream), i < 0x2000
            ∧ (tsdemux_combine_flows streams pid ret).1[i]? = some (some st)
            ∧ st.pad = true ∧ st.flow_return ≠ GstFlowReturn.not_linked
            ∧ (tsdemux_combine_flows streams pid ret).2 = st.flow_return
            ∧ ∀ (j : Nat) (t : FlowStream), j < i →
                (tsdemux_combine_flows streams pid ret).1[j]? = some (some t) →
                t.pad = true → t.flow_return = GstFlowReturn.not_linked) := by
  have h1 : (tsdemux_combine_flows streams pid ret).1 = store_flow_return streams pid ret := by
    unfold tsdemux_combine_flows
    dsimp only
    split_ifs <;> rfl
  have h2 : ret = GstFlowReturn.not_linked → (tsdemux_combine_flows streams pid ret).2
      = combine_flows_scan ((store_flow_return streams pid ret).take 0x2000)
          GstFlowReturn.not_linked := by
    intro hr
    unfold tsdemux_combine_flows
    dsimp only
    rw [if_neg (by rw [hr]; exact fun hc => hc rfl), hr]
  obtain ⟨s1, s2⟩ := combine_flows_scan_spec ((store_flow_return streams pid ret).take 0x2000)
  rw [h1]
  refine ⟨fun st hst => store_flow_return_at streams pid ret st hst, ?_, ?_, ?_, ?_⟩
  · intro i hi
    unfold store_flow_return
    exact List.getElem?_set_ne (Ne.symm hi)
  · intro hr
    unfold tsdemux_combine_flows
    dsimp only
    rw [if_pos hr]
  · intro hr
    rw [h2 hr, s1]
    constructor
    · intro h i st hi hst hp
      exact h i st ((take_getElem_some _ _ _ _).mpr ⟨hi, hst⟩) hp
    · intro h i st hst hp
      obtain ⟨hi, hst2⟩ := (take_getElem_some _ _ _ _).mp hst
      exact h i st hi hst2 hp
  · intro hr hne
    rw [h2 hr] at hne ⊢
    obtain ⟨i, st, a1, a2, a3, a4, a5⟩ := s2 hne
    obtain ⟨hi, hst2⟩ := (take_getElem_some _ _ _ _).mp a1
    refine ⟨i, st, hi, hst2, a2, a3, a4, ?_⟩
    intro j t hj hjt hp
    exact a5 j t hj ((take_getElem_some _ _ _ _).mpr ⟨by omega, hjt⟩) hp

theorem combine_flows_spec_witness :
    (tsdemux_combine_flows flowStreams 2 GstFlowReturn.not_linked).2 = GstFlowReturn.ok
      ∧ (tsdemux_combine_flows flowStreams 2 GstFlowReturn.not_linked).1[2]?
          = some (some { pad := true, flow_return := GstFlowReturn.not_linked })
      ∧ ∃ (i : Nat) (st : FlowStream), i < 0x2000
          ∧ (tsdemux_combine_flows flowStreams 2 GstFlowReturn.not_linked).1[i]? = some (some st)
          ∧ st.pad = true ∧ st.flow_return ≠ GstFlowReturn.not_linked
          ∧ (tsdemux_combine_flows flowStreams 2 GstFlowReturn.not_linked).2 = st.flow_return
          ∧ ∀ (j : Nat) (t : FlowStream), j < i →
              (tsdemux_combine_flows flowStreams 2 GstFlowReturn.not_linked).1[j]? = some (some t) →
              t.pad = true → t.flow_return = GstFlowReturn.not_linked :=
  ⟨rfl, (combine_flows_spec flowStreams 2 GstFlowReturn.not_linked).1 _ rfl,
    (combine_flows_spec flowStreams 2 GstFlowReturn.not_linked).2.2.2.2 rfl
      (fun hc => by cases hc)⟩

/-! ### Recording the PCR in push mode -/

theorem logical_not_ne_none (x : Nat) : logical_not x ≠ GST_CLOCK_TIME_NONE := by
  unfold logical_not GST_CLOCK_TIME_NONE
  split_ifs <;> omega

theorem record_pcr_fields (demux : PushDemux) (pid pcr offset : Nat) :
    (gst_ts_demux_record_pcr demux pid pcr offset).first_pcr = demux.first_pcr
      ∧ (gst_ts_demux_record_pcr demux pid pcr offset).pes = demux.pes
      ∧ (gst_ts_demux_record_pcr demux pid pcr offset).pcr_pid = demux.pcr_pid
      ∧ (gst_ts_demux_record_pcr demux pid pcr offset).need_newsegment = demux.need_newsegment
      ∧ (gst_ts_demux_record_pcr demux pid pcr offset).segment_start = demux.segment_start
      ∧ (gst_ts_demux_record_pcr demux pid pcr offset).segment_duration = demux.segment_duration
      ∧ (gst_ts_demux_record_pcr demux pid pcr offset).segment_time = demux.segment_time
      ∧ (gst_ts_demux_record_pcr demux pid pcr offset).streams = demux.streams
      ∧ (gst_ts_demux_record_pcr demux pid pcr offset).output = demux.output := by
  unfold gst_ts_demux_record_pcr
  by_cases hp : pid = demux.pcr_pid
  · rw [if_pos hp]
    dsimp only
    rw [if_neg (logical_not_ne_none _)]
    exact ⟨rfl, rfl, rfl, rfl, rfl, rfl, rfl, rfl, rfl⟩
  · rw [if_neg hp]
    exact ⟨rfl, rfl, rfl, rfl, rfl, rfl, rfl, rfl, rfl⟩

/-- Claim C22, evaluation of the code: `gst_ts_demux_record_pcr` never changes
`first_pcr`, whatever the demuxer, the PID and the PCR, because the test
`!demux->first_pcr.gsttime == GST_CLOCK_TIME_NONE` compares 0 or 1 with
`GST_CLOCK_TIME_NONE`. On the failing input (`first_pcr` unset as after
`gst_ts_demux_init`, PCR 27000000 of the PCR PID 65 at offset 188) `first_pcr`
stays `(GST_CLOCK_TIME_NONE, 0, 0)` where the claim expects
`(1000000000, 27000000, 188)`; only `cur_pcr` is recorded. -/
theorem record_pcr_never_sets_first_pcr :
    (∀ (demux : PushDemux) (pid pcr offset : Nat),
        (gst_ts_demux_record_pcr demux pid pcr offset).first_pcr = demux.first_pcr)
      ∧ pushDemux.first_pcr.gsttime = GST_CLOCK_TIME_NONE
      ∧ (gst_ts_demux_record_pcr pushDemux 65 27000000 188).first_pcr
          = { gsttime := GST_CLOCK_TIME_NONE, pcr := 0, offset := 0 }
      ∧ (gst_ts_demux_record_pcr pushDemux 65 27000000 188).cur_pcr
          = { gsttime := GST_CLOCK_TIME_NONE, pcr := 27000000, offset := 188 }
      ∧ PCRTIME_TO_GSTTIME 27000000 = 1000000000 :=
  ⟨fun demux pid pcr offset => (record_pcr_fields demux pid pcr offset).1, rfl, rfl, rfl, rfl⟩

/-! ### Assembling and flushing a PES group -/

theorem pes_header_timestamps_buf (read_ts : List Nat → Option (Nat × List Nat))
    (demux : PesDemux) (pts0 : Nat) (buf0 : GstBuffer) (p2 : Nat) (data : List Nat)
    (lost : Bool) (d : PesDemux) (pts1 : Nat) (buf1 : GstBuffer)
    (h : pes_header_timestamps read_ts demux pts0 buf0 p2 data = some (lost, d, pts1, buf1)) :
    buf1.data = buf0.data ∧ buf1.caps = buf0.caps ∧ buf1.offset = buf0.offset := by
  unfold pes_header_timestamps at h
  by_cases hpts : p2 &&& 0x80 ≠ 0
  · rw [if_pos hpts] at h
    cases hr : read_ts data with
    | none =>
      simp only [hr, Option.some.injEq, Prod.mk.injEq] at h
      obtain ⟨_, _, _, hb⟩ := h
      rw [← hb]
      exact ⟨rfl, rfl, rfl⟩
    | some r =>
      obtain ⟨pts, data1⟩ := r
      simp only [hr] at h
      cases hu : pes_update_index_pcr demux buf0.offset with
      | none => simp only [hu] at h; cases h
      | some d1 =>
        simp only [hu] at h
        by_cases hdts : p2 &&& 0x40 ≠ 0
        · rw [if_pos hdts] at h
          cases hr1 : read_ts data1 with
          | none =>
            simp only [hr1, Option.some.injEq, Prod.mk.injEq] at h
            obtain ⟨_, _, _, hb⟩ := h
            rw [← hb]
            exact ⟨rfl, rfl, rfl⟩
          | some _ =>
            simp only [hr1, Option.some.injEq, Prod.mk.injEq] at h
            obtain ⟨_, _, _, hb⟩ := h
            rw [← hb]
            exact ⟨rfl, rfl, rfl⟩
        · rw [if_neg hdts] at h
          simp only [Option.some.injEq, Prod.mk.injEq] at h
          obtain ⟨_, _, _, hb⟩ := h
          rw [← hb]
          exact ⟨rfl, rfl, rfl⟩
  · rw [if_neg hpts] at h
    simp only [] at h
    by_cases hdts : p2 &&& 0x40 ≠ 0
    · rw [if_pos hdts] at h
      cases hr1 : read_ts data with
      | none =>
        simp only [hr1, Option.some.injEq, Prod.mk.injEq] at h
        obtain ⟨_, _, _, hb⟩ := h
        rw [← hb]
        exact ⟨rfl, rfl, rfl⟩
      | some _ =>
        simp only [hr1, Option.some.injEq, Prod.mk.injEq] at h
        obtain ⟨_, _, _, hb⟩ := h
        rw [← hb]
        exact ⟨rfl, rfl, rfl⟩
    · rw [if_neg hdts] at h
      simp only [Option.some.injEq, Prod.mk.injEq] at h
      obtain ⟨_, _, _, hb⟩ := h
      rw [← hb]
      exact ⟨rfl, rfl, rfl⟩

theorem parse_pes_header_fresh (read_ts : List Nat → Option (Nat × List Nat))
    (demux : PesDemux) (stream : TSDemuxStream) (buf : GstBuffer) (d2 : PesDemux)
    (s2 : TSDemuxStream)
    (hpend : stream.pendingbuffers = [buf]) (hnb : stream.nbpending = 1)
    (hcur : stream.current = false)
    (hres : gst_ts_demux_parse_pes_header read_ts demux stream = some (d2, s2))
    (hbuf : s2.state = PendingPacketState.PENDING_PACKET_BUFFER) :
    ∃ ts : Nat, s2 = { stream with
        state := PendingPacketState.PENDING_PACKET_BUFFER, current := true,
        currentlist := [{ buf with data := buf.data.drop (pes_removed_size buf.data),
                                   timestamp := ts }],
        pendingbuffers := [], nbpending := 0, pts := s2.pts } := by
  unfold gst_ts_demux_parse_pes_header at hres
  rw [hpend] at hres
  simp only [] at hres
  rcases hd : buf.data with _ | ⟨b0, _ | ⟨b1, _ | ⟨b2, _ | ⟨b3, data⟩⟩⟩⟩
  all_goals rw [hd] at hres
  all_goals simp only [] at hres
  all_goals try cases hres
  by_cases hpsc : GST_READ_UINT32_BE b0 b1 b2 b3 &&& 0xffffff00 ≠ 0x00000100
  · rw [if_pos hpsc] at hres
    simp only [Option.some.injEq, Prod.mk.injEq] at hres
    rw [← hres.2] at hbuf
    cases hbuf
  · rw [if_neg hpsc] at hres
    rcases data with _ | ⟨l0, _ | ⟨l1, data⟩⟩
    all_goals simp only [] at hres
    all_goals try cases hres
    by_cases hstid : GST_READ_UINT32_BE b0 b1 b2 b3 &&& 0x000000ff ≠ 0xbf
    · rw [if_pos hstid] at hres
      rcases data with _ | ⟨p1, _ | ⟨p2, _ | ⟨h, data⟩⟩⟩
      all_goals simp only [] at hres
      all_goals try cases hres
      by_cases hp1 : p1 &&& 0xc0 ≠ 0x80
      · rw [if_pos hp1] at hres
        simp only [Option.some.injEq, Prod.mk.injEq] at hres
        rw [← hres.2] at hbuf
        cases hbuf
      · rw [if_neg hp1] at hres
        split_ifs at hres with hshort
        · simp only [Option.some.injEq, Prod.mk.injEq] at hres
          rw [← hres.2] at hbuf
          cases hbuf
        · cases hts : pes_header_timestamps read_ts demux stream.pts buf p2 data with
          | none => rw [hts] at hres; cases hres
          | some r =>
            obtain ⟨lost, d1, pts1, buf1⟩ := r
            obtain ⟨e1, e2, e3⟩ := pes_header_timestamps_buf read_ts demux stream.pts buf p2 data
              lost d1 pts1 buf1 hts
            rw [hts] at hres
            cases lost with
            | true =>
              simp only [Option.some.injEq, Prod.mk.injEq] at hres
              rw [← hres.2] at hbuf
              cases hbuf
            | false =>
              simp only [Option.some.injEq, Prod.mk.injEq] at hres
              rw [← hres.2]
              unfold pes_header_finish
              simp only [hcur, hnb, Bool.not_false, if_true, List.take]
              refine ⟨buf1.timestamp, ?_⟩
              have hsz : pes_removed_size (b0 :: b1 :: b2 :: b3 :: l0 :: l1 :: p1 :: p2 :: h :: data)
                  = 6 + (h + 3) % 256 := by
                unfold pes_removed_size
                simp only [List.getD_cons_zero, List.getD_cons_succ]
                rw [if_pos hstid]
              rw [hsz, e1, hd]
              cases buf1
              cases buf
              simp only [GstBuffer.mk.injEq] at e1 e2 e3 ⊢
              simp only [e2, e3]
    · rw [if_neg hstid] at hres
      simp only [Option.some.injEq, Prod.mk.injEq] at hres
      rw [← hres.2]
      unfold pes_header_finish
      simp only [hcur, hnb, Bool.not_false, if_true, List.take]
      refine ⟨buf.timestamp, ?_⟩
      have hsz : pes_removed_size (b0 :: b1 :: b2 :: b3 :: l0 :: l1 :: data) = 6 := by
        unfold pes_removed_size
        simp only [List.getD_cons_zero, List.getD_cons_succ]
        rw [if_neg hstid]
      rw [hsz, hd]

theorem record_pcr_cur_pcr (demux : PushDemux) (pid pcr offset : Nat) :
    ∃ c : TSPcrOffset, gst_ts_demux_record_pcr demux pid pcr offset = { demux with cur_pcr := c } := by
  unfold gst_ts_demux_record_pcr
  by_cases hp : pid = demux.pcr_pid
  · rw [if_pos hp]
    dsimp only
    rw [if_neg (logical_not_ne_none _)]
    exact ⟨_, rfl⟩
  · rw [if_neg hp]
    exact ⟨demux.cur_pcr, rfl⟩

theorem handle_packet_records (demux : PushDemux) (pid : Nat) (i : PacketInput) :
    ∃ c : TSPcrOffset,
      (if i.has_adaptation_field then
        (if i.has_opcr then
          gst_ts_demux_record_opcr
            (if i.has_pcr then gst_ts_demux_record_pcr demux pid i.packet.pcr i.buffer.offset
             else demux) pid i.opcr i.buffer.offset
         else (if i.has_pcr then gst_ts_demux_record_pcr demux pid i.packet.pcr i.buffer.offset
               else demux))
       else demux) = { demux with cur_pcr := c } := by
  obtain ⟨c, hc⟩ := record_pcr_cur_pcr demux pid i.packet.pcr i.buffer.offset
  unfold gst_ts_demux_record_opcr
  cases i.has_adaptation_field <;> cases i.has_opcr <;> cases i.has_pcr <;>
    first
    | exact ⟨demux.cur_pcr, rfl⟩
    | exact ⟨c, hc⟩

theorem queue_data_buffer (read_ts : List Nat → Option (Nat × List Nat))
    (demux : PesDemux) (stream : TSDemuxStream) (packet : MpegTSPacketizerPacket)
    (buffer : GstBuffer) (payload : List Nat)
    (hst : stream.state = PendingPacketState.PENDING_PACKET_BUFFER)
    (hpay : packet.payload = some payload) :
    gst_ts_demux_queue_data read_ts demux stream packet buffer
      = some (demux, { stream with
          currentlist := { buffer with data := payload } :: stream.currentlist }) := by
  have h1 : ¬ stream.state = PendingPacketState.PENDING_PACKET_EMPTY := by
    rw [hst]; exact fun hc => by cases hc
  have h2 : ¬ stream.state = PendingPacketState.PENDING_PACKET_HEADER := by
    rw [hst]; exact fun hc => by cases hc
  unfold gst_ts_demux_queue_data
  rw [hpay]
  simp only [if_neg h1, if_neg h2, if_pos hst]

theorem handle_packet_buffer (read_ts : List Nat → Option (Nat × List Nat))
    (push_list : List GstBuffer → GstFlowReturn) (demux : PushDemux) (pid : Nat)
    (stream : TSDemuxStream) (i : PacketInput)
    (hpusi : i.packet.payload_unit_start_indicator = false)
    (hst : stream.state = PendingPacketState.PENDING_PACKET_BUFFER) :
    ∃ c : TSPcrOffset, gst_ts_demux_handle_packet read_ts push_list demux pid stream i
      = some ({ demux with cur_pcr := c },
          { stream with currentlist := (payload_buffer i).toList ++ stream.currentlist },
          GstFlowReturn.ok) := by
  unfold gst_ts_demux_handle_packet payload_buffer
  cases hsec : i.is_section with
  | true =>
    exact ⟨demux.cur_pcr, rfl⟩
  | false =>
    obtain ⟨c, hc⟩ := handle_packet_records demux pid i
    simp only [Bool.false_eq_true, if_false, hpusi]
    rw [hc]
    cases hpay : i.packet.payload with
    | none => exact ⟨c, rfl⟩
    | some payload =>
      simp only [queue_data_buffer read_ts _ stream i.packet i.buffer payload hst hpay]
      exact ⟨c, rfl⟩

theorem handle_packets_buffer (read_ts : List Nat → Option (Nat × List Nat))
    (push_list : List GstBuffer → GstFlowReturn) (pid : Nat) (later : List PacketInput) :
    ∀ (demux : PushDemux) (stream : TSDemuxStream),
      (∀ i ∈ later, i.packet.payload_unit_start_indicator = false) →
      stream.state = PendingPacketState.PENDING_PACKET_BUFFER →
      ∃ c : TSPcrOffset, handle_packets read_ts push_list pid demux stream later
        = some ({ demux with cur_pcr := c },
            { stream with
                currentlist := (later.filterMap payload_buffer).reverse ++ stream.currentlist }) := by
  induction later with
  | nil =>
    intro demux stream _ _
    exact ⟨demux.cur_pcr, rfl⟩
  | cons i rest ih =>
    intro demux stream hl hst
    obtain ⟨c, hc⟩ := handle_packet_buffer read_ts push_list demux pid stream i
      (hl i (List.mem_cons_self _ _)) hst
    obtain ⟨c2, hc2⟩ := ih { demux with cur_pcr := c }
      { stream with currentlist := (payload_buffer i).toList ++ stream.currentlist }
      (fun j hj => hl j (List.mem_cons_of_mem _ hj)) hst
    refine ⟨c2, ?_⟩
    unfold handle_packets
    rw [hc]
    simp only []
    rw [hc2]
    cases hp : payload_buffer i with
    | none => simp only [List.filterMap_cons, hp, Option.toList, List.nil_append]
    | some b =>
      simp only [List.filterMap_cons, hp, Option.toList, List.reverse_cons, List.append_assoc,
        List.singleton_append, List.cons_append, List.nil_append]

theorem push_pending_data_reset (push_list : List GstBuffer → GstFlowReturn)
    (demux : PushDemux) (pid : Nat) (stream : TSDemuxStream) :
    (gst_ts_demux_push_pending_data push_list demux pid stream).2.1.state
        = PendingPacketState.PENDING_PACKET_EMPTY
      ∧ (gst_ts_demux_push_pending_data push_list demux pid stream).2.1.pendingbuffers = []
      ∧ (gst_ts_demux_push_pending_data push_list demux pid stream).2.1.nbpending = 0
      ∧ (gst_ts_demux_push_pending_data push_list demux pid stream).2.1.current = false
      ∧ (gst_ts_demux_push_pending_data push_list demux pid stream).2.1.pad = stream.pad
      ∧ (gst_ts_demux_push_pending_data push_list demux pid stream).1.pes = demux.pes := by
  unfold gst_ts_demux_push_pending_data
  dsimp only
  refine ⟨rfl, rfl, rfl, rfl, ?_, ?_⟩
  · split_ifs <;> rfl
  · split_ifs <;> rfl

theorem push_pending_data_buffer (push_list : List GstBuffer → GstFlowReturn)
    (demux : PushDemux) (pid : Nat) (stream : TSDemuxStream)
    (hcur : stream.current = true)
    (hst : stream.state = PendingPacketState.PENDING_PACKET_BUFFER) :
    (gst_ts_demux_push_pending_data push_list demux pid stream).1.output
        = demux.output ++
          (if stream.pad then
            (if demux.need_newsegment then
              [PadOutput.newsegment
                (toInt64 (add64 demux.first_pcr.gsttime (ofInt64 demux.segment_start)))
                (toInt64 (add64 demux.first_pcr.gsttime (ofInt64 demux.segment_duration)))
                demux.segment_time]
             else []) ++ [PadOutput.buffer_list stream.currentlist.reverse]
           else [])
      ∧ (gst_ts_demux_push_pending_data push_list demux pid stream).2.1
        = { stream with state := PendingPacketState.PENDING_PACKET_EMPTY, pendingbuffers := [],
                        nbpending := 0, current := false,
                        currentlist := stream.currentlist.reverse } := by
  have h1 : ¬ stream.state = PendingPacketState.PENDING_PACKET_EMPTY := by
    rw [hst]; exact fun hc => by cases hc
  unfold gst_ts_demux_push_pending_data
  simp only [hcur, Bool.not_true, Bool.false_eq_true, if_false, if_neg h1, if_pos hst]
  cases hpad : stream.pad with
  | false => simp
  | true =>
    cases hn : demux.need_newsegment with
    | false => simp
    | true => simp

theorem queue_data_fresh (read_ts : List Nat → Option (Nat × List Nat))
    (demux : PesDemux) (stream : TSDemuxStream) (packet : MpegTSPacketizerPacket)
    (buffer : GstBuffer) (payload : List Nat)
    (hst : stream.state = PendingPacketState.PENDING_PACKET_EMPTY)
    (hpend : stream.pendingbuffers = []) (hnb : stream.nbpending = 0)
    (hpusi : packet.payload_unit_start_indicator = true)
    (hpay : packet.payload = some payload) :
    gst_ts_demux_queue_data read_ts demux stream packet buffer
      = gst_ts_demux_parse_pes_header read_ts demux
          { stream with state := PendingPacketState.PENDING_PACKET_HEADER,
                        pendingbuffers := [{ buffer with data := payload,
                                                         caps := stream.pad || buffer.caps }],
                        nbpending := 1 } := by
  unfold gst_ts_demux_queue_data
  rw [hpay]
  simp only [if_pos hst, hpusi, Bool.not_true, Bool.false_eq_true, if_false, if_true, hpend, hnb,
    pending_store, List.length_nil, Nat.lt_irrefl, List.nil_append]
  cases hpad : stream.pad with
  | true => rfl
  | false => rfl

theorem handle_packet_pusi (read_ts : List Nat → Option (Nat × List Nat))
    (push_list : List GstBuffer → GstFlowReturn) (demux : PushDemux) (pid : Nat)
    (stream : TSDemuxStream) (i : PacketInput) (payload : List Nat)
    (hpusi : i.packet.payload_unit_start_indicator = true)
    (hsec : i.is_section = false) (hpay : i.packet.payload = some payload) :
    ∃ c : TSPcrOffset, gst_ts_demux_handle_packet read_ts push_list demux pid stream i
      = (gst_ts_demux_parse_pes_header read_ts demux.pes
          { (gst_ts_demux_push_pending_data push_list demux pid stream).2.1 with
              state := PendingPacketState.PENDING_PACKET_HEADER,
              pendingbuffers := [{ i.buffer with data := payload,
                                                 caps := stream.pad || i.buffer.caps }],
              nbpending := 1 }).map
        (fun r => ({ (gst_ts_demux_push_pending_data push_list demux pid stream).1 with
                       cur_pcr := c, pes := r.1 }, r.2,
                   (gst_ts_demux_push_pending_data push_list demux pid stream).2.2)) := by
  obtain ⟨r1, r2, r3, _, r5, r6⟩ := push_pending_data_reset push_list demux pid stream
  obtain ⟨c, hc⟩ := handle_packet_records
    (gst_ts_demux_push_pending_data push_list demux pid stream).1 pid i
  refine ⟨c, ?_⟩
  unfold gst_ts_demux_handle_packet
  simp only [hsec, Bool.false_eq_true, if_false, hpusi, if_true]
  rw [hc, hpay]
  simp only []
  rw [queue_data_fresh read_ts _ _ i.packet i.buffer payload r1 r2 r3 hpusi hpay, r5, r6]
  split
  · next h => rw [h]; rfl
  · next pes stream2 h => rw [h]; rfl

/-- Packets of one PID handled by `gst_ts_demux_handle_packet`, starting with
a PUSI packet after which the stream is in BUFFER. The output group then holds
the first payload without its first `pes_removed_size` bytes; every following
packet without PUSI is handled with a result and puts its payload (if it has
one and is no section) on the group; and for the next PUSI packet the group
handed to `gst_pad_push_list` (after the new-segment event if one is due; a
stream without pad sends nothing) is that first buffer followed by the later
payloads in arrival order, after which the new packet is parsed as a PES
header with nothing else pending. -/
theorem pes_group_flushed_in_arrival_order (read_ts : List Nat → Option (Nat × List Nat))
    (push_list : List GstBuffer → GstFlowReturn) (pid : Nat) (d0 d1 : PushDemux)
    (s0 s1 : TSDemuxStream) (r1 : GstFlowReturn) (first last : PacketInput)
    (later : List PacketInput) (payload0 payloadN : List Nat)
    (hfirst : first.packet.payload_unit_start_indicator = true)
    (hfsec : first.is_section = false) (hfpay : first.packet.payload = some payload0)
    (h1 : gst_ts_demux_handle_packet read_ts push_list d0 pid s0 first = some (d1, s1, r1))
    (hparsed : s1.state = PendingPacketState.PENDING_PACKET_BUFFER)
    (hlater : ∀ i ∈ later, i.packet.payload_unit_start_indicator = false)
    (hlast : last.packet.payload_unit_start_indicator = true)
    (hlsec : last.is_section = false) (hlpay : last.packet.payload = some payloadN) :
    ∃ (b0 : GstBuffer) (d2 : PushDemux) (s2 : TSDemuxStream),
      b0.data = payload0.drop (pes_removed_size payload0)
      ∧ b0.offset = first.buffer.offset
      ∧ s1.currentlist = [b0]
      ∧ handle_packets read_ts push_list pid d1 s1 later = some (d2, s2)
      ∧ s2.state = PendingPacketState.PENDING_PACKET_BUFFER
      ∧ s2.currentlist.reverse = b0 :: later.filterMap payload_buffer
      ∧ d2.output = d1.output
      ∧ (gst_ts_demux_handle_packet read_ts push_list d2 pid s2 last).map
            (fun r => (r.1.output, r.1.pes, r.2.1))
          = (gst_ts_demux_parse_pes_header read_ts d1.pes
              { pad := s0.pad, state := PendingPacketState.PENDING_PACKET_HEADER,
                pendingbuffers := [{ last.buffer with data := payloadN,
                                                      caps := s0.pad || last.buffer.caps }],
                nbpending := 1, current := false,
                currentlist := b0 :: later.filterMap payload_buffer, pts := s1.pts }).map
            (fun r => (d1.output ++
              (if s0.pad then
                (if d1.need_newsegment then
                  [PadOutput.newsegment
                    (toInt64 (add64 d1.first_pcr.gsttime (ofInt64 d1.segment_start)))
                    (toInt64 (add64 d1.first_pcr.gsttime (ofInt64 d1.segment_duration)))
                    d1.segment_time]
                 else []) ++ [PadOutput.buffer_list (b0 :: later.filterMap payload_buffer)]
               else []), r.1, r.2)) := by
  obtain ⟨_, _, _, q4, q5, _⟩ := push_pending_data_reset push_list d0 pid s0
  obtain ⟨c, hp⟩ := handle_packet_pusi read_ts push_list d0 pid s0 first payload0 hfirst hfsec
    hfpay
  rw [hp] at h1
  cases hparse : gst_ts_demux_parse_pes_header read_ts d0.pes
      { (gst_ts_demux_push_pending_data push_list d0 pid s0).2.1 with
          state := PendingPacketState.PENDING_PACKET_HEADER,
          pendingbuffers := [{ first.buffer with data := payload0,
                                                 caps := s0.pad || first.buffer.caps }],
          nbpending := 1 } with
  | none =>
    rw [hparse] at h1
    cases h1
  | some r =>
    obtain ⟨pes1, st1⟩ := r
    rw [hparse] at h1
    simp only [Option.map_some', Option.some.injEq, Prod.mk.injEq] at h1
    obtain ⟨_, hs1, _⟩ := h1
    rw [← hs1] at hparsed
    obtain ⟨ts, hst1⟩ := parse_pes_header_fresh read_ts d0.pes
      { (gst_ts_demux_push_pending_data push_list d0 pid s0).2.1 with
          state := PendingPacketState.PENDING_PACKET_HEADER,
          pendingbuffers := [{ first.buffer with data := payload0,
                                                 caps := s0.pad || first.buffer.caps }],
          nbpending := 1 }
      { first.buffer with data := payload0, caps := s0.pad || first.buffer.caps }
      pes1 st1 rfl rfl q4 hparse hparsed
    rw [hs1] at hst1 hparsed
    have hpad : s1.pad = s0.pad := by rw [hst1]; exact q5
    have hcur : s1.current = true := by rw [hst1]
    have hcl : s1.currentlist
        = [{ data := payload0.drop (pes_removed_size payload0), offset := first.buffer.offset,
             timestamp := ts, caps := s0.pad || first.buffer.caps }] := by rw [hst1]
    obtain ⟨c2, hl⟩ := handle_packets_buffer read_ts push_list pid later d1 s1 hlater hparsed
    refine ⟨{ data := payload0.drop (pes_removed_size payload0), offset := first.buffer.offset,
              timestamp := ts, caps := s0.pad || first.buffer.caps },
      { d1 with cur_pcr := c2 },
      { s1 with currentlist := (later.filterMap payload_buffer).reverse ++ s1.currentlist },
      rfl, rfl, hcl, hl, hparsed, ?_, rfl, ?_⟩
    · simp only [hcl, List.reverse_append, List.reverse_reverse, List.reverse_cons,
        List.reverse_nil, List.nil_append, List.singleton_append]
    · obtain ⟨c3, hp3⟩ := handle_packet_pusi read_ts push_list { d1 with cur_pcr := c2 } pid
        { s1 with currentlist := (later.filterMap payload_buffer).reverse ++ s1.currentlist }
        last payloadN hlast hlsec hlpay
      obtain ⟨o1, o2⟩ := push_pending_data_buffer push_list { d1 with cur_pcr := c2 } pid
        { s1 with currentlist := (later.filterMap payload_buffer).reverse ++ s1.currentlist }
        hcur hparsed
      rw [hp3, o2, Option.map_map]
      simp only [hcl, hpad, List.reverse_append, List.reverse_reverse, List.reverse_cons,
        List.reverse_nil, List.nil_append, List.singleton_append] at o1 ⊢
      congr 1
      funext r
      simp only [Function.comp, o1]

/-- The packets `pesFirst`, `pesLater` and `pesLast` of PID 65 (PES header data
lengths 2 and 0): the run sends the new-segment event and then one buffer list holding the
payloads [7, 8, 9], [10, 11], [12] in this order, and ends in BUFFER with the
stripped payload [20, 21, 22] of the new PES packet as the only buffer of the next
group. -/
theorem pes_group_flushed_in_arrival_order_witness :
    pushSummary (handle_packets noReadTs pushOk 65 pushDemux emptyStream
        (pesFirst :: pesLater ++ [pesLast]))
      = some ([PadOutput.newsegment (-1) (-2) 0,
               PadOutput.buffer_list
                 [{ packetBuffer with data := [7, 8, 9], caps := true },
                  { packetBuffer with data := [10, 11] },
                  { packetBuffer with data := [12] }]],
              { emptyStream with
                  state := PendingPacketState.PENDING_PACKET_BUFFER, current := true,
                  currentlist := [{ packetBuffer with data := [20, 21, 22], caps := true }] })
    ∧ ∃ (b0 : GstBuffer) (d2 : PushDemux) (s2 : TSDemuxStream),
        b0.data = [7, 8, 9]
        ∧ pesParsedStream.currentlist = [b0]
        ∧ handle_packets noReadTs pushOk 65 pushDemux pesParsedStream pesLater = some (d2, s2)
        ∧ s2.currentlist.reverse = b0 :: pesLater.filterMap payload_buffer :=
  ⟨rfl,
   (pes_group_flushed_in_arrival_order noReadTs pushOk 65 pushDemux pushDemux emptyStream
      pesParsedStream GstFlowReturn.ok pesFirst pesLast pesLater
      [0, 0, 1, 0xe0, 0, 0, 0x80, 0, 2, 0xff, 0xff, 7, 8, 9]
      [0, 0, 1, 0xe0, 0, 0, 0x80, 0, 0, 20, 21, 22] rfl rfl rfl rfl rfl
      (fun i hi => by
        simp only [pesLater, List.mem_cons, List.mem_singleton, List.mem_nil_iff,
          or_false] at hi
        rcases hi with hi | hi <;> rw [hi] <;> rfl)
      rfl rfl rfl).elim
     fun b0 hb => hb.elim fun d2 hd => hd.elim fun s2 hs =>
       ⟨b0, d2, s2, hs.1, hs.2.2.1, hs.2.2.2.1, hs.2.2.2.2.2.1⟩⟩

/-! ### PCR sampling -/

theorem process_pcr_sample_length (samples : List (Nat × Nat)) (lpcr offset : Nat) :
    (process_pcr_sample samples lpcr offset).length ≤ samples.length + 1 := by
  unfold process_pcr_sample
  dsimp only
  split_ifs <;> simp

theorem process_pcr_sample_guard (samples : List (Nat × Nat)) (lpcr offset : Nat)
    (h : List.Chain' pcr_guard (samples.drop 1)) :
    List.Chain' pcr_guard ((process_pcr_sample samples lpcr offset).drop 1) := by
  unfold process_pcr_sample
  dsimp only
  rcases samples with _ | ⟨a, _ | ⟨b, u⟩⟩
  · simp
  · simp
  · have hlen : (a :: b :: u).length > 1 := by simp
    rw [if_pos hlen]
    have happ : ∀ x : Nat × Nat, pcr_guard (((a :: b :: u).getLast?.getD (0, 0))) x →
        List.Chain' pcr_guard (((a :: b :: u) ++ [x]).drop 1) := by
      intro x hx
      have e : ((a :: b :: u) ++ [x]).drop 1 = (b :: u) ++ [x] := rfl
      rw [e]
      refine List.Chain'.append h (List.chain'_singleton x) ?_
      intro y hy z hz
      rw [List.getLast?_cons_cons] at hx
      simp only [List.head?_cons, Option.mem_def, Option.some.injEq] at hz
      rw [Option.mem_def] at hy
      rw [hy] at hx
      rw [← hz]
      exact hx
    split_ifs with h1 h2 h3
    · exact h
    · exact happ _ ⟨h1, Or.inl h2⟩
    · exact h
    · exact happ _ ⟨h1, Or.inr (by simp only; omega)⟩

theorem process_pcr_packets_inv (numpcr : Nat) (found : List (Nat × Nat)) :
    ∀ samples : List (Nat × Nat), samples.length ≤ numpcr →
      List.Chain' pcr_guard (samples.drop 1) →
      (process_pcr_packets numpcr samples found).length ≤ numpcr
        ∧ List.Chain' pcr_guard ((process_pcr_packets numpcr samples found).drop 1) := by
  induction found with
  | nil => intro samples hl hc; exact ⟨hl, hc⟩
  | cons p rest ih =>
    intro samples hl hc
    obtain ⟨lpcr, offset⟩ := p
    unfold process_pcr_packets
    by_cases hlt : samples.length < numpcr
    · rw [if_pos hlt]
      have := process_pcr_sample_length samples lpcr offset
      exact ih _ (by omega) (process_pcr_sample_guard samples lpcr offset hc)
    · rw [if_neg hlt]
      exact ⟨hl, hc⟩

theorem process_pcr_chunks_inv (pull_range : Nat → GstFlowReturn × List (Nat × Nat))
    (packetsize initoff numpcr : Nat) (fuel : Nat) :
    ∀ (i : Nat) (samples : List (Nat × Nat)), samples.length ≤ numpcr →
      List.Chain' pcr_guard (samples.drop 1) →
      (process_pcr_chunks pull_range packetsize initoff numpcr fuel i samples).2.length ≤ numpcr
        ∧ List.Chain' pcr_guard
            ((process_pcr_chunks pull_range packetsize initoff numpcr fuel i samples).2.drop 1) := by
  induction fuel with
  | zero => intro i samples hl hc; exact ⟨hl, hc⟩
  | succ fuel ih =>
    intro i samples hl hc
    unfold process_pcr_chunks
    by_cases hlt : samples.length < numpcr
    · rw [if_pos hlt]
      dsimp only
      by_cases hr : (pull_range (initoff + i * 500 * packetsize)).1 ≠ GstFlowReturn.ok
      · rw [if_pos hr]
        exact ⟨hl, hc⟩
      · rw [if_neg hr]
        obtain ⟨p1, p2⟩ := process_pcr_packets_inv numpcr
          (pull_range (initoff + i * 500 * packetsize)).2 samples hl hc
        exact ih _ _ p1 p2
    · rw [if_neg hlt]
      exact ⟨hl, hc⟩

/-- Claim C26, evaluation of the code: the safeguard of `process_pcr` is only
applied once two samples are accepted (`if (nbpcr > 1)`), so the second sample
is accepted unchecked. With the PCRs 100, 100, 200 the accepted samples are
100, 100, 200 (the second equals the first), and with the PCRs 0 and
16200000001 both are accepted although they lie more than 10 minutes
(16200000000 ticks) apart. For every input the number of accepted samples is
at most `numpcr`, and every accepted sample from the third on passes the
safeguard against the accepted sample before it. -/
theorem process_pcr_second_sample_unguarded :
    (process_pcr true samePcrPull 188 0 zeroPcrOffset 10 true).2.2
        = [(100, 0), (100, 188), (200, 376)]
      ∧ (process_pcr true farPcrPull 188 0 zeroPcrOffset 10 true).2.2
        = [(0, 0), (16200000001, 188)]
      ∧ ¬ pcr_guard (100, 0) (100, 188)
      ∧ ¬ pcr_guard (0, 0) (16200000001, 188)
      ∧ (∀ (program : Bool) (pull_range : Nat → GstFlowReturn × List (Nat × Nat))
          (packetsize initoff : Nat) (pcroffset : TSPcrOffset) (numpcr : Nat) (isinitial : Bool),
          (process_pcr program pull_range packetsize initoff pcroffset numpcr isinitial).2.2.length
              ≤ numpcr
            ∧ List.Chain' pcr_guard
                ((process_pcr program pull_range packetsize initoff pcroffset numpcr
                  isinitial).2.2.drop 1)) := by
  refine ⟨rfl, rfl, ?_, ?_, ?_⟩
  · unfold pcr_guard
    simp
  · unfold pcr_guard
    simp
  · intro program pull_range packetsize initoff pcroffset numpcr isinitial
    unfold process_pcr
    cases program with
    | false => simp
    | true =>
      simp only [Bool.not_true, Bool.false_eq_true, if_false]
      exact process_pcr_chunks_inv pull_range packetsize initoff numpcr 20 0 []
        (Nat.zero_le _) (by simp)

/-! ### Index build in pull mode -/

theorem verify_loop_prefix (maxpkt : Nat) (find : PcrScan) (last_offset : Nat) (fuel : Nat) :
    ∀ (offset : Nat) (first : TSPcrOffset) (index : List TSPcrOffset)
      (r : Bool × TSPcrOffset × List TSPcrOffset),
      verify_loop maxpkt find last_offset fuel offset first index = some r →
      ∃ tl : List TSPcrOffset, r.2.2 = index ++ tl := by
  induction fuel with
  | zero =>
    intro offset first index r h
    simp only [verify_loop] at h
    cases h
  | succ fuel ih =>
    intro offset first index r h
    unfold verify_loop at h
    by_cases hlt : offset + 4000 * maxpkt < last_offset
    · rw [if_pos hlt] at h
      cases hv : verify_retry find 3 offset (4000 * maxpkt) with
      | none =>
        rw [hv] at h
        simp only [Option.some.injEq] at h
        rw [← h]
        exact ⟨[], (List.append_nil _).symm⟩
      | some q =>
        obtain ⟨q1, offset1⟩ := q
        rw [hv] at h
        simp only [] at h
        obtain ⟨tl, htl⟩ := ih _ _ _ r h
        exact ⟨_ :: tl, by rw [htl, List.append_assoc]; rfl⟩
    · rw [if_neg hlt] at h
      simp only [Option.some.injEq] at h
      rw [← h]
      exact ⟨[], (List.append_nil _).symm⟩

theorem verify_timestamps_fields (maxpkt : Nat) (find : PcrScan) (demux : IndexState)
    (first last : TSPcrOffset) (ok : Bool) (st : IndexState)
    (h : verify_timestamps maxpkt find demux first last = some (ok, st)) :
    st.index.head? = some st.first_pcr
      ∧ st.first_pcr = { first with gsttime := PCRTIME_TO_GSTTIME first.pcr }
      ∧ (ok = true → st.index.getLast? = some st.last_pcr
          ∧ st.last_pcr.pcr = last.pcr ∧ st.last_pcr.offset = last.offset)
      ∧ (ok = false → st.last_pcr = demux.last_pcr) := by
  unfold verify_timestamps at h
  dsimp only at h
  cases hv : verify_loop maxpkt find last.offset (last.offset / PCR_WRAP_SIZE_128KBPS + 1)
      PCR_WRAP_SIZE_128KBPS { first with gsttime := PCRTIME_TO_GSTTIME first.pcr }
      [{ first with gsttime := PCRTIME_TO_GSTTIME first.pcr }] with
  | none =>
    rw [hv] at h
    cases h
  | some r =>
    obtain ⟨tl, htl⟩ := verify_loop_prefix _ _ _ _ _ _ _ r hv
    obtain ⟨b, anchor, index⟩ := r
    simp only at htl
    rw [hv] at h
    cases b with
    | true =>
      simp only [Option.some.injEq, Prod.mk.injEq] at h
      obtain ⟨h1, h2⟩ := h
      rw [← h1, ← h2, htl]
      refine ⟨rfl, rfl, fun _ => ⟨?_, rfl, rfl⟩, fun hc => by cases hc⟩
      simp only [List.getLast?_append, List.getLast?_singleton, Option.or_some]
    | false =>
      simp only [Option.some.injEq, Prod.mk.injEq] at h
      obtain ⟨h1, h2⟩ := h
      rw [← h1, ← h2, htl]
      exact ⟨rfl, rfl, (fun hc => by cases hc), fun _ => rfl⟩

theorem find_timestamps_ok_fields (e : TimestampsEnv) (fuel : Nat) (demux : IndexState)
    (duration : Nat) (initial final : TSPcrOffset) (st : IndexState) (d : Nat)
    (h : find_timestamps e fuel demux duration initial final = some (GstFlowReturn.ok, st, d)) :
    st.index.head? = some st.first_pcr
      ∧ st.first_pcr.gsttime = PCRTIME_TO_GSTTIME st.first_pcr.pcr
      ∧ d = sub64 st.last_pcr.gsttime st.first_pcr.gsttime
      ∧ (st.index.getLast? = some st.last_pcr ∨ st.last_pcr = demux.last_pcr) := by
  unfold find_timestamps at h
  cases h0 : find_timestamps_start e fuel 0 with
  | none => rw [h0] at h; cases h
  | some ret0 =>
    rw [h0] at h
    simp only [] at h
    split_ifs at h with c1 c2
    · simp only [Option.some.injEq, Prod.mk.injEq] at h
      exact absurd h.1 c1
    · simp only [Option.some.injEq, Prod.mk.injEq] at h
      exact absurd h.1 c2.1
    · cases hq : e.peer_duration with
      | none =>
        rw [hq] at h
        simp only [Option.some.injEq, Prod.mk.injEq] at h
        cases h.1
      | some total_bytes =>
        rw [hq] at h
        simp only [] at h
        cases h2 : find_timestamps_end e (ofInt64 total_bytes) 81
            (ofInt64 (max 188 (total_bytes - 4000 * (e.maxpkt : Int)))) with
        | none => rw [h2] at h; cases h
        | some r =>
          obtain ⟨ret2, done, scan_offset1⟩ := r
          rw [h2] at h
          simp only [] at h
          split_ifs at h with c3 c4
          · simp only [Option.some.injEq, Prod.mk.injEq] at h
            exact absurd h.1 c3
          · simp only [Option.some.injEq, Prod.mk.injEq] at h
            exact absurd h.1 c4
          · cases hv : verify_timestamps e.maxpkt e.find demux
                (process_pcr true e.pcr_pull e.packetsize e.first_pat_offset initial 10 true).2.1
                (process_pcr done e.pcr_pull e.packetsize
                  (sub64 scan_offset1 (50 * e.maxpkt)) final 10 false).2.1 with
            | none => rw [hv] at h; cases h
            | some r =>
              obtain ⟨ok, st1⟩ := r
              rw [hv] at h
              simp only [Option.some.injEq, Prod.mk.injEq, true_and] at h
              obtain ⟨hst, hd⟩ := h
              obtain ⟨f1, f2, f3, f4⟩ := verify_timestamps_fields _ _ _ _ _ _ _ hv
              rw [← hst, ← hd]
              refine ⟨f1, by rw [f2], rfl, ?_⟩
              cases ok with
              | true => exact Or.inl (f3 rfl).1
              | false => exact Or.inr (f4 rfl)

/-- Claim C23, evaluation of the code on the failing input: the 1600 s stream
`longStreamEnv` in which no PCR scan of `verify_timestamps` finds a PCR packet.
`verify_timestamps` gives up (`return FALSE`) after the first entry, its result
is not looked at, and `find_timestamps` returns `GST_FLOW_OK` with the index
holding only `first_pcr`, `last_pcr` still `(0, 0, 0)` and not an index entry,
and the duration `0 - 1000000000` as a `guint64`. With PCR scans that succeed
the same stream gives the index ending in `last_pcr` (1601 s) and the duration
1600 s. For every input that returns `GST_FLOW_OK` the index starts with
`first_pcr`, `first_pcr.gsttime` is `PCRTIME_TO_GSTTIME` of its PCR, the
duration is `last_pcr.gsttime - first_pcr.gsttime`, and the index ends with
`last_pcr` unless `last_pcr` was left as it was. -/
theorem find_timestamps_ok_without_last_pcr :
    find_timestamps (longStreamEnv noPcrScan) 1 initIndexState GST_CLOCK_TIME_NONE
        zeroPcrOffset zeroPcrOffset
      = some (GstFlowReturn.ok,
          { index := [{ gsttime := 1000000000, pcr := 27000000, offset := 0 }],
            index_size := 1,
            first_pcr := { gsttime := 1000000000, pcr := 27000000, offset := 0 },
            index_pcr := { gsttime := 1000000000, pcr := 27000000, offset := 0 },
            last_pcr := { gsttime := 0, pcr := 0, offset := 0 } },
          18446744072709551616)
    ∧ find_timestamps (longStreamEnv stridePcrScan) 1 initIndexState GST_CLOCK_TIME_NONE
        zeroPcrOffset zeroPcrOffset
      = some (GstFlowReturn.ok,
          { index := [{ gsttime := 1000000000, pcr := 27000000, offset := 0 },
                      { gsttime := 1563378240000, pcr := 42211212480, offset := 1562378240 },
                      { gsttime := 1601000000000, pcr := 43227000000, offset := 1599168188 }],
            index_size := 3,
            first_pcr := { gsttime := 1000000000, pcr := 27000000, offset := 0 },
            index_pcr := { gsttime := 1000000000, pcr := 27000000, offset := 0 },
            last_pcr := { gsttime := 1601000000000, pcr := 43227000000,
                          offset := 1599168188 } },
          1600000000000)
    ∧ (∀ (e : TimestampsEnv) (fuel : Nat) (demux : IndexState) (duration : Nat)
        (initial final : TSPcrOffset) (st : IndexState) (d : Nat),
        find_timestamps e fuel demux duration initial final = some (GstFlowReturn.ok, st, d) →
        st.index.head? = some st.first_pcr
          ∧ st.first_pcr.gsttime = PCRTIME_TO_GSTTIME st.first_pcr.pcr
          ∧ d = sub64 st.last_pcr.gsttime st.first_pcr.gsttime
          ∧ (st.index.getLast? = some st.last_pcr ∨ st.last_pcr = demux.last_pcr)) :=
  ⟨rfl, rfl, find_timestamps_ok_fields⟩

theorem find_timestamps_end_total (e : TimestampsEnv) (total_bytes : Nat)
    (htotal : total_bytes < 2 ^ 63) (hpkt : 50 * e.maxpkt < 2 ^ 63) (fuel : Nat) :
    ∀ scan_offset : Nat, total_bytes ≤ scan_offset + fuel * (50 * e.maxpkt) →
      ∃ r, find_timestamps_end e total_bytes (fuel + 1) scan_offset = some r := by
  induction fuel with
  | zero =>
    intro scan_offset h
    unfold find_timestamps_end
    rw [if_neg (by omega)]
    exact ⟨_, rfl⟩
  | succ fuel ih =>
    intro scan_offset h
    unfold find_timestamps_end
    by_cases hlt : scan_offset < total_bytes
    · rw [if_pos hlt]
      dsimp only
      split_ifs
      · exact ⟨_, rfl⟩
      · exact ⟨_, rfl⟩
      · have hadd : add64 scan_offset (50 * e.maxpkt) = scan_offset + 50 * e.maxpkt := by
          unfold add64
          exact Nat.mod_eq_of_lt (by omega)
        rw [hadd]
        exact ih _ (by rw [Nat.succ_mul] at h; omega)
    · rw [if_neg hlt]
      exact ⟨_, rfl⟩

theorem find_timestamps_end_fuel (e : TimestampsEnv) (total_bytes : Int)
    (h0 : 0 ≤ total_bytes) (htotal : total_bytes < 2 ^ 63) (hpkt : 50 * e.maxpkt < 2 ^ 63) :
    ∃ r, find_timestamps_end e (ofInt64 total_bytes) 81
      (ofInt64 (max 188 (total_bytes - 4000 * (e.maxpkt : Int)))) = some r := by
  have h1 : ofInt64 total_bytes = total_bytes.toNat := by
    unfold ofInt64
    rw [Int.emod_eq_of_lt h0 (by omega)]
  have h2 : ofInt64 (max 188 (total_bytes - 4000 * (e.maxpkt : Int)))
      = (max 188 (total_bytes - 4000 * (e.maxpkt : Int))).toNat := by
    unfold ofInt64
    rw [Int.emod_eq_of_lt (by omega) (by omega)]
  rw [h1, h2]
  exact find_timestamps_end_total e _ (by omega) hpkt 80 _ (by omega)

/-! ### The PES header length as an 8-bit sum -/

theorem pes_removed_size_eq (b0 b1 b2 b3 l0 l1 p1 p2 h : Nat) (rest : List Nat)
    (hstid : GST_READ_UINT32_BE b0 b1 b2 b3 &&& 0x000000ff ≠ 0xbf) (hh : h ≤ 252) :
    pes_removed_size (b0 :: b1 :: b2 :: b3 :: l0 :: l1 :: p1 :: p2 :: h :: rest) = 9 + h := by
  unfold pes_removed_size
  simp only [List.getD_cons_zero, List.getD_cons_succ]
  rw [if_pos hstid, Nat.mod_eq_of_lt (by omega)]
  omega

/-- Claim C21, evaluation of the code on the failing input: the PUSI packet
`pesLongHeader` (PES_header_data_length 253), one packet without PUSI with the
payload 10, 11, then the next PUSI packet. The 8-bit sum 253 + 3 is 0, so the
length check passes, the stream goes to BUFFER and only the first 6 bytes are
removed: the group pushed downstream starts with the buffer
[0x80, 0, 253, 1, 2, 3], which still holds the two flag bytes and the header
length byte of the PES header and 3 of its 253 header data bytes. Up to
PES_header_data_length 252 the removed bytes are the 9 + h header bytes. -/
theorem pes_group_keeps_header_bytes :
    pes_removed_size [0, 0, 1, 0xe0, 0, 0, 0x80, 0, 253, 1, 2, 3] = 6
      ∧ pushSummary (handle_packets noReadTs pushOk 65 pushDemux emptyStream
          [pesLongHeader, packetInput false [10, 11], pesLast])
        = some ([PadOutput.newsegment (-1) (-2) 0,
                 PadOutput.buffer_list
                   [{ packetBuffer with data := [0x80, 0, 253, 1, 2, 3], caps := true },
                    { packetBuffer with data := [10, 11] }]],
                { emptyStream with
                    state := PendingPacketState.PENDING_PACKET_BUFFER, current := true,
                    currentlist := [{ packetBuffer with data := [20, 21, 22], caps := true }] })
      ∧ (∀ (b0 b1 b2 b3 l0 l1 p1 p2 h : Nat) (rest : List Nat),
          GST_READ_UINT32_BE b0 b1 b2 b3 &&& 0x000000ff ≠ 0xbf → h ≤ 252 →
          pes_removed_size (b0 :: b1 :: b2 :: b3 :: l0 :: l1 :: p1 :: p2 :: h :: rest)
            = 9 + h) :=
  ⟨rfl, rfl, pes_removed_size_eq⟩

end TsDemux
